import Mathlib

/-!
# glTF-IBL-Sampler: the pipeline driver of `lib/source/lib.cpp`

A shallow embedding of `IBLLib::sample` and of the helpers it calls
(`uploadImage`, `compileShader`, `generateMipmapLevels`, `convertVkFormat`,
`downloadCubemap`).  The device layer (`vkHelper`), the panorama loader, the
shader compiler and the KTX writer are external: every call to them is
recorded as an `Event`, and the value a fallible call returns is read from an
environment `Env` that sees the whole history of calls.  Early returns of the
C++ code are early returns here; machine integers are natural numbers with
the wrap-around written out where the code can reach it, and the one `float`
computed is a rational number rounded to binary32.
-/

namespace IBLLib

/-! ## Scalars -/

/-- Object handles of the device layer; `0` is `VK_NULL_HANDLE`. -/
abbrev Handle := Nat

/-- The null handle. -/
def VK_NULL_HANDLE : Handle := 0

/-- Pixel formats are the integer codes of `VkFormat`. -/
abbrev VkFormat := Nat

/-- The internal working format, `VK_FORMAT_R32G32B32A32_SFLOAT = 109`. -/
def VK_FORMAT_R32G32B32A32_SFLOAT : VkFormat := 109

/-- `VK_FORMAT_UNDEFINED = 0`. -/
def VK_FORMAT_UNDEFINED : VkFormat := 0

/-- `VkResult` is a C enumeration, an integer; only `VK_SUCCESS` is told apart. -/
abbrev VkResult := Int

/-- `VK_SUCCESS = 0`. -/
def VK_SUCCESS : VkResult := 0

/-- Reduction of a natural number to `uint32_t`. -/
def uint32_t (n : Nat) : Nat := n % 4294967296

/-- Reduction of a natural number to `size_t`, taken to be 64 bits wide. -/
def size_t (n : Nat) : Nat := n % 18446744073709551616

/-- Conversion of an unsigned 32-bit value to `int32_t` (two's complement). -/
def int32_t (n : Nat) : Int :=
  if n % 4294967296 < 2147483648 then ((n % 4294967296 : Nat) : Int)
  else ((n % 4294967296 : Nat) : Int) - 4294967296

/-- The integer nearest to `y`, the even one of the two when `y` lies halfway
between them. -/
def roundHalfEven (y : ℚ) : ℤ :=
  if y - ⌊y⌋ < 1 / 2 then ⌊y⌋
  else if 1 / 2 < y - ⌊y⌋ then ⌊y⌋ + 1
  else if ⌊y⌋ % 2 = 0 then ⌊y⌋ else ⌊y⌋ + 1

/-- Rounding of a real value to `float`, taken to be IEEE 754 binary32 in the
default rounding mode (to nearest, ties to even): with `e = floor(log2 |x|)`
the result is the multiple of `2 ^ (e - 23)` nearest to `x`, a number of 24
significant bits.  The result is kept as the rational value of the `float`.
Values below `2 ^ (-126)` or above `2 ^ 128` in magnitude, where binary32
leaves this format, do not arise: `float` is applied to 32-bit unsigned
integers and to quotients of two of them. -/
def float (x : ℚ) : ℚ :=
  if x = 0 then 0
  else (roundHalfEven (x * (2 : ℚ) ^ (23 - Int.log 2 |x|)) : ℚ) * (2 : ℚ) ^ (Int.log 2 |x| - 23)

/-- Modelled from the spec: `ResultType.h` is not among the sources.  The
enumerators are the ones `lib.cpp` names, with the container-writer failure
kind of spec section 7 added as `ContainerWriteFailed`. -/
inductive Result
  | Success
  | InvalidArgument
  | InputPanoramaFileNotFound
  | ShaderFileNotFound
  | ShaderCompilationFailed
  | VulkanInitializationFailed
  | VulkanError
  | ContainerWriteFailed
  deriving DecidableEq, Repr

/-- Modelled from the spec: the integer value of a `Result` enumerator, which
`sample` compares against `VK_SUCCESS` (lines 982 and 989).  `Success` is the
zero enumerator; the others are non-zero. -/
def Result.toInt : Result → Int
  | .Success => 0
  | .InvalidArgument => 1
  | .InputPanoramaFileNotFound => 2
  | .ShaderFileNotFound => 3
  | .ShaderCompilationFailed => 4
  | .VulkanInitializationFailed => 5
  | .VulkanError => 6
  | .ContainerWriteFailed => 7

/-- The image layouts `lib.cpp` uses. -/
inductive VkImageLayout
  | UNDEFINED
  | COLOR_ATTACHMENT_OPTIMAL
  | SHADER_READ_ONLY_OPTIMAL
  | TRANSFER_SRC_OPTIMAL
  | TRANSFER_DST_OPTIMAL
  deriving DecidableEq, Repr

/-- Shader stages of `ShaderCompiler::Stage`. -/
inductive Stage
  | Vertex
  | Fragment
  deriving DecidableEq, Repr

/-- `KtxImage::Version` of `ktxImage.h`. -/
inductive Version
  | KTX1
  | KTX2
  deriving DecidableEq, Repr

/-- The fields of `VkImageCreateInfo` that `lib.cpp` reads back through
`getCreateInfo` (usage, tiling and memory flags are left out). -/
structure VkImageCreateInfo where
  format : VkFormat
  width : Nat
  height : Nat
  mipLevels : Nat
  arrayLayers : Nat
  cubeCompatible : Bool
  deriving DecidableEq, Repr

/-- `VkImageSubresourceRange`; the aspect is always the colour aspect. -/
structure VkImageSubresourceRange where
  baseMipLevel : Nat
  levelCount : Nat
  baseArrayLayer : Nat
  layerCount : Nat
  deriving DecidableEq, Repr

/-- `VkImageBlit`: both `offsets[0]` are zero, `offsets[1]` are `int32_t`. -/
structure VkImageBlit where
  srcMipLevel : Nat
  srcLayerCount : Nat
  srcX : Int
  srcY : Int
  srcZ : Int
  dstMipLevel : Nat
  dstLayerCount : Nat
  dstX : Int
  dstY : Int
  dstZ : Int
  deriving DecidableEq, Repr

/-- `VkBufferImageCopy` as `downloadCubemap` fills it. -/
structure VkBufferImageCopy where
  mipLevel : Nat
  baseArrayLayer : Nat
  layerCount : Nat
  width : Nat
  height : Nat
  depth : Nat
  deriving DecidableEq, Repr

/-- The push-constant block of `sample` (lines 669-675); the roughness holds
the rational value of the `float` stored. -/
structure PushConstant where
  roughness : ℚ
  sampleCount : Nat
  mipLevel : Nat
  width : Nat
  deriving DecidableEq

/-! ## Calls to the external components -/

/-- One call to an external component, with the arguments `lib.cpp` passes.
Pipeline stage and access masks of barriers are left out. -/
inductive Event
  | vulkanInitialize
  | loadHdr (path : String)
  | createCommandBuffer (cmd : Handle)
  | createBufferAndAllocate (buffer : Handle) (size : Nat)
  | writeBufferData (buffer : Handle) (size : Nat)
  | createImage2DAndAllocate (image : Handle) (info : VkImageCreateInfo)
  | beginCommandBuffer (cmd : Handle)
  | transitionImageToTransferWrite (cmd image : Handle)
  | copyBufferToBasicImage2D (cmd buffer image : Handle)
  | transitionImageToShaderRead (cmd image : Handle)
  | endCommandBuffer (cmd : Handle)
  | executeCommandBuffer (cmd : Handle)
  | destroyBuffer (buffer : Handle)
  | destroyCommandBuffer (cmd : Handle)
  | imageBarrier (cmd image : Handle) (oldLayout newLayout : VkImageLayout)
      (range : VkImageSubresourceRange)
  | cmdBlitImage (cmd srcImage : Handle) (srcLayout : VkImageLayout) (dstImage : Handle)
      (dstLayout : VkImageLayout) (blit : VkImageBlit)
  | copyImage2DToBuffer (cmd image buffer : Handle) (region : VkBufferImageCopy)
  | readBufferData (buffer : Handle) (size : Nat)
  | readFile (path : String)
  | compile (entryPoint : String) (stage : Stage)
  | loadShaderModule (module : Handle)
  | createSampler (sampler : Handle) (maxLod : Nat)
  | createImageView (view image : Handle) (range : Option VkImageSubresourceRange)
      (cube : Bool)
  | createRenderPass (renderPass : Handle) (attachments : List VkFormat)
  | createDescriptorSet (setLayout set sampler view : Handle) (binding : Nat)
  | updateDescriptorSets (set : Handle)
  | createPipelineLayout (layout setLayout : Handle) (pushConstantRanges : Nat)
  | createPipeline (pipeline layout renderPass vertexShader fragmentShader : Handle)
      (fragmentEntry : String) (attachments width height : Nat)
  | createFramebuffer (framebuffer renderPass : Handle) (width height : Nat)
      (views : List Handle) (layers : Nat)
  | bindDescriptorSet (cmd layout set : Handle)
  | cmdBindPipeline (cmd pipeline : Handle)
  | beginRenderPass (cmd renderPass framebuffer : Handle) (width height clearValues : Nat)
  | cmdDraw (cmd : Handle) (vertexCount instanceCount : Nat)
  | endRenderPass (cmd : Handle)
  | cmdPushConstants (cmd layout : Handle) (values : PushConstant)
  | ktxCreate (version : Version) (width height : Nat) (format : VkFormat) (levels : Nat)
      (isCubeMap : Bool)
  | writeFace (dataSize face level : Nat)
  | compress (quality : Nat)
  | save (path : String)
  deriving DecidableEq

/-- The behaviour of the external components in one run.  Each answer is a
function of the history of calls, the call being answered included as its
last entry. -/
structure Env where
  /-- Result of a device-layer call. -/
  vk : List Event → VkResult
  /-- Result of `STBImage::loadHdr`. -/
  loadHdr : List Event → Result
  /-- Whether `readFile` found the shader source. -/
  readFile : List Event → Bool
  /-- Whether `ShaderCompiler::compile` succeeded. -/
  compile : List Event → Bool
  /-- Result of `KtxImage::writeFace`. -/
  writeFace : List Event → Result
  /-- Result of `KtxImage::compress`. -/
  compress : List Event → Result
  /-- Result of `KtxImage::save`. -/
  save : List Event → Result
  /-- Width of the decoded panorama. -/
  panoramaWidth : Nat
  /-- Height of the decoded panorama. -/
  panoramaHeight : Nat
  /-- Byte size of the decoded panorama (`size_t`). -/
  panoramaByteSize : Nat
  /-- `FormatElementSize` of `vk_format_utils.h`: bytes per texel. -/
  FormatElementSize : VkFormat → Nat
  /-- The build-time shader directory. -/
  IBLSAMPLER_SHADERS_DIR : String

/-- The state of the run: the calls made so far, the next fresh handle of the
device layer, and the create-infos `vkHelper` keeps for the images it made
(image `h` is entry `h - 1`). -/
structure World where
  trace : List Event
  nextHandle : Nat
  images : List VkImageCreateInfo

/-- The state `sample` starts from: its `vkHelper` is a fresh local object. -/
def World.fresh : World := ⟨[], 1, []⟩

/-- Computations that call the external components. -/
def Dev (α : Type) : Type := World → α × World

instance : Monad Dev where
  pure a := fun w => (a, w)
  bind x f := fun w => match x w with
    | (a, w1) => f a w1

/-- A call that returns nothing. -/
def emit (e : Event) : Dev Unit := fun w =>
  ((), { w with trace := w.trace ++ [e] })

/-- A device-layer call that returns a `VkResult`. -/
def vkCall (env : Env) (e : Event) : Dev VkResult := fun w =>
  (env.vk (w.trace ++ [e]), { w with trace := w.trace ++ [e] })

/-- Modelled from the spec: a `vkHelper` call that creates an object (the
device layer is not among the sources).  On success the out-parameter holds a
fresh non-null handle, otherwise it stays null. -/
def vkCreate (env : Env) (mk : Handle → Event) : Dev (VkResult × Handle) := fun w =>
  let t := w.trace ++ [mk w.nextHandle]
  if env.vk t = VK_SUCCESS then
    ((env.vk t, w.nextHandle), { w with trace := t, nextHandle := w.nextHandle + 1 })
  else
    ((env.vk t, VK_NULL_HANDLE), { w with trace := t })

/-- Modelled from the spec: `vkHelper::createImage2DAndAllocate` (the device
layer is not among the sources).  On success the image gets the next image
handle and its create-info is kept for `getCreateInfo`. -/
def createImage2DAndAllocate (env : Env) (info : VkImageCreateInfo) :
    Dev (VkResult × Handle) := fun w =>
  let t := w.trace ++ [Event.createImage2DAndAllocate (w.images.length + 1) info]
  if env.vk t = VK_SUCCESS then
    ((env.vk t, w.images.length + 1), { w with trace := t, images := w.images ++ [info] })
  else
    ((env.vk t, VK_NULL_HANDLE), { w with trace := t })

/-- Modelled from the spec: `vkHelper::getCreateInfo`, the create-info of a
known image, or nothing (`nullptr`) for the null handle or an unknown one. -/
def getCreateInfo (image : Handle) : Dev (Option VkImageCreateInfo) := fun w =>
  (if image = VK_NULL_HANDLE then none else w.images[image - 1]?, w)

/-- A call to the panorama loader. -/
def loadHdr (env : Env) (path : String) : Dev Result := fun w =>
  (env.loadHdr (w.trace ++ [Event.loadHdr path]),
    { w with trace := w.trace ++ [Event.loadHdr path] })

/-- A call to `readFile`. -/
def readFile (env : Env) (path : String) : Dev Bool := fun w =>
  (env.readFile (w.trace ++ [Event.readFile path]),
    { w with trace := w.trace ++ [Event.readFile path] })

/-- A call to `ShaderCompiler::compile`. -/
def compile (env : Env) (entryPoint : String) (stage : Stage) : Dev Bool := fun w =>
  (env.compile (w.trace ++ [Event.compile entryPoint stage]),
    { w with trace := w.trace ++ [Event.compile entryPoint stage] })

/-- A call to `KtxImage::writeFace`. -/
def writeFace (env : Env) (dataSize face level : Nat) : Dev Result := fun w =>
  (env.writeFace (w.trace ++ [Event.writeFace dataSize face level]),
    { w with trace := w.trace ++ [Event.writeFace dataSize face level] })

/-- A call to `KtxImage::compress`. -/
def compress (env : Env) (quality : Nat) : Dev Result := fun w =>
  (env.compress (w.trace ++ [Event.compress quality]),
    { w with trace := w.trace ++ [Event.compress quality] })

/-- A call to `KtxImage::save`. -/
def save (env : Env) (path : String) : Dev Result := fun w =>
  (env.save (w.trace ++ [Event.save path]),
    { w with trace := w.trace ++ [Event.save path] })

/-! ## `uploadImage` (lines 11-70) -/

/-- `uploadImage`: the result and the out-parameter `_outImage`. -/
def uploadImage (env : Env) (_inputPath : String) : Dev (Result × Handle) := do
  let r ← loadHdr env _inputPath
  if r != Result.Success then
    return (Result.InputPanoramaFileNotFound, VK_NULL_HANDLE)
  let (r, uploadCmds) ← vkCreate env Event.createCommandBuffer
  if r != VK_SUCCESS then
    return (Result.VulkanError, VK_NULL_HANDLE)
  let (r, stagingBuffer) ← vkCreate env
    (fun b => Event.createBufferAndAllocate b (uint32_t env.panoramaByteSize))
  if r != VK_SUCCESS then
    return (Result.VulkanError, VK_NULL_HANDLE)
  let r ← vkCall env (Event.writeBufferData stagingBuffer env.panoramaByteSize)
  if r != VK_SUCCESS then
    return (Result.VulkanError, VK_NULL_HANDLE)
  let (r, _outImage) ← createImage2DAndAllocate env
    ⟨VK_FORMAT_R32G32B32A32_SFLOAT, env.panoramaWidth, env.panoramaHeight, 1, 1, false⟩
  if r != VK_SUCCESS then
    return (Result.VulkanError, _outImage)
  let r ← vkCall env (Event.beginCommandBuffer uploadCmds)
  if r != VK_SUCCESS then
    return (Result.VulkanError, _outImage)
  emit (Event.transitionImageToTransferWrite uploadCmds _outImage)
  emit (Event.copyBufferToBasicImage2D uploadCmds stagingBuffer _outImage)
  emit (Event.transitionImageToShaderRead uploadCmds _outImage)
  let r ← vkCall env (Event.endCommandBuffer uploadCmds)
  if r != VK_SUCCESS then
    return (Result.VulkanError, _outImage)
  let r ← vkCall env (Event.executeCommandBuffer uploadCmds)
  if r != VK_SUCCESS then
    return (Result.VulkanError, _outImage)
  emit (Event.destroyBuffer stagingBuffer)
  emit (Event.destroyCommandBuffer uploadCmds)
  return (Result.Success, _outImage)

/-! ## `convertVkFormat` (lines 72-153) -/

/-- The blit loop of `convertVkFormat` (lines 117-150): `n` iterations are
left, `level` counts up and `currentSideLength` is halved after each blit. -/
def convertVkFormat.blitLoop (_commandBuffer _srcImage _outImage arrayLayers : Nat) :
    Nat → Nat → Nat → Dev Unit
  | 0, _, _ => pure ()
  | n + 1, level, currentSideLength => do
    emit (Event.cmdBlitImage _commandBuffer _srcImage VkImageLayout.TRANSFER_SRC_OPTIMAL
      _outImage VkImageLayout.TRANSFER_DST_OPTIMAL
      ⟨level, arrayLayers, int32_t currentSideLength, int32_t currentSideLength, 1,
       level, arrayLayers, int32_t currentSideLength, int32_t currentSideLength, 1⟩)
    convertVkFormat.blitLoop _commandBuffer _srcImage _outImage arrayLayers n (level + 1)
      (currentSideLength >>> 1)

/-- `convertVkFormat`: `_outImage` is passed in and handed back. -/
def convertVkFormat (env : Env) (_commandBuffer _srcImage _outImage : Handle)
    (_dstFormat : VkFormat) (inputImageLayout : VkImageLayout) : Dev (Result × Handle) := do
  let pInfo ← getCreateInfo _srcImage
  match pInfo with
  | none => return (Result.InvalidArgument, _outImage)
  | some info =>
    if _outImage != VK_NULL_HANDLE then
      return (Result.InvalidArgument, _outImage)
    let sideLength := info.width
    let mipLevels := info.mipLevels
    let arrayLayers := info.arrayLayers
    let (r, _outImage) ← createImage2DAndAllocate env
      ⟨_dstFormat, sideLength, sideLength, mipLevels, arrayLayers, false⟩
    if r != VK_SUCCESS then
      return (Result.VulkanError, _outImage)
    let subresourceRange : VkImageSubresourceRange := ⟨0, mipLevels, 0, arrayLayers⟩
    emit (Event.imageBarrier _commandBuffer _outImage VkImageLayout.UNDEFINED
      VkImageLayout.TRANSFER_DST_OPTIMAL subresourceRange)
    emit (Event.imageBarrier _commandBuffer _srcImage inputImageLayout
      VkImageLayout.TRANSFER_SRC_OPTIMAL subresourceRange)
    convertVkFormat.blitLoop _commandBuffer _srcImage _outImage arrayLayers mipLevels 0
      sideLength
    return (Result.Success, _outImage)

/-! ## `downloadCubemap` (lines 155-315) -/

/-- The inner loop of lines 182-192: one staging buffer per face; `n` faces
are left, `faces` holds the buffers made so far. -/
def downloadCubemap.allocFaces (env : Env) (size : Nat) :
    Nat → List Handle → Dev (Option Result × List Handle)
  | 0, faces => pure (none, faces)
  | n + 1, faces => do
    let (r, buffer) ← vkCreate env (fun b => Event.createBufferAndAllocate b size)
    if r != VK_SUCCESS then
      return (some Result.VulkanError, faces)
    downloadCubemap.allocFaces env size n (faces ++ [buffer])

/-- The outer loop of lines 177-195; the buffer size is computed in
`uint32_t` arithmetic. -/
def downloadCubemap.allocLevels (env : Env) (cubeMapFormatByteSize : Nat) :
    Nat → Nat → List (List Handle) → Dev (Option Result × List (List Handle))
  | 0, _, stagingBuffer => pure (none, stagingBuffer)
  | n + 1, currentSideLength, stagingBuffer => do
    let (r, faces) ← downloadCubemap.allocFaces env
      (uint32_t (currentSideLength * currentSideLength * cubeMapFormatByteSize)) 6 []
    match r with
    | some res => return (some res, stagingBuffer)
    | none =>
      downloadCubemap.allocLevels env cubeMapFormatByteSize n (currentSideLength >>> 1)
        (stagingBuffer ++ [faces])

/-- The inner loop of lines 238-244. -/
def downloadCubemap.copyFaces (downloadCmds _srcImage : Handle) (faces : List Handle)
    (level currentSideLength : Nat) : Nat → Nat → Dev Unit
  | 0, _ => pure ()
  | n + 1, face => do
    emit (Event.copyImage2DToBuffer downloadCmds _srcImage (faces.getD face VK_NULL_HANDLE)
      ⟨level, face, 1, currentSideLength, currentSideLength, 1⟩)
    downloadCubemap.copyFaces downloadCmds _srcImage faces level currentSideLength n (face + 1)

/-- The outer loop of lines 233-247. -/
def downloadCubemap.copyLevels (downloadCmds _srcImage : Handle)
    (stagingBuffer : List (List Handle)) : Nat → Nat → Nat → Dev Unit
  | 0, _, _ => pure ()
  | n + 1, level, currentSideLength => do
    downloadCubemap.copyFaces downloadCmds _srcImage (stagingBuffer.getD level []) level
      currentSideLength 6 0
    downloadCubemap.copyLevels downloadCmds _srcImage stagingBuffer n (level + 1)
      (currentSideLength >>> 1)

/-- The inner loop of lines 278-292: read a face back, write it to the
container, destroy its buffer. -/
def downloadCubemap.writeFaces (env : Env) (faces : List Handle) (imageByteSize level : Nat) :
    Nat → Nat → Dev (Option Result)
  | 0, _ => pure none
  | n + 1, face => do
    let r ← vkCall env (Event.readBufferData (faces.getD face VK_NULL_HANDLE) imageByteSize)
    if r != VK_SUCCESS then
      return some Result.VulkanError
    let res ← writeFace env imageByteSize face level
    if res != Result.Success then
      return some res
    emit (Event.destroyBuffer (faces.getD face VK_NULL_HANDLE))
    downloadCubemap.writeFaces env faces imageByteSize level n (face + 1)

/-- The outer loop of lines 271-295; the payload size is computed in `size_t`
arithmetic. -/
def downloadCubemap.writeLevels (env : Env) (stagingBuffer : List (List Handle))
    (cubeMapFormatByteSize : Nat) : Nat → Nat → Nat → Dev (Option Result)
  | 0, _, _ => pure none
  | n + 1, level, currentSideLength => do
    let imageByteSize := size_t (currentSideLength * currentSideLength * cubeMapFormatByteSize)
    let r ← downloadCubemap.writeFaces env (stagingBuffer.getD level []) imageByteSize level 6 0
    match r with
    | some res => return some res
    | none =>
      downloadCubemap.writeLevels env stagingBuffer cubeMapFormatByteSize n (level + 1)
        (currentSideLength >>> 1)

/-- Lines 297-314 of `downloadCubemap`: the optional compression and the
save of the container. -/
def downloadCubemap.finish (env : Env) (_outputPath : String) (_ktxCompressionQuality : Nat) :
    Dev Result := do
  if _ktxCompressionQuality > 0 then
    let res ← compress env _ktxCompressionQuality
    if res != Result.Success then
      return res
  let res ← save env _outputPath
  if res != Result.Success then
    return res
  return Result.Success

/-- `downloadCubemap` (lines 155-296), followed by `downloadCubemap.finish`. -/
def downloadCubemap (env : Env) (_srcImage : Handle) (_outputPath : String)
    (_ktxVersion : Version) (_ktxCompressionQuality : Nat) (inputImageLayout : VkImageLayout) :
    Dev Result := do
  let pInfo ← getCreateInfo _srcImage
  match pInfo with
  | none => return Result.InvalidArgument
  | some info =>
    let cubeMapFormat := info.format
    let cubeMapFormatByteSize := uint32_t (env.FormatElementSize cubeMapFormat)
    let cubeMapSideLength := info.width
    let mipLevels := info.mipLevels
    let (r, stagingBuffer) ← downloadCubemap.allocLevels env cubeMapFormatByteSize mipLevels
      cubeMapSideLength []
    match r with
    | some res => return res
    | none =>
      let (r, downloadCmds) ← vkCreate env Event.createCommandBuffer
      if r != VK_SUCCESS then
        return Result.VulkanError
      let r ← vkCall env (Event.beginCommandBuffer downloadCmds)
      if r != VK_SUCCESS then
        return Result.VulkanError
      emit (Event.imageBarrier downloadCmds _srcImage inputImageLayout
        VkImageLayout.TRANSFER_SRC_OPTIMAL ⟨0, mipLevels, 0, 6⟩)
      downloadCubemap.copyLevels downloadCmds _srcImage stagingBuffer mipLevels 0
        cubeMapSideLength
      let r ← vkCall env (Event.endCommandBuffer downloadCmds)
      if r != VK_SUCCESS then
        return Result.VulkanError
      let r ← vkCall env (Event.executeCommandBuffer downloadCmds)
      if r != VK_SUCCESS then
        return Result.VulkanError
      emit (Event.destroyCommandBuffer downloadCmds)
      emit (Event.ktxCreate _ktxVersion cubeMapSideLength cubeMapSideLength cubeMapFormat
        mipLevels true)
      let r ← downloadCubemap.writeLevels env stagingBuffer cubeMapFormatByteSize mipLevels 0
        cubeMapSideLength
      match r with
      | some res => return res
      | none => downloadCubemap.finish env _outputPath _ktxCompressionQuality

/-! ## `generateMipmapLevels` (lines 317-399) -/

/-- The loop of lines 332-384: `n` iterations are left and `i` counts up
from 1. -/
def generateMipmapLevels.loop (_commandBuffer _image _sideLength : Nat) : Nat → Nat → Dev Unit
  | 0, _ => pure ()
  | n + 1, i => do
    let imageBlit : VkImageBlit :=
      ⟨i - 1, 6, int32_t (_sideLength >>> (i - 1)), int32_t (_sideLength >>> (i - 1)), 1,
       i, 6, int32_t (_sideLength >>> i), int32_t (_sideLength >>> i), 1⟩
    let mipSubRange : VkImageSubresourceRange := ⟨i, 1, 0, 6⟩
    emit (Event.imageBarrier _commandBuffer _image VkImageLayout.COLOR_ATTACHMENT_OPTIMAL
      VkImageLayout.TRANSFER_DST_OPTIMAL mipSubRange)
    emit (Event.cmdBlitImage _commandBuffer _image VkImageLayout.TRANSFER_SRC_OPTIMAL _image
      VkImageLayout.TRANSFER_DST_OPTIMAL imageBlit)
    emit (Event.imageBarrier _commandBuffer _image VkImageLayout.TRANSFER_DST_OPTIMAL
      VkImageLayout.TRANSFER_SRC_OPTIMAL mipSubRange)
    generateMipmapLevels.loop _commandBuffer _image _sideLength n (i + 1)

/-- `generateMipmapLevels`; the loop `for (i = 1; i < _maxMipLevels; i++)`
runs `_maxMipLevels - 1` times (not at all for `_maxMipLevels = 0`). -/
def generateMipmapLevels (_commandBuffer _image _maxMipLevels _sideLength : Nat) : Dev Unit := do
  emit (Event.imageBarrier _commandBuffer _image VkImageLayout.COLOR_ATTACHMENT_OPTIMAL
    VkImageLayout.TRANSFER_SRC_OPTIMAL ⟨0, 1, 0, 6⟩)
  generateMipmapLevels.loop _commandBuffer _image _sideLength (_maxMipLevels - 1) 1
  emit (Event.imageBarrier _commandBuffer _image VkImageLayout.TRANSFER_SRC_OPTIMAL
    VkImageLayout.SHADER_READ_ONLY_OPTIMAL ⟨0, _maxMipLevels, 0, 6⟩)

/-! ## `compileShader` (lines 401-422) -/

/-- `compileShader`: the result and the out-parameter `_outModule`, which the
callers initialise to the null handle. -/
def compileShader (env : Env) (_path _entryPoint : String) (_stage : Stage) :
    Dev (Result × Handle) := do
  let found ← readFile env _path
  if found == false then
    return (Result.ShaderFileNotFound, VK_NULL_HANDLE)
  let compiled ← compile env _entryPoint _stage
  if compiled == false then
    return (Result.ShaderCompilationFailed, VK_NULL_HANDLE)
  let (r, _outModule) ← vkCreate env Event.loadShaderModule
  if r != VK_SUCCESS then
    return (Result.VulkanError, _outModule)
  return (Result.Success, _outModule)

/-! ## `IBLLib::sample` (lines 425-997) -/

/-- The loop `for (m = cubeMapSideLength; m > 0; m = m >> 1, ++maxMipLevels)`
of line 432, with the loop variable `m` and the counter as arguments.  The
first argument is fuel: started at `m` it never runs out before `m` reaches
`0`, where the loop ends anyway (`sample.maxMipLevelsLoop_fuel`). -/
def sample.maxMipLevelsLoop : Nat → Nat → Nat → Nat
  | 0, _, maxMipLevels => maxMipLevels
  | fuel + 1, m, maxMipLevels =>
    if m > 0 then sample.maxMipLevelsLoop fuel (m >>> 1) (uint32_t (maxMipLevels + 1))
    else maxMipLevels

/-- Lines 431-432: `maxMipLevels` after the loop. -/
def sample.maxMipLevels (cubeMapSideLength : Nat) : Nat :=
  sample.maxMipLevelsLoop cubeMapSideLength cubeMapSideLength 0

/-- The face loops of lines 550-559, 586-592 and 813-819: one view per layer
`j` of mip level `mipLevel`; `n` layers are left. -/
def sample.createFaceViews (env : Env) (image mipLevel : Nat) :
    Nat → Nat → List Handle → Dev (Option Result × List Handle)
  | 0, _, views => pure (none, views)
  | n + 1, j, views => do
    let (r, view) ← vkCreate env
      (fun v => Event.createImageView v image (some ⟨mipLevel, 1, j, 1⟩) false)
    if r != VK_SUCCESS then
      return (some Result.VulkanError, views)
    sample.createFaceViews env image mipLevel n (j + 1) (views ++ [view])

/-- The loop of lines 546-560 over the specular mip levels. -/
def sample.createSpecularViews (env : Env) (outputSpecularCubeMap : Handle) :
    Nat → Nat → List (List Handle) → Dev (Option Result × List (List Handle))
  | 0, _, outputSpecularCubeMapViews => pure (none, outputSpecularCubeMapViews)
  | n + 1, i, outputSpecularCubeMapViews => do
    let (r, views) ← sample.createFaceViews env outputSpecularCubeMap i 6 0 []
    match r with
    | some res => return (some res, outputSpecularCubeMapViews)
    | none =>
      sample.createSpecularViews env outputSpecularCubeMap n (i + 1)
        (outputSpecularCubeMapViews ++ [views])

/-- The specular filter loop of lines 861-892; `n` levels are left.  The
roughness of line 879 is a `float` division: the level is converted to
`float`, divided by the count converted to `float`, and the quotient is
rounded to `float`.  The body runs only for a level below the count, so the
divisor is not zero. -/
def sample.specularLoop (env : Env) (cubeMapCmd renderPass outputSpecularCubeMap
    specularFilterPipelineLayout : Handle) (outputSpecularCubeMapViews : List (List Handle))
    (outputMipLevels _sampleCount : Nat) : Nat → Nat → Nat → Dev (Option Result)
  | 0, _, _ => pure none
  | n + 1, currentMipLevel, currentFramebufferSideLength => do
    let (r, cubeMapOutputFramebuffer) ← vkCreate env (fun f => Event.createFramebuffer f
      renderPass currentFramebufferSideLength currentFramebufferSideLength
      (outputSpecularCubeMapViews.getD currentMipLevel []) 1)
    if r != VK_SUCCESS then
      return some Result.VulkanError
    emit (Event.imageBarrier cubeMapCmd outputSpecularCubeMap VkImageLayout.UNDEFINED
      VkImageLayout.COLOR_ATTACHMENT_OPTIMAL ⟨currentMipLevel, 1, 0, 6⟩)
    let values : PushConstant :=
      ⟨float (float (currentMipLevel : ℚ) / float (outputMipLevels : ℚ)), _sampleCount,
       currentMipLevel, currentFramebufferSideLength⟩
    emit (Event.cmdPushConstants cubeMapCmd specularFilterPipelineLayout values)
    emit (Event.beginRenderPass cubeMapCmd renderPass cubeMapOutputFramebuffer
      currentFramebufferSideLength currentFramebufferSideLength 6)
    emit (Event.cmdDraw cubeMapCmd 3 1)
    emit (Event.endRenderPass cubeMapCmd)
    sample.specularLoop env cubeMapCmd renderPass outputSpecularCubeMap
      specularFilterPipelineLayout outputSpecularCubeMapViews outputMipLevels _sampleCount n
      (currentMipLevel + 1) (currentFramebufferSideLength >>> 1)

/-- Modelled from the spec: `DescriptorSetInfo::create` (not among the
sources), which makes a set layout and a set. -/
def createDescriptorSet (env : Env) (sampler view : Handle) (binding : Nat) :
    Dev (VkResult × Handle × Handle) := fun w =>
  let t := w.trace ++
    [Event.createDescriptorSet w.nextHandle (w.nextHandle + 1) sampler view binding]
  if env.vk t = VK_SUCCESS then
    ((env.vk t, w.nextHandle, w.nextHandle + 1),
      { w with trace := t, nextHandle := w.nextHandle + 2 })
  else
    ((env.vk t, VK_NULL_HANDLE, VK_NULL_HANDLE), { w with trace := t })

/-- The switch of lines 970-980. -/
def sample.ktxImageVersion (_ktxVersion : Nat) : Version :=
  match _ktxVersion with
  | 1 => Version.KTX1
  | 2 => Version.KTX2
  | _ => Version.KTX1

/-- Lines 970-996 of `sample`: the container version and the two downloads.
The `Result` that `downloadCubemap` returns is compared against `VK_SUCCESS`,
an integer comparison of two enumerations. -/
def sample.serialise (env : Env) (_outputPathSpecular _outputPathDiffuse : String)
    (_ktxVersion _ktxCompressionQuality : Nat) (convertedSpecularCubeMap
    convertedDiffuseCubeMap : Handle) (currentSpecularCubeMapImageLayout
    currentDiffuseCubeMapImageLayout : VkImageLayout) : Dev Result := do
  let ktxImageVersion := sample.ktxImageVersion _ktxVersion
  let res ← downloadCubemap env convertedSpecularCubeMap _outputPathSpecular ktxImageVersion
    _ktxCompressionQuality currentSpecularCubeMapImageLayout
  if res.toInt != VK_SUCCESS then
    return Result.VulkanError
  let res ← downloadCubemap env convertedDiffuseCubeMap _outputPathDiffuse ktxImageVersion
    _ktxCompressionQuality currentDiffuseCubeMapImageLayout
  if res.toInt != VK_SUCCESS then
    return Result.VulkanError
  return Result.Success

/-- Lines 928-968 of `sample`: the optional format conversion and the
submission of the recorded commands, followed by `sample.serialise`. -/
def sample.output (env : Env) (_outputPathSpecular _outputPathDiffuse : String)
    (_ktxVersion _ktxCompressionQuality : Nat) (_targetFormat : VkFormat)
    (cubeMapCmd outputSpecularCubeMap outputDiffuseCubeMap : Handle) : Dev Result := do
  let cubeMapFormat := VK_FORMAT_R32G32B32A32_SFLOAT
  let targetFormat := _targetFormat
  let mut currentSpecularCubeMapImageLayout := VkImageLayout.COLOR_ATTACHMENT_OPTIMAL
  let mut currentDiffuseCubeMapImageLayout := VkImageLayout.COLOR_ATTACHMENT_OPTIMAL
  let mut convertedSpecularCubeMap := VK_NULL_HANDLE
  let mut convertedDiffuseCubeMap := VK_NULL_HANDLE
  if targetFormat != cubeMapFormat then
    let (res, outImage) ← convertVkFormat env cubeMapCmd outputSpecularCubeMap
      convertedSpecularCubeMap targetFormat currentSpecularCubeMapImageLayout
    convertedSpecularCubeMap := outImage
    if res != Result.Success then
      return res
    currentSpecularCubeMapImageLayout := VkImageLayout.TRANSFER_DST_OPTIMAL
    let (res, outImage) ← convertVkFormat env cubeMapCmd outputDiffuseCubeMap
      convertedDiffuseCubeMap targetFormat currentDiffuseCubeMapImageLayout
    convertedDiffuseCubeMap := outImage
    if res != Result.Success then
      return res
    currentDiffuseCubeMapImageLayout := VkImageLayout.TRANSFER_DST_OPTIMAL
  else
    convertedSpecularCubeMap := outputSpecularCubeMap
    convertedDiffuseCubeMap := outputDiffuseCubeMap
  let r ← vkCall env (Event.endCommandBuffer cubeMapCmd)
  if r != VK_SUCCESS then
    return Result.VulkanError
  let r ← vkCall env (Event.executeCommandBuffer cubeMapCmd)
  if r != VK_SUCCESS then
    return Result.VulkanError
  sample.serialise env _outputPathSpecular _outputPathDiffuse _ktxVersion _ktxCompressionQuality
    convertedSpecularCubeMap convertedDiffuseCubeMap currentSpecularCubeMapImageLayout
    currentDiffuseCubeMapImageLayout

/-- Lines 850-926 of `sample`: the mip chain of the source cube map and the
specular and diffuse filter passes, followed by `sample.output`. -/
def sample.filter (env : Env) (_outputPathSpecular _outputPathDiffuse : String)
    (_ktxVersion _ktxCompressionQuality cubeMapSideLength outputMipLevels _sampleCount : Nat)
    (_targetFormat : VkFormat) (maxMipLevels : Nat)
    (inputCubeMap outputSpecularCubeMap : Handle) (outputSpecularCubeMapViews : List (List Handle))
    (outputDiffuseCubeMap : Handle) (outputDiffuseCubeMapViews : List Handle)
    (renderPass specularDescriptorSet specularFilterPipelineLayout specularFilterPipeline
      diffuseFilterPipeline diffuseFilterPipelineLayout diffuseDescriptorSet cubeMapCmd : Handle) :
    Dev Result := do
  generateMipmapLevels cubeMapCmd inputCubeMap maxMipLevels cubeMapSideLength
  emit (Event.bindDescriptorSet cubeMapCmd specularFilterPipelineLayout specularDescriptorSet)
  emit (Event.cmdBindPipeline cubeMapCmd specularFilterPipeline)
  let r ← sample.specularLoop env cubeMapCmd renderPass outputSpecularCubeMap
    specularFilterPipelineLayout outputSpecularCubeMapViews outputMipLevels _sampleCount
    outputMipLevels 0 cubeMapSideLength
  if let some res := r then
    return res
  let (r, diffuseCubeMapFramebuffer) ← vkCreate env (fun f => Event.createFramebuffer f
    renderPass cubeMapSideLength cubeMapSideLength outputDiffuseCubeMapViews 1)
  if r != VK_SUCCESS then
    return Result.VulkanError
  emit (Event.imageBarrier cubeMapCmd outputDiffuseCubeMap VkImageLayout.UNDEFINED
    VkImageLayout.COLOR_ATTACHMENT_OPTIMAL ⟨0, 1, 0, 6⟩)
  emit (Event.bindDescriptorSet cubeMapCmd diffuseFilterPipelineLayout diffuseDescriptorSet)
  emit (Event.cmdBindPipeline cubeMapCmd diffuseFilterPipeline)
  emit (Event.cmdPushConstants cubeMapCmd diffuseFilterPipelineLayout
    ⟨0, _sampleCount, 0, cubeMapSideLength⟩)
  emit (Event.beginRenderPass cubeMapCmd renderPass diffuseCubeMapFramebuffer
    cubeMapSideLength cubeMapSideLength 6)
  emit (Event.cmdDraw cubeMapCmd 3 1)
  emit (Event.endRenderPass cubeMapCmd)
  sample.output env _outputPathSpecular _outputPathDiffuse _ktxVersion _ktxCompressionQuality
    _targetFormat cubeMapCmd outputSpecularCubeMap outputDiffuseCubeMap

/-- Lines 798-848 of `sample`: the command buffer and the projection of the
panorama onto the source cube map, followed by `sample.filter`. -/
def sample.project (env : Env) (_outputPathSpecular _outputPathDiffuse : String)
    (_ktxVersion _ktxCompressionQuality cubeMapSideLength outputMipLevels _sampleCount : Nat)
    (_targetFormat : VkFormat) (maxMipLevels : Nat)
    (inputCubeMap outputSpecularCubeMap : Handle) (outputSpecularCubeMapViews : List (List Handle))
    (outputDiffuseCubeMap : Handle) (outputDiffuseCubeMapViews : List Handle)
    (renderPass panoramaPipelineLayout panoramaSet panoramaToCubeMapPipeline
      specularDescriptorSet specularFilterPipelineLayout specularFilterPipeline
      diffuseFilterPipeline diffuseFilterPipelineLayout diffuseDescriptorSet : Handle) :
    Dev Result := do
  let (r, cubeMapCmd) ← vkCreate env Event.createCommandBuffer
  if r != VK_SUCCESS then
    return Result.VulkanError
  let r ← vkCall env (Event.beginCommandBuffer cubeMapCmd)
  if r != VK_SUCCESS then
    return Result.VulkanError
  let (r, inputCubeMapViews) ← sample.createFaceViews env inputCubeMap 0 6 0 []
  if let some res := r then
    return res
  let (r, cubeMapInputFramebuffer) ← vkCreate env (fun f => Event.createFramebuffer f
    renderPass cubeMapSideLength cubeMapSideLength inputCubeMapViews 1)
  if r != VK_SUCCESS then
    return Result.VulkanError
  emit (Event.imageBarrier cubeMapCmd inputCubeMap VkImageLayout.UNDEFINED
    VkImageLayout.COLOR_ATTACHMENT_OPTIMAL ⟨0, maxMipLevels, 0, 6⟩)
  emit (Event.bindDescriptorSet cubeMapCmd panoramaPipelineLayout panoramaSet)
  emit (Event.cmdBindPipeline cubeMapCmd panoramaToCubeMapPipeline)
  emit (Event.beginRenderPass cubeMapCmd renderPass cubeMapInputFramebuffer cubeMapSideLength
    cubeMapSideLength 6)
  emit (Event.cmdDraw cubeMapCmd 3 1)
  emit (Event.endRenderPass cubeMapCmd)
  sample.filter env _outputPathSpecular _outputPathDiffuse _ktxVersion _ktxCompressionQuality
    cubeMapSideLength outputMipLevels _sampleCount _targetFormat maxMipLevels inputCubeMap
    outputSpecularCubeMap outputSpecularCubeMapViews outputDiffuseCubeMap
    outputDiffuseCubeMapViews renderPass specularDescriptorSet specularFilterPipelineLayout
    specularFilterPipeline diffuseFilterPipeline diffuseFilterPipelineLayout diffuseDescriptorSet
    cubeMapCmd

/-- Lines 610-797 of `sample`: the three pipelines, followed by
`sample.project`. -/
def sample.pipelines (env : Env) (_outputPathSpecular _outputPathDiffuse : String)
    (_ktxVersion _ktxCompressionQuality cubeMapSideLength outputMipLevels _sampleCount : Nat)
    (_targetFormat : VkFormat) (maxMipLevels : Nat)
    (fullscreenVertexShader panoramaToCubeMapFragmentShader filterCubeMapSpecular
      filterCubeMapDiffuse panoramaSampler panoramaImageView inputCubeMap
      inputCubeMapCompleteView outputSpecularCubeMap : Handle)
    (outputSpecularCubeMapViews : List (List Handle))
    (outputDiffuseCubeMap : Handle) (outputDiffuseCubeMapViews : List Handle)
    (renderPass : Handle) : Dev Result := do
  -- panorama to cube map (lines 613-665)
  let (r, panoramaSetLayout, panoramaSet) ← createDescriptorSet env panoramaSampler
    panoramaImageView 0
  if r != VK_SUCCESS then
    return Result.VulkanError
  emit (Event.updateDescriptorSets panoramaSet)
  let (r, panoramaPipelineLayout) ← vkCreate env
    (fun l => Event.createPipelineLayout l panoramaSetLayout 0)
  if r != VK_SUCCESS then
    return Result.VulkanError
  let (r, panoramaToCubeMapPipeline) ← vkCreate env (fun p => Event.createPipeline p
    panoramaPipelineLayout renderPass fullscreenVertexShader panoramaToCubeMapFragmentShader
    "panoramaToCubeMap" 6 cubeMapSideLength cubeMapSideLength)
  if r != VK_SUCCESS then
    return Result.VulkanError
  -- specular filter (lines 687-739)
  let (r, specularSetLayout, specularDescriptorSet) ← createDescriptorSet env panoramaSampler
    inputCubeMapCompleteView 1
  if r != VK_SUCCESS then
    return Result.VulkanError
  emit (Event.updateDescriptorSets specularDescriptorSet)
  let (r, specularFilterPipelineLayout) ← vkCreate env
    (fun l => Event.createPipelineLayout l specularSetLayout 1)
  if r != VK_SUCCESS then
    return Result.VulkanError
  let (r, specularFilterPipeline) ← vkCreate env (fun p => Event.createPipeline p
    specularFilterPipelineLayout renderPass fullscreenVertexShader filterCubeMapSpecular
    "filterCubeMapSpecular" 6 cubeMapSideLength cubeMapSideLength)
  if r != VK_SUCCESS then
    return Result.VulkanError
  -- diffuse filter (lines 744-797)
  let (r, diffuseSetLayout, diffuseDescriptorSet) ← createDescriptorSet env panoramaSampler
    inputCubeMapCompleteView 1
  if r != VK_SUCCESS then
    return Result.VulkanError
  emit (Event.updateDescriptorSets diffuseDescriptorSet)
  let (r, diffuseFilterPipelineLayout) ← vkCreate env
    (fun l => Event.createPipelineLayout l diffuseSetLayout 1)
  if r != VK_SUCCESS then
    return Result.VulkanError
  let (r, diffuseFilterPipeline) ← vkCreate env (fun p => Event.createPipeline p
    diffuseFilterPipelineLayout renderPass fullscreenVertexShader filterCubeMapDiffuse
    "filterCubeMapDiffuse" 6 cubeMapSideLength cubeMapSideLength)
  if r != VK_SUCCESS then
    return Result.VulkanError
  sample.project env _outputPathSpecular _outputPathDiffuse _ktxVersion _ktxCompressionQuality
    cubeMapSideLength outputMipLevels _sampleCount _targetFormat maxMipLevels inputCubeMap
    outputSpecularCubeMap outputSpecularCubeMapViews outputDiffuseCubeMap
    outputDiffuseCubeMapViews renderPass panoramaPipelineLayout panoramaSet
    panoramaToCubeMapPipeline specularDescriptorSet specularFilterPipelineLayout
    specularFilterPipeline diffuseFilterPipeline diffuseFilterPipelineLayout diffuseDescriptorSet

/-- Lines 479-608 of `sample`: the samplers, the three cube images with their
views and the render pass, followed by `sample.pipelines`. -/
def sample.resources (env : Env) (_outputPathSpecular _outputPathDiffuse : String)
    (_ktxVersion _ktxCompressionQuality cubeMapSideLength outputMipLevels _sampleCount : Nat)
    (_targetFormat : VkFormat) (maxMipLevels : Nat)
    (panoramaImage fullscreenVertexShader panoramaToCubeMapFragmentShader filterCubeMapSpecular
      filterCubeMapDiffuse : Handle) : Dev Result := do
  let cubeMapFormat := VK_FORMAT_R32G32B32A32_SFLOAT
  let (r, panoramaSampler) ← vkCreate env
    (fun s => Event.createSampler s (uint32_t (maxMipLevels + 1)))
  if r != VK_SUCCESS then
    return Result.VulkanError
  let (r, _cubeMipMapSampler) ← vkCreate env
    (fun s => Event.createSampler s (uint32_t (maxMipLevels + 1)))
  if r != VK_SUCCESS then
    return Result.VulkanError
  let (r, panoramaImageView) ← vkCreate env
    (fun v => Event.createImageView v panoramaImage none false)
  if r != VK_SUCCESS then
    return Result.VulkanError
  let (r, inputCubeMap) ← createImage2DAndAllocate env
    ⟨cubeMapFormat, cubeMapSideLength, cubeMapSideLength, maxMipLevels, 6, true⟩
  if r != VK_SUCCESS then
    return Result.VulkanError
  let (r, inputCubeMapCompleteView) ← vkCreate env
    (fun v => Event.createImageView v inputCubeMap (some ⟨0, maxMipLevels, 0, 6⟩) true)
  if r != VK_SUCCESS then
    return Result.VulkanError
  let (r, outputSpecularCubeMap) ← createImage2DAndAllocate env
    ⟨cubeMapFormat, cubeMapSideLength, cubeMapSideLength, outputMipLevels, 6, true⟩
  if r != VK_SUCCESS then
    return Result.VulkanError
  let (r, outputSpecularCubeMapViews) ← sample.createSpecularViews env outputSpecularCubeMap
    outputMipLevels 0 []
  if let some res := r then
    return res
  let (r, _outputSpecularCubeMapCompleteView) ← vkCreate env
    (fun v => Event.createImageView v outputSpecularCubeMap (some ⟨0, outputMipLevels, 0, 6⟩)
      true)
  if r != VK_SUCCESS then
    return Result.VulkanError
  let (r, outputDiffuseCubeMap) ← createImage2DAndAllocate env
    ⟨cubeMapFormat, cubeMapSideLength, cubeMapSideLength, 1, 6, true⟩
  if r != VK_SUCCESS then
    return Result.VulkanError
  let (r, outputDiffuseCubeMapViews) ← sample.createFaceViews env outputDiffuseCubeMap 0 6 0 []
  if let some res := r then
    return res
  let (r, renderPass) ← vkCreate env
    (fun p => Event.createRenderPass p (List.replicate 6 cubeMapFormat))
  if r != VK_SUCCESS then
    return Result.VulkanError
  sample.pipelines env _outputPathSpecular _outputPathDiffuse _ktxVersion
    _ktxCompressionQuality cubeMapSideLength outputMipLevels _sampleCount _targetFormat
    maxMipLevels fullscreenVertexShader panoramaToCubeMapFragmentShader filterCubeMapSpecular
    filterCubeMapDiffuse panoramaSampler panoramaImageView inputCubeMap inputCubeMapCompleteView
    outputSpecularCubeMap outputSpecularCubeMapViews outputDiffuseCubeMap
    outputDiffuseCubeMapViews renderPass

/-- `IBLLib::sample` (lines 425-477), followed by `sample.resources`: the body
of the function is cut at its section comments into `sample.resources`,
`sample.pipelines`, `sample.project`, `sample.filter`, `sample.output` and
`sample.serialise`, each of which ends by running the next.  The shift of
line 434 is the shift of natural numbers; C++ defines it only for
`_mipmapCount < 32`. -/
def sample (env : Env) (_inputPath _outputPathSpecular _outputPathDiffuse : String)
    (_ktxVersion _ktxCompressionQuality _cubemapResolution _mipmapCount _sampleCount : Nat)
    (_targetFormat : VkFormat) : Dev Result := do
  let cubeMapSideLength := _cubemapResolution
  let outputMipLevels := _mipmapCount
  let maxMipLevels := sample.maxMipLevels cubeMapSideLength
  if _cubemapResolution >>> _mipmapCount < 1 then
    return Result.InvalidArgument
  let r ← vkCall env Event.vulkanInitialize
  if r != VK_SUCCESS then
    return Result.VulkanInitializationFailed
  let (res, panoramaImage) ← uploadImage env _inputPath
  if res != Result.Success then
    return res
  let (res, fullscreenVertexShader) ← compileShader env
    (env.IBLSAMPLER_SHADERS_DIR ++ "/primitive.vert") "main" Stage.Vertex
  if res != Result.Success then
    return res
  let (res, panoramaToCubeMapFragmentShader) ← compileShader env
    (env.IBLSAMPLER_SHADERS_DIR ++ "/filter.frag") "panoramaToCubeMap" Stage.Fragment
  if res != Result.Success then
    return res
  let (res, filterCubeMapSpecular) ← compileShader env
    (env.IBLSAMPLER_SHADERS_DIR ++ "/filter.frag") "filterCubeMapSpecular" Stage.Fragment
  if res != Result.Success then
    return res
  let (res, filterCubeMapDiffuse) ← compileShader env
    (env.IBLSAMPLER_SHADERS_DIR ++ "/filter.frag") "filterCubeMapDiffuse" Stage.Fragment
  if res != Result.Success then
    return res
  sample.resources env _outputPathSpecular _outputPathDiffuse _ktxVersion
    _ktxCompressionQuality cubeMapSideLength outputMipLevels _sampleCount _targetFormat
    maxMipLevels panoramaImage fullscreenVertexShader panoramaToCubeMapFragmentShader
    filterCubeMapSpecular filterCubeMapDiffuse

/-! ## The calls of a run in which the device layer succeeds -/

/-- Every device-layer call succeeds. -/
def Env.DeviceOk (env : Env) : Prop := ∀ t, env.vk t = VK_SUCCESS

/-- The panorama loads and the shaders are found and compile. -/
def Env.InputsOk (env : Env) : Prop :=
  (∀ t, env.loadHdr t = Result.Success) ∧ (∀ t, env.readFile t = true) ∧
    (∀ t, env.compile t = true)

/-- Every container operation succeeds. -/
def Env.KtxOk (env : Env) : Prop :=
  (∀ t, env.writeFace t = Result.Success) ∧ (∀ t, env.compress t = Result.Success) ∧
    (∀ t, env.save t = Result.Success)

/-- Calls of `downloadCubemap.allocFaces` when the device succeeds; `h` is
the next fresh handle. -/
def allocFacesTrace (size : Nat) : Nat → Nat → List Event
  | 0, _ => []
  | n + 1, h => Event.createBufferAndAllocate h size :: allocFacesTrace size n (h + 1)

/-- Calls of `downloadCubemap.allocLevels` when the device succeeds. -/
def allocLevelsTrace (cubeMapFormatByteSize : Nat) : Nat → Nat → Nat → List Event
  | 0, _, _ => []
  | n + 1, currentSideLength, h =>
    allocFacesTrace (uint32_t (currentSideLength * currentSideLength * cubeMapFormatByteSize))
      6 h ++ allocLevelsTrace cubeMapFormatByteSize n (currentSideLength >>> 1) (h + 6)

/-- Rows of six consecutive fresh handles, one row per level: the staging buffers of
`downloadCubemap.allocLevels` and the views of `sample.createSpecularViews`. -/
def handleRows : Nat → Nat → List (List Handle)
  | 0, _ => []
  | n + 1, h => List.range' h 6 :: handleRows n (h + 6)

/-- Calls of `downloadCubemap.copyFaces`. -/
def copyFacesTrace (downloadCmds _srcImage : Handle) (faces : List Handle)
    (level currentSideLength : Nat) : Nat → Nat → List Event
  | 0, _ => []
  | n + 1, face =>
    Event.copyImage2DToBuffer downloadCmds _srcImage (faces.getD face VK_NULL_HANDLE)
      ⟨level, face, 1, currentSideLength, currentSideLength, 1⟩ ::
    copyFacesTrace downloadCmds _srcImage faces level currentSideLength n (face + 1)

/-- Calls of `downloadCubemap.copyLevels`. -/
def copyLevelsTrace (downloadCmds _srcImage : Handle) (stagingBuffer : List (List Handle)) :
    Nat → Nat → Nat → List Event
  | 0, _, _ => []
  | n + 1, level, currentSideLength =>
    copyFacesTrace downloadCmds _srcImage (stagingBuffer.getD level []) level
      currentSideLength 6 0 ++
    copyLevelsTrace downloadCmds _srcImage stagingBuffer n (level + 1) (currentSideLength >>> 1)

/-- Calls of `downloadCubemap.writeFaces` when every read and write succeeds. -/
def writeFacesTrace (faces : List Handle) (imageByteSize level : Nat) : Nat → Nat → List Event
  | 0, _ => []
  | n + 1, face =>
    Event.readBufferData (faces.getD face VK_NULL_HANDLE) imageByteSize ::
    Event.writeFace imageByteSize face level ::
    Event.destroyBuffer (faces.getD face VK_NULL_HANDLE) ::
    writeFacesTrace faces imageByteSize level n (face + 1)

/-- Calls of `downloadCubemap.writeLevels` when every read and write succeeds. -/
def writeLevelsTrace (stagingBuffer : List (List Handle)) (cubeMapFormatByteSize : Nat) :
    Nat → Nat → Nat → List Event
  | 0, _, _ => []
  | n + 1, level, currentSideLength =>
    writeFacesTrace (stagingBuffer.getD level [])
      (size_t (currentSideLength * currentSideLength * cubeMapFormatByteSize)) level 6 0 ++
    writeLevelsTrace stagingBuffer cubeMapFormatByteSize n (level + 1) (currentSideLength >>> 1)

/-- Calls of `downloadCubemap` up to and including the construction of the
container, when the device succeeds; `h` is the next fresh handle. -/
def downloadCopyTrace (env : Env) (_srcImage : Handle) (info : VkImageCreateInfo)
    (_ktxVersion : Version) (inputImageLayout : VkImageLayout) (h : Nat) : List Event :=
  allocLevelsTrace (uint32_t (env.FormatElementSize info.format)) info.mipLevels info.width h ++
  [Event.createCommandBuffer (6 * info.mipLevels + h),
   Event.beginCommandBuffer (6 * info.mipLevels + h),
   Event.imageBarrier (6 * info.mipLevels + h) _srcImage inputImageLayout
     VkImageLayout.TRANSFER_SRC_OPTIMAL ⟨0, info.mipLevels, 0, 6⟩] ++
  copyLevelsTrace (6 * info.mipLevels + h) _srcImage (handleRows info.mipLevels h)
    info.mipLevels 0 info.width ++
  [Event.endCommandBuffer (6 * info.mipLevels + h),
   Event.executeCommandBuffer (6 * info.mipLevels + h),
   Event.destroyCommandBuffer (6 * info.mipLevels + h),
   Event.ktxCreate _ktxVersion info.width info.width info.format info.mipLevels true]

/-- Calls of `downloadCubemap` up to the last `writeFace`, when the device
succeeds and every face is written. -/
def downloadWrittenTrace (env : Env) (_srcImage : Handle) (info : VkImageCreateInfo)
    (_ktxVersion : Version) (inputImageLayout : VkImageLayout) (h : Nat) : List Event :=
  downloadCopyTrace env _srcImage info _ktxVersion inputImageLayout h ++
  writeLevelsTrace (handleRows info.mipLevels h)
    (uint32_t (env.FormatElementSize info.format)) info.mipLevels 0 info.width

/-- Calls of a `downloadCubemap` in which nothing fails. -/
def downloadTrace (env : Env) (_srcImage : Handle) (info : VkImageCreateInfo)
    (_outputPath : String) (_ktxVersion : Version) (_ktxCompressionQuality : Nat)
    (inputImageLayout : VkImageLayout) (h : Nat) : List Event :=
  downloadWrittenTrace env _srcImage info _ktxVersion inputImageLayout h ++
  ((if _ktxCompressionQuality > 0 then [Event.compress _ktxCompressionQuality] else []) ++
  [Event.save _outputPath])

/-- Calls of an `uploadImage` in which nothing fails; `h` is the next fresh
handle and `img` the handle of the image it makes. -/
def uploadImageTrace (env : Env) (_inputPath : String) (h img : Nat) : List Event :=
  [Event.loadHdr _inputPath, Event.createCommandBuffer h,
   Event.createBufferAndAllocate (h + 1) (uint32_t env.panoramaByteSize),
   Event.writeBufferData (h + 1) env.panoramaByteSize,
   Event.createImage2DAndAllocate img
     ⟨VK_FORMAT_R32G32B32A32_SFLOAT, env.panoramaWidth, env.panoramaHeight, 1, 1, false⟩,
   Event.beginCommandBuffer h,
   Event.transitionImageToTransferWrite h img,
   Event.copyBufferToBasicImage2D h (h + 1) img,
   Event.transitionImageToShaderRead h img,
   Event.endCommandBuffer h, Event.executeCommandBuffer h,
   Event.destroyBuffer (h + 1), Event.destroyCommandBuffer h]

/-- Calls of a `compileShader` that succeeds. -/
def compileShaderTrace (_path _entryPoint : String) (_stage : Stage) (h : Nat) : List Event :=
  [Event.readFile _path, Event.compile _entryPoint _stage, Event.loadShaderModule h]

/-- Calls of `sample.createFaceViews` when the device succeeds. -/
def faceViewsTrace (image mipLevel : Nat) : Nat → Nat → Nat → List Event
  | 0, _, _ => []
  | n + 1, j, h =>
    Event.createImageView h image (some ⟨mipLevel, 1, j, 1⟩) false ::
    faceViewsTrace image mipLevel n (j + 1) (h + 1)

/-- Calls of `sample.createSpecularViews` when the device succeeds. -/
def specularViewsTrace (outputSpecularCubeMap : Handle) : Nat → Nat → Nat → List Event
  | 0, _, _ => []
  | n + 1, i, h =>
    faceViewsTrace outputSpecularCubeMap i 6 0 h ++
    specularViewsTrace outputSpecularCubeMap n (i + 1) (h + 6)

/-- Calls of `generateMipmapLevels.loop`. -/
def mipmapLoopTrace (_commandBuffer _image _sideLength : Nat) : Nat → Nat → List Event
  | 0, _ => []
  | n + 1, i =>
    Event.imageBarrier _commandBuffer _image VkImageLayout.COLOR_ATTACHMENT_OPTIMAL
      VkImageLayout.TRANSFER_DST_OPTIMAL ⟨i, 1, 0, 6⟩ ::
    Event.cmdBlitImage _commandBuffer _image VkImageLayout.TRANSFER_SRC_OPTIMAL _image
      VkImageLayout.TRANSFER_DST_OPTIMAL
      ⟨i - 1, 6, int32_t (_sideLength >>> (i - 1)), int32_t (_sideLength >>> (i - 1)), 1,
       i, 6, int32_t (_sideLength >>> i), int32_t (_sideLength >>> i), 1⟩ ::
    Event.imageBarrier _commandBuffer _image VkImageLayout.TRANSFER_DST_OPTIMAL
      VkImageLayout.TRANSFER_SRC_OPTIMAL ⟨i, 1, 0, 6⟩ ::
    mipmapLoopTrace _commandBuffer _image _sideLength n (i + 1)

/-- Calls of `generateMipmapLevels`. -/
def generateMipmapLevelsTrace (_commandBuffer _image _maxMipLevels _sideLength : Nat) :
    List Event :=
  Event.imageBarrier _commandBuffer _image VkImageLayout.COLOR_ATTACHMENT_OPTIMAL
    VkImageLayout.TRANSFER_SRC_OPTIMAL ⟨0, 1, 0, 6⟩ ::
  mipmapLoopTrace _commandBuffer _image _sideLength (_maxMipLevels - 1) 1 ++
  [Event.imageBarrier _commandBuffer _image VkImageLayout.TRANSFER_SRC_OPTIMAL
    VkImageLayout.SHADER_READ_ONLY_OPTIMAL ⟨0, _maxMipLevels, 0, 6⟩]

/-- Calls of `sample.specularLoop` when the device succeeds; `h` is the next
fresh handle. -/
def specularLoopTrace (cubeMapCmd renderPass outputSpecularCubeMap
    specularFilterPipelineLayout : Handle) (outputSpecularCubeMapViews : List (List Handle))
    (outputMipLevels _sampleCount : Nat) : Nat → Nat → Nat → Nat → List Event
  | 0, _, _, _ => []
  | n + 1, currentMipLevel, currentFramebufferSideLength, h =>
    Event.createFramebuffer h renderPass currentFramebufferSideLength
      currentFramebufferSideLength (outputSpecularCubeMapViews.getD currentMipLevel []) 1 ::
    Event.imageBarrier cubeMapCmd outputSpecularCubeMap VkImageLayout.UNDEFINED
      VkImageLayout.COLOR_ATTACHMENT_OPTIMAL ⟨currentMipLevel, 1, 0, 6⟩ ::
    Event.cmdPushConstants cubeMapCmd specularFilterPipelineLayout
      ⟨float (float (currentMipLevel : ℚ) / float (outputMipLevels : ℚ)), _sampleCount,
       currentMipLevel, currentFramebufferSideLength⟩ ::
    Event.beginRenderPass cubeMapCmd renderPass h currentFramebufferSideLength
      currentFramebufferSideLength 6 ::
    Event.cmdDraw cubeMapCmd 3 1 ::
    Event.endRenderPass cubeMapCmd ::
    specularLoopTrace cubeMapCmd renderPass outputSpecularCubeMap specularFilterPipelineLayout
      outputSpecularCubeMapViews outputMipLevels _sampleCount n (currentMipLevel + 1)
      (currentFramebufferSideLength >>> 1) (h + 1)

/-- Calls of `convertVkFormat.blitLoop`. -/
def blitLoopTrace (_commandBuffer _srcImage _outImage arrayLayers : Nat) :
    Nat → Nat → Nat → List Event
  | 0, _, _ => []
  | n + 1, level, currentSideLength =>
    Event.cmdBlitImage _commandBuffer _srcImage VkImageLayout.TRANSFER_SRC_OPTIMAL
      _outImage VkImageLayout.TRANSFER_DST_OPTIMAL
      ⟨level, arrayLayers, int32_t currentSideLength, int32_t currentSideLength, 1,
       level, arrayLayers, int32_t currentSideLength, int32_t currentSideLength, 1⟩ ::
    blitLoopTrace _commandBuffer _srcImage _outImage arrayLayers n (level + 1)
      (currentSideLength >>> 1)

/-- Calls of a `convertVkFormat` that succeeds, making image `_outImage` from
the source image with create-info `info`. -/
def convertTrace (_commandBuffer _srcImage _outImage : Handle) (info : VkImageCreateInfo)
    (_dstFormat : VkFormat) (inputImageLayout : VkImageLayout) : List Event :=
  Event.createImage2DAndAllocate _outImage
    ⟨_dstFormat, info.width, info.width, info.mipLevels, info.arrayLayers, false⟩ ::
  Event.imageBarrier _commandBuffer _outImage VkImageLayout.UNDEFINED
    VkImageLayout.TRANSFER_DST_OPTIMAL ⟨0, info.mipLevels, 0, info.arrayLayers⟩ ::
  Event.imageBarrier _commandBuffer _srcImage inputImageLayout
    VkImageLayout.TRANSFER_SRC_OPTIMAL ⟨0, info.mipLevels, 0, info.arrayLayers⟩ ::
  blitLoopTrace _commandBuffer _srcImage _outImage info.arrayLayers info.mipLevels 0 info.width

/-- Calls of `sample.resources` when the device succeeds: `h` is the next
fresh handle and `i` the number of images made before. -/
def resourcesTrace (cubeMapSideLength outputMipLevels maxMipLevels : Nat)
    (panoramaImage h i : Nat) : List Event :=
  Event.createSampler h (uint32_t (maxMipLevels + 1)) ::
  Event.createSampler (h + 1) (uint32_t (maxMipLevels + 1)) ::
  Event.createImageView (h + 2) panoramaImage none false ::
  Event.createImage2DAndAllocate (i + 1)
    ⟨VK_FORMAT_R32G32B32A32_SFLOAT, cubeMapSideLength, cubeMapSideLength, maxMipLevels, 6,
      true⟩ ::
  Event.createImageView (h + 3) (i + 1) (some ⟨0, maxMipLevels, 0, 6⟩) true ::
  Event.createImage2DAndAllocate (i + 2)
    ⟨VK_FORMAT_R32G32B32A32_SFLOAT, cubeMapSideLength, cubeMapSideLength, outputMipLevels, 6,
      true⟩ ::
  (specularViewsTrace (i + 2) outputMipLevels 0 (h + 4) ++
   Event.createImageView (6 * outputMipLevels + (h + 4)) (i + 2)
     (some ⟨0, outputMipLevels, 0, 6⟩) true ::
   Event.createImage2DAndAllocate (i + 3)
     ⟨VK_FORMAT_R32G32B32A32_SFLOAT, cubeMapSideLength, cubeMapSideLength, 1, 6, true⟩ ::
   (faceViewsTrace (i + 3) 0 6 0 (6 * outputMipLevels + (h + 5)) ++
    [Event.createRenderPass (6 * outputMipLevels + (h + 11))
      (List.replicate 6 VK_FORMAT_R32G32B32A32_SFLOAT)]))

/-- Calls of `sample.pipelines` when the device succeeds. -/
def pipelinesTrace (cubeMapSideLength : Nat) (fullscreenVertexShader
    panoramaToCubeMapFragmentShader filterCubeMapSpecular filterCubeMapDiffuse panoramaSampler
    panoramaImageView inputCubeMapCompleteView renderPass h : Nat) : List Event :=
  [Event.createDescriptorSet h (h + 1) panoramaSampler panoramaImageView 0,
   Event.updateDescriptorSets (h + 1),
   Event.createPipelineLayout (h + 2) h 0,
   Event.createPipeline (h + 3) (h + 2) renderPass fullscreenVertexShader
     panoramaToCubeMapFragmentShader "panoramaToCubeMap" 6 cubeMapSideLength cubeMapSideLength,
   Event.createDescriptorSet (h + 4) (h + 5) panoramaSampler inputCubeMapCompleteView 1,
   Event.updateDescriptorSets (h + 5),
   Event.createPipelineLayout (h + 6) (h + 4) 1,
   Event.createPipeline (h + 7) (h + 6) renderPass fullscreenVertexShader filterCubeMapSpecular
     "filterCubeMapSpecular" 6 cubeMapSideLength cubeMapSideLength,
   Event.createDescriptorSet (h + 8) (h + 9) panoramaSampler inputCubeMapCompleteView 1,
   Event.updateDescriptorSets (h + 9),
   Event.createPipelineLayout (h + 10) (h + 8) 1,
   Event.createPipeline (h + 11) (h + 10) renderPass fullscreenVertexShader filterCubeMapDiffuse
     "filterCubeMapDiffuse" 6 cubeMapSideLength cubeMapSideLength]

/-- Calls of `sample.project` when the device succeeds; the command buffer
gets handle `h`. -/
def projectTrace (cubeMapSideLength maxMipLevels : Nat) (inputCubeMap renderPass
    panoramaPipelineLayout panoramaSet panoramaToCubeMapPipeline h : Nat) : List Event :=
  Event.createCommandBuffer h ::
  Event.beginCommandBuffer h ::
  (faceViewsTrace inputCubeMap 0 6 0 (h + 1) ++
   [Event.createFramebuffer (h + 7) renderPass cubeMapSideLength cubeMapSideLength
      (List.range' (h + 1) 6) 1,
    Event.imageBarrier h inputCubeMap VkImageLayout.UNDEFINED
      VkImageLayout.COLOR_ATTACHMENT_OPTIMAL ⟨0, maxMipLevels, 0, 6⟩,
    Event.bindDescriptorSet h panoramaPipelineLayout panoramaSet,
    Event.cmdBindPipeline h panoramaToCubeMapPipeline,
    Event.beginRenderPass h renderPass (h + 7) cubeMapSideLength cubeMapSideLength 6,
    Event.cmdDraw h 3 1,
    Event.endRenderPass h])

/-- Calls of `sample.filter` when the device succeeds; `h` is the next fresh
handle. -/
def filterTrace (cubeMapSideLength outputMipLevels _sampleCount maxMipLevels : Nat)
    (inputCubeMap outputSpecularCubeMap : Handle) (outputSpecularCubeMapViews : List (List Handle))
    (outputDiffuseCubeMap : Handle) (outputDiffuseCubeMapViews : List Handle)
    (renderPass specularDescriptorSet specularFilterPipelineLayout specularFilterPipeline
      diffuseFilterPipeline diffuseFilterPipelineLayout diffuseDescriptorSet cubeMapCmd h : Nat) :
    List Event :=
  generateMipmapLevelsTrace cubeMapCmd inputCubeMap maxMipLevels cubeMapSideLength ++
  Event.bindDescriptorSet cubeMapCmd specularFilterPipelineLayout specularDescriptorSet ::
  Event.cmdBindPipeline cubeMapCmd specularFilterPipeline ::
  (specularLoopTrace cubeMapCmd renderPass outputSpecularCubeMap specularFilterPipelineLayout
     outputSpecularCubeMapViews outputMipLevels _sampleCount outputMipLevels 0
     cubeMapSideLength h ++
   [Event.createFramebuffer (outputMipLevels + h) renderPass cubeMapSideLength
      cubeMapSideLength outputDiffuseCubeMapViews 1,
    Event.imageBarrier cubeMapCmd outputDiffuseCubeMap VkImageLayout.UNDEFINED
      VkImageLayout.COLOR_ATTACHMENT_OPTIMAL ⟨0, 1, 0, 6⟩,
    Event.bindDescriptorSet cubeMapCmd diffuseFilterPipelineLayout diffuseDescriptorSet,
    Event.cmdBindPipeline cubeMapCmd diffuseFilterPipeline,
    Event.cmdPushConstants cubeMapCmd diffuseFilterPipelineLayout
      ⟨0, _sampleCount, 0, cubeMapSideLength⟩,
    Event.beginRenderPass cubeMapCmd renderPass (outputMipLevels + h) cubeMapSideLength
      cubeMapSideLength 6,
    Event.cmdDraw cubeMapCmd 3 1,
    Event.endRenderPass cubeMapCmd])

/-- The create-info of the panorama image. -/
def panoramaInfo (env : Env) : VkImageCreateInfo :=
  ⟨VK_FORMAT_R32G32B32A32_SFLOAT, env.panoramaWidth, env.panoramaHeight, 1, 1, false⟩

/-- The create-info of a cube image in the working format. -/
def cubeInfo (cubeMapSideLength mipLevels : Nat) : VkImageCreateInfo :=
  ⟨VK_FORMAT_R32G32B32A32_SFLOAT, cubeMapSideLength, cubeMapSideLength, mipLevels, 6, true⟩

/-- Calls of `sample` from its start to the end of `sample.filter`, when the
inputs load and the device succeeds.  The images are 1 (panorama), 2 (source
cube map), 3 (specular) and 4 (diffuse); the command buffer is
`6 * outputMipLevels + 31`. -/
def recordTrace (env : Env) (_inputPath : String)
    (cubeMapSideLength outputMipLevels _sampleCount : Nat) : List Event :=
  Event.vulkanInitialize ::
  (uploadImageTrace env _inputPath 1 1 ++
   (compileShaderTrace (env.IBLSAMPLER_SHADERS_DIR ++ "/primitive.vert") "main" Stage.Vertex 3 ++
    (compileShaderTrace (env.IBLSAMPLER_SHADERS_DIR ++ "/filter.frag") "panoramaToCubeMap"
       Stage.Fragment 4 ++
     (compileShaderTrace (env.IBLSAMPLER_SHADERS_DIR ++ "/filter.frag") "filterCubeMapSpecular"
        Stage.Fragment 5 ++
      (compileShaderTrace (env.IBLSAMPLER_SHADERS_DIR ++ "/filter.frag") "filterCubeMapDiffuse"
         Stage.Fragment 6 ++
       (resourcesTrace cubeMapSideLength outputMipLevels (sample.maxMipLevels cubeMapSideLength)
          1 7 1 ++
        (pipelinesTrace cubeMapSideLength 3 4 5 6 7 9 10 (6 * outputMipLevels + 18)
           (6 * outputMipLevels + 19) ++
         (projectTrace cubeMapSideLength (sample.maxMipLevels cubeMapSideLength) 2
            (6 * outputMipLevels + 18) (6 * outputMipLevels + 21) (6 * outputMipLevels + 20)
            (6 * outputMipLevels + 22) (6 * outputMipLevels + 31) ++
          filterTrace cubeMapSideLength outputMipLevels _sampleCount
            (sample.maxMipLevels cubeMapSideLength) 2 3 (handleRows outputMipLevels 11) 4
            (List.range' (6 * outputMipLevels + 12) 6) (6 * outputMipLevels + 18)
            (6 * outputMipLevels + 24) (6 * outputMipLevels + 25) (6 * outputMipLevels + 26)
            (6 * outputMipLevels + 30) (6 * outputMipLevels + 29) (6 * outputMipLevels + 28)
            (6 * outputMipLevels + 31) (6 * outputMipLevels + 39)))))))))

/-- Calls of `sample.output` up to the submission, when the device succeeds:
with a target format other than the working format the specular image 3 and
the diffuse image 4 are converted into the new images 5 and 6. -/
def outputTrace (cubeMapCmd : Handle) (cubeMapSideLength outputMipLevels : Nat)
    (_targetFormat : VkFormat) : List Event :=
  (if _targetFormat != VK_FORMAT_R32G32B32A32_SFLOAT then
    convertTrace cubeMapCmd 3 5 (cubeInfo cubeMapSideLength outputMipLevels) _targetFormat
      VkImageLayout.COLOR_ATTACHMENT_OPTIMAL ++
    convertTrace cubeMapCmd 4 6 (cubeInfo cubeMapSideLength 1) _targetFormat
      VkImageLayout.COLOR_ATTACHMENT_OPTIMAL
  else []) ++
  [Event.endCommandBuffer cubeMapCmd, Event.executeCommandBuffer cubeMapCmd]

/-- The specular image handed to `downloadCubemap`. -/
def downloadedSpecular (_targetFormat : VkFormat) : Handle :=
  if _targetFormat != VK_FORMAT_R32G32B32A32_SFLOAT then 5 else 3

/-- The diffuse image handed to `downloadCubemap`. -/
def downloadedDiffuse (_targetFormat : VkFormat) : Handle :=
  if _targetFormat != VK_FORMAT_R32G32B32A32_SFLOAT then 6 else 4

/-- The layout `sample` passes to both calls of `downloadCubemap`. -/
def downloadedLayout (_targetFormat : VkFormat) : VkImageLayout :=
  if _targetFormat != VK_FORMAT_R32G32B32A32_SFLOAT then VkImageLayout.TRANSFER_DST_OPTIMAL
  else VkImageLayout.COLOR_ATTACHMENT_OPTIMAL

/-- The create-info of a downloaded image: the format is the target format,
and an image made by `convertVkFormat` is not cube compatible. -/
def downloadedInfo (cubeMapSideLength mipLevels : Nat) (_targetFormat : VkFormat) :
    VkImageCreateInfo :=
  ⟨_targetFormat, cubeMapSideLength, cubeMapSideLength, mipLevels, 6,
    !(_targetFormat != VK_FORMAT_R32G32B32A32_SFLOAT)⟩

/-- The images the device layer knows after `sample.output`. -/
def sampleImages (env : Env) (cubeMapSideLength outputMipLevels : Nat)
    (_targetFormat : VkFormat) : List VkImageCreateInfo :=
  [panoramaInfo env, cubeInfo cubeMapSideLength (sample.maxMipLevels cubeMapSideLength),
   cubeInfo cubeMapSideLength outputMipLevels, cubeInfo cubeMapSideLength 1] ++
  (if _targetFormat != VK_FORMAT_R32G32B32A32_SFLOAT then
    [downloadedInfo cubeMapSideLength outputMipLevels _targetFormat,
     downloadedInfo cubeMapSideLength 1 _targetFormat]
  else [])

/-- Calls of `sample` up to the submission of the recorded commands. -/
def submittedTrace (env : Env) (_inputPath : String)
    (cubeMapSideLength outputMipLevels _sampleCount : Nat) (_targetFormat : VkFormat) :
    List Event :=
  recordTrace env _inputPath cubeMapSideLength outputMipLevels _sampleCount ++
  outputTrace (6 * outputMipLevels + 31) cubeMapSideLength outputMipLevels _targetFormat

/-- Calls of a run of `sample` in which nothing fails. -/
def sampleTrace (env : Env) (_inputPath _outputPathSpecular _outputPathDiffuse : String)
    (_ktxVersion _ktxCompressionQuality cubeMapSideLength outputMipLevels _sampleCount : Nat)
    (_targetFormat : VkFormat) : List Event :=
  submittedTrace env _inputPath cubeMapSideLength outputMipLevels _sampleCount _targetFormat ++
  (downloadTrace env (downloadedSpecular _targetFormat)
     (downloadedInfo cubeMapSideLength outputMipLevels _targetFormat) _outputPathSpecular
     (sample.ktxImageVersion _ktxVersion) _ktxCompressionQuality (downloadedLayout _targetFormat)
     (outputMipLevels + (6 * outputMipLevels + 40)) ++
   downloadTrace env (downloadedDiffuse _targetFormat)
     (downloadedInfo cubeMapSideLength 1 _targetFormat) _outputPathDiffuse
     (sample.ktxImageVersion _ktxVersion) _ktxCompressionQuality (downloadedLayout _targetFormat)
     (6 * outputMipLevels + (outputMipLevels + (6 * outputMipLevels + 41))))

/-! ## Observations of a run -/

/-- The calls to the container writer. -/
def ktxCall : Event → Option Event
  | Event.ktxCreate v w h f l c => some (Event.ktxCreate v w h f l c)
  | Event.writeFace d f l => some (Event.writeFace d f l)
  | Event.compress q => some (Event.compress q)
  | Event.save p => some (Event.save p)
  | _ => none

/-- The calls of a run to the container writer, in order. -/
def ktxCalls (t : List Event) : List Event := t.filterMap ktxCall

/-- The image and the region of an image-to-buffer copy. -/
def imageCopy : Event → Option (Handle × VkBufferImageCopy)
  | Event.copyImage2DToBuffer _ image _ region => some (image, region)
  | _ => none

/-- The image-to-buffer copies of a run, in order. -/
def imageCopies (t : List Event) : List (Handle × VkBufferImageCopy) := t.filterMap imageCopy

/-- The block of a push-constant update. -/
def pushConstant : Event → Option PushConstant
  | Event.cmdPushConstants _ _ values => some values
  | _ => none

/-- The push-constant blocks of a run, in order. -/
def pushConstants (t : List Event) : List PushConstant := t.filterMap pushConstant

/-- The handle and create-info of an image creation. -/
def imageCreated : Event → Option (Handle × VkImageCreateInfo)
  | Event.createImage2DAndAllocate image info => some (image, info)
  | _ => none

/-- The images a run creates, in order. -/
def imagesCreated (t : List Event) : List (Handle × VkImageCreateInfo) :=
  t.filterMap imageCreated

/-- Source image, destination image and regions of a blit between two
different images: the blits of `convertVkFormat`. -/
def conversionBlit : Event → Option (Handle × Handle × VkImageBlit)
  | Event.cmdBlitImage _ src _ dst _ blit => if src = dst then none else some (src, dst, blit)
  | _ => none

/-- The blits of a run between different images, in order. -/
def conversionBlits (t : List Event) : List (Handle × Handle × VkImageBlit) :=
  t.filterMap conversionBlit

/-- The `writeFace` calls that fill a cube of side `S` with `L` levels and
`b` bytes per texel: level after level, faces 0 to 5 within a level, the
payload size computed in `size_t`. -/
def faceWrites (S b L : Nat) : List Event :=
  (List.range L).flatMap (fun l =>
    (List.range 6).map (fun f => Event.writeFace (size_t ((S >>> l) * (S >>> l) * b)) f l))

/-- The container calls of a `downloadCubemap` in which nothing fails. -/
def containerCalls (version : Version) (S : Nat) (format : VkFormat) (b L quality : Nat)
    (path : String) : List Event :=
  Event.ktxCreate version S S format L true ::
    (faceWrites S b L ++
      ((if quality > 0 then [Event.compress quality] else []) ++ [Event.save path]))

/-- The image-to-buffer copies that read a cube of side `S` with `L` levels
from `image`: one face of `(S >> l)` by `(S >> l)` texels per copy. -/
def cubeCopies (image : Handle) (S L : Nat) : List (Handle × VkBufferImageCopy) :=
  (List.range L).flatMap (fun l =>
    (List.range 6).map (fun f => (image, ⟨l, f, 1, S >>> l, S >>> l, 1⟩)))

/-- The blits of a `convertVkFormat` from `src` to `dst` for a cube of side
`S` with `L` levels. -/
def cubeBlits (src dst : Handle) (S L : Nat) : List (Handle × Handle × VkImageBlit) :=
  (List.range L).map (fun l =>
    (src, dst, ⟨l, 6, int32_t (S >>> l), int32_t (S >>> l), 1,
                l, 6, int32_t (S >>> l), int32_t (S >>> l), 1⟩))

/-- An environment in which every external call succeeds; texels of the
working format take 16 bytes. -/
def okEnv : Env where
  vk := fun _ => VK_SUCCESS
  loadHdr := fun _ => Result.Success
  readFile := fun _ => true
  compile := fun _ => true
  writeFace := fun _ => Result.Success
  compress := fun _ => Result.Success
  save := fun _ => Result.Success
  panoramaWidth := 2048
  panoramaHeight := 1024
  panoramaByteSize := 33554432
  FormatElementSize := fun f => if f = VK_FORMAT_R32G32B32A32_SFLOAT then 16 else 8
  IBLSAMPLER_SHADERS_DIR := "shaders"

/-- The environment `okEnv` with a container writer that rejects every face. -/
def writeFailEnv : Env :=
  { okEnv with writeFace := fun _ => Result.ContainerWriteFailed }

/-- The environment `okEnv` with a panorama loader that cannot read its input. -/
def missingPanoramaEnv : Env :=
  { okEnv with loadHdr := fun _ => Result.InputPanoramaFileNotFound }

/-! ### the calls of a single function -/

/-- The calls a computation makes when it is run from the state `w`. -/
def callsFrom {α : Type} (x : Dev α) (w : World) : List Event :=
  (x w).2.trace.drop w.trace.length

/-- Payload size, face and level of a `writeFace` call. -/
def faceWritten : Event → Option (Nat × Nat × Nat)
  | Event.writeFace d f l => some (d, f, l)
  | _ => none

/-- The `writeFace` calls of a run, in order: payload size, face, level. -/
def facesWritten (t : List Event) : List (Nat × Nat × Nat) := t.filterMap faceWritten

/-- The container version of a `KtxImage` construction. -/
def containerVersion : Event → Option Version
  | Event.ktxCreate v _ _ _ _ _ => some v
  | _ => none

/-- The versions of the containers a run constructs, in order. -/
def containerVersions (t : List Event) : List Version := t.filterMap containerVersion

/-- Source image, destination image and regions of a blit. -/
def blitRecorded : Event → Option (Handle × Handle × VkImageBlit)
  | Event.cmdBlitImage _ src _ dst _ blit => some (src, dst, blit)
  | _ => none

/-- The blits of a run, in order. -/
def blitsRecorded (t : List Event) : List (Handle × Handle × VkImageBlit) :=
  t.filterMap blitRecorded

/-- Command buffer, vertex count and instance count of a draw. -/
def drawRecorded : Event → Option (Handle × Nat × Nat)
  | Event.cmdDraw cmd v i => some (cmd, v, i)
  | _ => none

/-- The draws of a run, in order. -/
def drawsRecorded (t : List Event) : List (Handle × Nat × Nat) := t.filterMap drawRecorded

/-! ### the stages of a run in which nothing fails -/

/-- The calls of one pass of the specular filter loop (lines 861-892), for
the mip level `m` rendered at `width` by `width` into the framebuffer `fb`
over `views`. -/
def specularLevelCalls (cubeMapCmd renderPass outputSpecularCubeMap
    specularFilterPipelineLayout fb : Handle) (views : List Handle)
    (outputMipLevels _sampleCount m width : Nat) : List Event :=
  [Event.createFramebuffer fb renderPass width width views 1,
   Event.imageBarrier cubeMapCmd outputSpecularCubeMap VkImageLayout.UNDEFINED
     VkImageLayout.COLOR_ATTACHMENT_OPTIMAL ⟨m, 1, 0, 6⟩,
   Event.cmdPushConstants cubeMapCmd specularFilterPipelineLayout
     ⟨float (float (m : ℚ) / float (outputMipLevels : ℚ)), _sampleCount, m, width⟩,
   Event.beginRenderPass cubeMapCmd renderPass fb width width 6,
   Event.cmdDraw cubeMapCmd 3 1,
   Event.endRenderPass cubeMapCmd]

/-- The calls of `sample` before the specular filter loop, when nothing fails. -/
def beforeSpecularTrace (env : Env) (_inputPath : String)
    (cubeMapSideLength outputMipLevels : Nat) : List Event :=
  Event.vulkanInitialize ::
  (uploadImageTrace env _inputPath 1 1 ++
   (compileShaderTrace (env.IBLSAMPLER_SHADERS_DIR ++ "/primitive.vert") "main" Stage.Vertex 3 ++
    (compileShaderTrace (env.IBLSAMPLER_SHADERS_DIR ++ "/filter.frag") "panoramaToCubeMap"
       Stage.Fragment 4 ++
     (compileShaderTrace (env.IBLSAMPLER_SHADERS_DIR ++ "/filter.frag") "filterCubeMapSpecular"
        Stage.Fragment 5 ++
      (compileShaderTrace (env.IBLSAMPLER_SHADERS_DIR ++ "/filter.frag") "filterCubeMapDiffuse"
         Stage.Fragment 6 ++
       (resourcesTrace cubeMapSideLength outputMipLevels (sample.maxMipLevels cubeMapSideLength)
          1 7 1 ++
        (pipelinesTrace cubeMapSideLength 3 4 5 6 7 9 10 (6 * outputMipLevels + 18)
           (6 * outputMipLevels + 19) ++
         (projectTrace cubeMapSideLength (sample.maxMipLevels cubeMapSideLength) 2
            (6 * outputMipLevels + 18) (6 * outputMipLevels + 21) (6 * outputMipLevels + 20)
            (6 * outputMipLevels + 22) (6 * outputMipLevels + 31) ++
          (generateMipmapLevelsTrace (6 * outputMipLevels + 31) 2
             (sample.maxMipLevels cubeMapSideLength) cubeMapSideLength ++
           [Event.bindDescriptorSet (6 * outputMipLevels + 31) (6 * outputMipLevels + 25)
              (6 * outputMipLevels + 24),
            Event.cmdBindPipeline (6 * outputMipLevels + 31) (6 * outputMipLevels + 26)])))))))))

/-- The calls of the diffuse filter pass of `sample` (lines 894-926), when
nothing fails. -/
def diffuseTrace (cubeMapSideLength outputMipLevels _sampleCount : Nat) : List Event :=
  [Event.createFramebuffer (outputMipLevels + (6 * outputMipLevels + 39))
      (6 * outputMipLevels + 18) cubeMapSideLength cubeMapSideLength
      (List.range' (6 * outputMipLevels + 12) 6) 1,
    Event.imageBarrier (6 * outputMipLevels + 31) 4 VkImageLayout.UNDEFINED
      VkImageLayout.COLOR_ATTACHMENT_OPTIMAL ⟨0, 1, 0, 6⟩,
    Event.bindDescriptorSet (6 * outputMipLevels + 31) (6 * outputMipLevels + 29)
      (6 * outputMipLevels + 28),
    Event.cmdBindPipeline (6 * outputMipLevels + 31) (6 * outputMipLevels + 30),
    Event.cmdPushConstants (6 * outputMipLevels + 31) (6 * outputMipLevels + 29)
      ⟨0, _sampleCount, 0, cubeMapSideLength⟩,
    Event.beginRenderPass (6 * outputMipLevels + 31) (6 * outputMipLevels + 18)
      (outputMipLevels + (6 * outputMipLevels + 39)) cubeMapSideLength cubeMapSideLength 6,
    Event.cmdDraw (6 * outputMipLevels + 31) 3 1,
    Event.endRenderPass (6 * outputMipLevels + 31)]

/-- The calls of `sample` after the diffuse filter pass, when nothing fails. -/
def afterDiffuseTrace (env : Env) (_outputPathSpecular _outputPathDiffuse : String)
    (_ktxVersion _ktxCompressionQuality cubeMapSideLength outputMipLevels : Nat)
    (_targetFormat : VkFormat) : List Event :=
  outputTrace (6 * outputMipLevels + 31) cubeMapSideLength outputMipLevels _targetFormat ++
  (downloadTrace env (downloadedSpecular _targetFormat)
     (downloadedInfo cubeMapSideLength outputMipLevels _targetFormat) _outputPathSpecular
     (sample.ktxImageVersion _ktxVersion) _ktxCompressionQuality (downloadedLayout _targetFormat)
     (outputMipLevels + (6 * outputMipLevels + 40)) ++
   downloadTrace env (downloadedDiffuse _targetFormat)
     (downloadedInfo cubeMapSideLength 1 _targetFormat) _outputPathDiffuse
     (sample.ktxImageVersion _ktxVersion) _ktxCompressionQuality (downloadedLayout _targetFormat)
     (6 * outputMipLevels + (outputMipLevels + (6 * outputMipLevels + 41))))

/-! ### the replay of the recorded commands over a table of layouts -/

/-- The layout of every mip level of every image, as tracked while the
recorded commands are replayed. -/
abbrev LayoutTable := Handle → Nat → VkImageLayout

/-- The effect of a barrier: the mip levels of `range` of `image` move to
`newLayout`. -/
def LayoutTable.transition (t : LayoutTable) (image : Handle) (range : VkImageSubresourceRange)
    (newLayout : VkImageLayout) : LayoutTable :=
  fun i l =>
    if i = image ∧ range.baseMipLevel ≤ l ∧ l < range.baseMipLevel + range.levelCount then
      newLayout
    else t i l

/-- Whether every mip level of `range` of `image` is tracked in `layout`. -/
def LayoutTable.rangeIs (t : LayoutTable) (image : Handle) (range : VkImageSubresourceRange)
    (layout : VkImageLayout) : Bool :=
  (List.range range.levelCount).all (fun k => t image (range.baseMipLevel + k) == layout)

/-- The state of a replay of recorded commands: the tracked layouts, the
descriptor set bound last, whether every barrier and blit so far found the
layouts it needs, and for every draw so far the descriptor set bound and
whether the whole mip chain of the source cube map was shader-readable. -/
structure Replay where
  layouts : LayoutTable
  bound : Option Handle
  ok : Bool
  draws : List (Option Handle × Bool)

/-- The replay starts with every level of every image in `UNDEFINED`. -/
def Replay.start : Replay := ⟨fun _ _ => VkImageLayout.UNDEFINED, none, true, []⟩

/-- One command of the replay.  A barrier is in order when its old layout is
`UNDEFINED` or the tracked layout of every level of its range; a blit when
its source level is tracked in `TRANSFER_SRC_OPTIMAL` and its destination
level in `TRANSFER_DST_OPTIMAL`; a draw is logged with the descriptor set
bound and whether the levels `0 .. levels - 1` of `source` are tracked in
`SHADER_READ_ONLY_OPTIMAL`. -/
def Replay.step (source levels : Nat) (r : Replay) : Event → Replay
  | Event.imageBarrier _ image oldLayout newLayout range =>
    { r with
      layouts := r.layouts.transition image range newLayout
      ok := r.ok && (oldLayout == VkImageLayout.UNDEFINED ||
        r.layouts.rangeIs image range oldLayout) }
  | Event.cmdBlitImage _ src _ dst _ blit =>
    { r with
      ok := r.ok && (r.layouts src blit.srcMipLevel == VkImageLayout.TRANSFER_SRC_OPTIMAL &&
        r.layouts dst blit.dstMipLevel == VkImageLayout.TRANSFER_DST_OPTIMAL) }
  | Event.bindDescriptorSet _ _ set => { r with bound := some set }
  | Event.cmdDraw _ _ _ =>
    { r with
      draws := r.draws ++ [(r.bound,
        r.layouts.rangeIs source ⟨0, levels, 0, 6⟩ VkImageLayout.SHADER_READ_ONLY_OPTIMAL)] }
  | _ => r

/-- The replay of a list of calls. -/
def replay (source levels : Nat) (r : Replay) (t : List Event) : Replay :=
  t.foldl (Replay.step source levels) r

/-! ### the sizes of the staging buffers -/

/-- Handle and byte size of a buffer allocation. -/
def bufferAllocated : Event → Option (Handle × Nat)
  | Event.createBufferAndAllocate b s => some (b, s)
  | _ => none

/-- Handle and byte count of a read-back from a buffer. -/
def bufferRead : Event → Option (Handle × Nat)
  | Event.readBufferData b s => some (b, s)
  | _ => none

/-! ## Lemmas: rounding to `float` -/

theorem roundHalfEven_sub_le (y : ℚ) : |(roundHalfEven y : ℚ) - y| ≤ 1 / 2 := by
  have h1 := Int.floor_le y
  have h2 := Int.lt_floor_add_one y
  unfold roundHalfEven
  split_ifs <;> push_cast <;> rw [abs_le] <;> constructor <;> linarith

theorem roundHalfEven_intCast (n : ℤ) : roundHalfEven (n : ℚ) = n := by
  simp [roundHalfEven]

theorem float_zero : float 0 = 0 := by simp [float]

/-- A value of at most 24 significant bits is not changed by the rounding. -/
theorem float_eq_self (x : ℚ) (n : ℤ) (h : x * (2 : ℚ) ^ (23 - Int.log 2 |x|) = n) :
    float x = x := by
  unfold float
  split_ifs with h0
  · exact h0.symm
  · rw [h, roundHalfEven_intCast, ← h, mul_assoc, ← zpow_add₀ (by norm_num)]
    simp

/-- The rounding error is at most half a unit in the last place. -/
theorem float_abs_sub_le (x : ℚ) (hx : 0 ≤ x) : |float x - x| ≤ x / 2 ^ 24 := by
  rcases hx.eq_or_lt with h0 | hx
  · rw [← h0, float_zero]; norm_num
  have he := Int.zpow_log_le_self (b := 2) (r := x) (by norm_num) hx
  have hr := roundHalfEven_sub_le (x * (2 : ℚ) ^ (23 - Int.log 2 x))
  have hpos : (0 : ℚ) < (2 : ℚ) ^ (Int.log 2 x - 23) := zpow_pos (by norm_num) _
  have hs : (2 : ℚ) ^ (23 - Int.log 2 x) * (2 : ℚ) ^ (Int.log 2 x - 23) = 1 := by
    rw [← zpow_add₀ (by norm_num)]; simp
  have hsplit : (2 : ℚ) ^ (Int.log 2 x - 23) = (2 : ℚ) ^ Int.log 2 x / 2 ^ 23 := by
    rw [zpow_sub₀ (by norm_num)]; norm_num
  unfold float
  rw [if_neg hx.ne', abs_of_pos hx]
  have : (roundHalfEven (x * (2 : ℚ) ^ (23 - Int.log 2 x)) : ℚ) * (2 : ℚ) ^ (Int.log 2 x - 23) - x
      = ((roundHalfEven (x * (2 : ℚ) ^ (23 - Int.log 2 x)) : ℚ) - x * (2 : ℚ) ^ (23 - Int.log 2 x))
          * (2 : ℚ) ^ (Int.log 2 x - 23) := by
    rw [sub_mul, mul_assoc, hs, mul_one]
  rw [this, abs_mul, abs_of_pos hpos]
  calc _ ≤ 1 / 2 * (2 : ℚ) ^ (Int.log 2 x - 23) := mul_le_mul_of_nonneg_right hr hpos.le
    _ = (2 : ℚ) ^ Int.log 2 x / 2 ^ 24 := by rw [hsplit]; ring
    _ ≤ x / 2 ^ 24 := by
      apply div_le_div_of_nonneg_right _ (by positivity)
      exact_mod_cast he

theorem float_lt_one (x : ℚ) (h0 : 0 ≤ x) (h1 : x ≤ 8388607 / 8388608) : float x < 1 := by
  have := (abs_le.mp (float_abs_sub_le x h0)).2
  have h2 : x / 2 ^ 24 ≤ 8388607 / 8388608 / 2 ^ 24 :=
    div_le_div_of_nonneg_right h1 (by positivity)
  norm_num at h2 ⊢
  linarith

/-- The conversion of an integer below `2 ^ 24` to `float` is exact. -/
theorem float_natCast (n : ℕ) (hn : n < 16777216) : float (n : ℚ) = n := by
  rcases Nat.eq_zero_or_pos n with h | h
  · subst h; simp [float_zero]
  · have hlog : Int.log 2 |(n : ℚ)| = Nat.log 2 n := by
      rw [abs_of_nonneg (by positivity), Int.log_natCast]
    have hle : Nat.log 2 n ≤ 23 := by
      have := Nat.log_lt_of_lt_pow (b := 2) (x := 24) (Nat.pos_iff_ne_zero.1 h)
        (by norm_num; exact hn)
      omega
    apply float_eq_self _ ((n * 2 ^ (23 - Nat.log 2 n) : ℕ) : ℤ)
    rw [hlog]
    have : (23 : ℤ) - (Nat.log 2 n : ℤ) = ((23 - Nat.log 2 n : ℕ) : ℤ) := by omega
    rw [this, zpow_natCast]
    push_cast
    rfl

/-- A quotient below one by a power of two up to `2 ^ 24` is a `float`. -/
theorem float_div_two_pow (m k : ℕ) (hm : m < 2 ^ k) (hk : k ≤ 24) :
    float ((m : ℚ) / (2 : ℚ) ^ k) = (m : ℚ) / (2 : ℚ) ^ k := by
  rcases Nat.eq_zero_or_pos m with h | h
  · subst h; simp [float_zero]
  · have hx : (0 : ℚ) < (m : ℚ) / (2 : ℚ) ^ k := by positivity
    have hx1 : (m : ℚ) / (2 : ℚ) ^ k < (2 : ℚ) ^ (0 : ℤ) := by
      rw [zpow_zero, div_lt_one (by positivity)]
      exact_mod_cast hm
    have hlog : Int.log 2 ((m : ℚ) / (2 : ℚ) ^ k) < 0 :=
      (Int.lt_zpow_iff_log_lt (b := 2) (by norm_num) hx).1 (by exact_mod_cast hx1)
    obtain ⟨j, hj⟩ : ∃ j : ℕ, (23 : ℤ) - Int.log 2 ((m : ℚ) / (2 : ℚ) ^ k) = (j : ℤ) + (k : ℤ) :=
      ⟨(23 - Int.log 2 ((m : ℚ) / (2 : ℚ) ^ k) - k).toNat, by omega⟩
    apply float_eq_self _ ((m * 2 ^ j : ℕ) : ℤ)
    rw [abs_of_pos hx, hj, zpow_add₀ (by norm_num), zpow_natCast, zpow_natCast]
    push_cast
    field_simp
    ring

/-- The quotient `1 / 3` is rounded to the `float` `11184811 / 2 ^ 25`. -/
theorem float_one_third : float (1 / 3) = 11184811 / 33554432 := by
  have hlog : Int.log 2 |(1 / 3 : ℚ)| = -2 := by
    rw [abs_of_pos (by norm_num)]
    apply le_antisymm
    · have := (Int.lt_zpow_iff_log_lt (b := 2) (x := -1) (r := (1 / 3 : ℚ)) (by norm_num)
        (by norm_num)).1 (by norm_num)
      omega
    · exact (Int.zpow_le_iff_le_log (b := 2) (x := -2) (r := (1 / 3 : ℚ)) (by norm_num)
        (by norm_num)).1 (by norm_num)
  have hfloor : ⌊(33554432 / 3 : ℚ)⌋ = 11184810 := by
    rw [Int.floor_eq_iff]; norm_num
  unfold float
  rw [if_neg (by norm_num), hlog]
  have hy : (1 / 3 : ℚ) * (2 : ℚ) ^ ((23 : ℤ) - -2) = 33554432 / 3 := by norm_num
  rw [hy]
  have hr : roundHalfEven (33554432 / 3 : ℚ) = 11184811 := by
    unfold roundHalfEven
    rw [hfloor]
    norm_num
  rw [hr]
  norm_num

/-! ## Lemmas: running the code when the device succeeds -/

/-- Running a sequence: the second part runs on the result and state of the first. -/
theorem Dev.bind_run {α β : Type} (x : Dev α) (f : α → Dev β) (w : World) :
    (x >>= f) w = f (x w).1 (x w).2 := rfl

theorem Dev.pure_run {α : Type} (a : α) (w : World) : (pure a : Dev α) w = (a, w) := rfl

theorem emit_run (e : Event) (w : World) :
    emit e w = ((), ⟨w.trace ++ [e], w.nextHandle, w.images⟩) := rfl

theorem vkCall_ok {env : Env} (h : env.DeviceOk) (e : Event) (w : World) :
    vkCall env e w = (VK_SUCCESS, ⟨w.trace ++ [e], w.nextHandle, w.images⟩) := by
  simp [vkCall, h _]

theorem vkCreate_ok {env : Env} (h : env.DeviceOk) (mk : Handle → Event) (w : World) :
    vkCreate env mk w =
      ((VK_SUCCESS, w.nextHandle), ⟨w.trace ++ [mk w.nextHandle], w.nextHandle + 1, w.images⟩) := by
  simp [vkCreate, h _]

theorem createImage_ok {env : Env} (h : env.DeviceOk) (info : VkImageCreateInfo) (w : World) :
    createImage2DAndAllocate env info w =
      ((VK_SUCCESS, w.images.length + 1),
        ⟨w.trace ++ [Event.createImage2DAndAllocate (w.images.length + 1) info], w.nextHandle,
          w.images ++ [info]⟩) := by
  simp [createImage2DAndAllocate, h _]

theorem allocFaces_ok {env : Env} (h : env.DeviceOk) (size : Nat) (n : Nat) :
    ∀ (faces : List Handle) (w : World),
    downloadCubemap.allocFaces env size n faces w =
      ((none, faces ++ List.range' w.nextHandle n),
        ⟨w.trace ++ allocFacesTrace size n w.nextHandle, w.nextHandle + n, w.images⟩) := by
  induction n with
  | zero => intro faces w; simp [downloadCubemap.allocFaces, allocFacesTrace, Dev.pure_run]
  | succ n ih =>
    intro faces w
    simp [downloadCubemap.allocFaces, allocFacesTrace, Dev.bind_run, Dev.pure_run,
      vkCreate_ok h, ih, List.range'_succ, Nat.add_assoc, Nat.add_comm 1 n]

theorem allocLevels_ok {env : Env} (h : env.DeviceOk) (b : Nat) (n : Nat) :
    ∀ (side : Nat) (sb : List (List Handle)) (w : World),
    downloadCubemap.allocLevels env b n side sb w =
      ((none, sb ++ handleRows n w.nextHandle),
        ⟨w.trace ++ allocLevelsTrace b n side w.nextHandle, 6 * n + w.nextHandle, w.images⟩) := by
  induction n with
  | zero => intro side sb w; simp [downloadCubemap.allocLevels, allocLevelsTrace, Dev.pure_run, handleRows]
  | succ n ih =>
    intro side sb w
    simp [downloadCubemap.allocLevels, allocLevelsTrace, handleRows, Dev.bind_run, Dev.pure_run,
      allocFaces_ok h, ih, Nat.add_assoc, Nat.mul_add, Nat.add_comm 6]

theorem copyFaces_run (cmd img : Handle) (faces : List Handle) (level side : Nat) (n : Nat) :
    ∀ (face : Nat) (w : World),
    downloadCubemap.copyFaces cmd img faces level side n face w =
      ((), ⟨w.trace ++ copyFacesTrace cmd img faces level side n face, w.nextHandle, w.images⟩) := by
  induction n with
  | zero => intro face w; simp [downloadCubemap.copyFaces, copyFacesTrace, Dev.pure_run]
  | succ n ih =>
    intro face w
    simp [downloadCubemap.copyFaces, copyFacesTrace, Dev.bind_run, emit_run, ih]

theorem copyLevels_run (cmd img : Handle) (sb : List (List Handle)) (n : Nat) :
    ∀ (level side : Nat) (w : World),
    downloadCubemap.copyLevels cmd img sb n level side w =
      ((), ⟨w.trace ++ copyLevelsTrace cmd img sb n level side, w.nextHandle, w.images⟩) := by
  induction n with
  | zero => intro level side w; simp [downloadCubemap.copyLevels, copyLevelsTrace, Dev.pure_run]
  | succ n ih =>
    intro level side w
    simp [downloadCubemap.copyLevels, copyLevelsTrace, Dev.bind_run, copyFaces_run, ih]

theorem writeFaces_ok {env : Env} (h : env.DeviceOk) (hw : ∀ t, env.writeFace t = Result.Success)
    (faces : List Handle) (size level : Nat) (n : Nat) :
    ∀ (face : Nat) (w : World),
    downloadCubemap.writeFaces env faces size level n face w =
      (none, ⟨w.trace ++ writeFacesTrace faces size level n face, w.nextHandle, w.images⟩) := by
  induction n with
  | zero => intro face w; simp [downloadCubemap.writeFaces, writeFacesTrace, Dev.pure_run]
  | succ n ih =>
    intro face w
    simp [downloadCubemap.writeFaces, writeFacesTrace, Dev.bind_run, Dev.pure_run, emit_run,
      vkCall_ok h, writeFace, hw _, ih]

theorem writeLevels_ok {env : Env} (h : env.DeviceOk) (hw : ∀ t, env.writeFace t = Result.Success)
    (sb : List (List Handle)) (b : Nat) (n : Nat) :
    ∀ (level side : Nat) (w : World),
    downloadCubemap.writeLevels env sb b n level side w =
      (none, ⟨w.trace ++ writeLevelsTrace sb b n level side, w.nextHandle, w.images⟩) := by
  induction n with
  | zero => intro level side w; simp [downloadCubemap.writeLevels, writeLevelsTrace, Dev.pure_run]
  | succ n ih =>
    intro level side w
    simp [downloadCubemap.writeLevels, writeLevelsTrace, Dev.bind_run, Dev.pure_run,
      writeFaces_ok h hw, ih]

theorem getCreateInfo_run (image : Handle) (w : World) :
    getCreateInfo image w = (if image = VK_NULL_HANDLE then none else w.images[image - 1]?, w) := rfl

theorem result_ite_self (r : Result) :
    (if r = Result.Success then Result.Success else r) = r := by
  cases r <;> rfl

/-- When the device succeeds and every face is written, `downloadCubemap` of a known
image reaches `downloadCubemap.finish` after the calls `downloadWrittenTrace`. -/
theorem downloadCubemap_written {env : Env} (h : env.DeviceOk)
    (hw : ∀ t, env.writeFace t = Result.Success)
    (k : Handle) (path : String) (ver : Version) (q : Nat) (layout : VkImageLayout)
    (info : VkImageCreateInfo) (w : World) (hinfo : w.images[k]? = some info) :
    downloadCubemap env (k + 1) path ver q layout w =
      downloadCubemap.finish env path q
        ⟨w.trace ++ downloadWrittenTrace env (k + 1) info ver layout w.nextHandle,
          6 * info.mipLevels + w.nextHandle + 1, w.images⟩ := by
  simp [downloadCubemap, downloadWrittenTrace, downloadCopyTrace, Dev.bind_run, Dev.pure_run,
    emit_run, getCreateInfo_run, VK_NULL_HANDLE, hinfo, allocLevels_ok h, vkCreate_ok h,
    vkCall_ok h, copyLevels_run, writeLevels_ok h hw]

theorem finish_uncompressed (env : Env) (path : String) (w : World) :
    downloadCubemap.finish env path 0 w =
      (env.save (w.trace ++ [Event.save path]),
        ⟨w.trace ++ [Event.save path], w.nextHandle, w.images⟩) := by
  simp [downloadCubemap.finish, Dev.bind_run, Dev.pure_run, save]
  split <;> simp_all [Dev.bind_run, Dev.pure_run]

theorem finish_compressed (env : Env) (path : String) (q : Nat) (hq : q > 0) (w : World)
    (hc : env.compress (w.trace ++ [Event.compress q]) = Result.Success) :
    downloadCubemap.finish env path q w =
      (env.save (w.trace ++ [Event.compress q, Event.save path]),
        ⟨w.trace ++ [Event.compress q, Event.save path], w.nextHandle, w.images⟩) := by
  simp [downloadCubemap.finish, Dev.bind_run, Dev.pure_run, save, compress, hq, hc]
  split <;> simp_all [Dev.bind_run, Dev.pure_run]

theorem finish_compress_failed (env : Env) (path : String) (q : Nat) (hq : q > 0) (w : World)
    (hc : env.compress (w.trace ++ [Event.compress q]) ≠ Result.Success) :
    downloadCubemap.finish env path q w =
      (env.compress (w.trace ++ [Event.compress q]),
        ⟨w.trace ++ [Event.compress q], w.nextHandle, w.images⟩) := by
  simp [downloadCubemap.finish, Dev.bind_run, Dev.pure_run, compress, hq, hc]

theorem finish_ok {env : Env} (hk : env.KtxOk) (path : String) (q : Nat) (w : World) :
    downloadCubemap.finish env path q w =
      (Result.Success,
        ⟨w.trace ++ ((if q > 0 then [Event.compress q] else []) ++ [Event.save path]),
          w.nextHandle, w.images⟩) := by
  by_cases hq : q > 0
  · rw [finish_compressed env path q hq w (hk.2.1 _)]
    simp [hq, hk.2.2 _]
  · have h0 : q = 0 := by omega
    subst h0
    rw [finish_uncompressed]
    simp [hk.2.2 _]

/-- A `downloadCubemap` of a known image in which nothing fails returns `Success`
after the calls `downloadTrace`. -/
theorem downloadCubemap_ok {env : Env} (h : env.DeviceOk) (hk : env.KtxOk)
    (k : Handle) (path : String) (ver : Version) (q : Nat) (layout : VkImageLayout)
    (info : VkImageCreateInfo) (w : World) (hinfo : w.images[k]? = some info) :
    downloadCubemap env (k + 1) path ver q layout w =
      (Result.Success,
        ⟨w.trace ++ downloadTrace env (k + 1) info path ver q layout w.nextHandle,
          6 * info.mipLevels + w.nextHandle + 1, w.images⟩) := by
  rw [downloadCubemap_written h hk.1 k path ver q layout info w hinfo, finish_ok hk]
  simp [downloadTrace]

theorem compileShader_ok {env : Env} (h : env.DeviceOk) (hin : env.InputsOk)
    (path entry : String) (stage : Stage) (w : World) :
    compileShader env path entry stage w =
      ((Result.Success, w.nextHandle),
        ⟨w.trace ++ compileShaderTrace path entry stage w.nextHandle, w.nextHandle + 1,
          w.images⟩) := by
  simp [compileShader, compileShaderTrace, Dev.bind_run, Dev.pure_run, readFile, compile,
    hin.2.1 _, hin.2.2 _, vkCreate_ok h]

theorem createFaceViews_ok {env : Env} (h : env.DeviceOk) (image mip : Nat) (n : Nat) :
    ∀ (j : Nat) (views : List Handle) (w : World),
    sample.createFaceViews env image mip n j views w =
      ((none, views ++ List.range' w.nextHandle n),
        ⟨w.trace ++ faceViewsTrace image mip n j w.nextHandle, w.nextHandle + n, w.images⟩) := by
  induction n with
  | zero => intro j views w; simp [sample.createFaceViews, faceViewsTrace, Dev.pure_run]
  | succ n ih =>
    intro j views w
    simp [sample.createFaceViews, faceViewsTrace, Dev.bind_run, Dev.pure_run,
      vkCreate_ok h, ih, List.range'_succ]
    omega

theorem createSpecularViews_ok {env : Env} (h : env.DeviceOk) (image : Nat) (n : Nat) :
    ∀ (i : Nat) (views : List (List Handle)) (w : World),
    sample.createSpecularViews env image n i views w =
      ((none, views ++ handleRows n w.nextHandle),
        ⟨w.trace ++ specularViewsTrace image n i w.nextHandle, 6 * n + w.nextHandle,
          w.images⟩) := by
  induction n with
  | zero => intro i views w; simp [sample.createSpecularViews, specularViewsTrace, handleRows, Dev.pure_run]
  | succ n ih =>
    intro i views w
    simp [sample.createSpecularViews, specularViewsTrace, handleRows, Dev.bind_run, Dev.pure_run,
      createFaceViews_ok h, ih]
    omega

theorem mipmapLoop_run (cmd img side : Nat) (n : Nat) :
    ∀ (i : Nat) (w : World),
    generateMipmapLevels.loop cmd img side n i w =
      ((), ⟨w.trace ++ mipmapLoopTrace cmd img side n i, w.nextHandle, w.images⟩) := by
  induction n with
  | zero => intro i w; simp [generateMipmapLevels.loop, mipmapLoopTrace, Dev.pure_run]
  | succ n ih =>
    intro i w
    simp [generateMipmapLevels.loop, mipmapLoopTrace, Dev.bind_run, emit_run, ih]

theorem generateMipmapLevels_run (cmd img maxMip side : Nat) (w : World) :
    generateMipmapLevels cmd img maxMip side w =
      ((), ⟨w.trace ++ generateMipmapLevelsTrace cmd img maxMip side, w.nextHandle,
        w.images⟩) := by
  simp [generateMipmapLevels, generateMipmapLevelsTrace, Dev.bind_run, emit_run, mipmapLoop_run]

theorem specularLoop_ok {env : Env} (h : env.DeviceOk) (cmd rp img layout : Handle)
    (views : List (List Handle)) (M sc : Nat) (n : Nat) :
    ∀ (m side : Nat) (w : World),
    sample.specularLoop env cmd rp img layout views M sc n m side w =
      (none, ⟨w.trace ++ specularLoopTrace cmd rp img layout views M sc n m side w.nextHandle,
        n + w.nextHandle, w.images⟩) := by
  induction n with
  | zero => intro m side w; simp [sample.specularLoop, specularLoopTrace, Dev.pure_run]
  | succ n ih =>
    intro m side w
    simp [sample.specularLoop, specularLoopTrace, Dev.bind_run, Dev.pure_run, emit_run,
      vkCreate_ok h, ih]
    omega

theorem blitLoop_run (cmd src out layers : Nat) (n : Nat) :
    ∀ (level side : Nat) (w : World),
    convertVkFormat.blitLoop cmd src out layers n level side w =
      ((), ⟨w.trace ++ blitLoopTrace cmd src out layers n level side, w.nextHandle,
        w.images⟩) := by
  induction n with
  | zero => intro level side w; simp [convertVkFormat.blitLoop, blitLoopTrace, Dev.pure_run]
  | succ n ih =>
    intro level side w
    simp [convertVkFormat.blitLoop, blitLoopTrace, Dev.bind_run, emit_run, ih]

theorem convertVkFormat_ok {env : Env} (h : env.DeviceOk) (cmd k : Handle) (fmt : VkFormat)
    (layout : VkImageLayout) (info : VkImageCreateInfo) (w : World)
    (hinfo : w.images[k]? = some info) :
    convertVkFormat env cmd (k + 1) VK_NULL_HANDLE fmt layout w =
      ((Result.Success, w.images.length + 1),
        ⟨w.trace ++ convertTrace cmd (k + 1) (w.images.length + 1) info fmt layout, w.nextHandle,
          w.images ++ [⟨fmt, info.width, info.width, info.mipLevels, info.arrayLayers, false⟩]⟩) := by
  simp [convertVkFormat, convertTrace, Dev.bind_run, Dev.pure_run, emit_run, getCreateInfo_run,
    hinfo, createImage_ok h, blitLoop_run, VK_NULL_HANDLE]

/-- The run of `convertVkFormat` when the device creates the output image:
no other call of it can fail. -/
theorem convertVkFormat_created {env : Env} (cmd k : Handle) (fmt : VkFormat)
    (layout : VkImageLayout) (info : VkImageCreateInfo) (w : World)
    (hinfo : w.images[k]? = some info)
    (hcreate : env.vk (w.trace ++ [Event.createImage2DAndAllocate (w.images.length + 1)
      ⟨fmt, info.width, info.width, info.mipLevels, info.arrayLayers, false⟩]) = VK_SUCCESS) :
    convertVkFormat env cmd (k + 1) VK_NULL_HANDLE fmt layout w =
      ((Result.Success, w.images.length + 1),
        ⟨w.trace ++ convertTrace cmd (k + 1) (w.images.length + 1) info fmt layout, w.nextHandle,
          w.images ++ [⟨fmt, info.width, info.width, info.mipLevels, info.arrayLayers, false⟩]⟩) := by
  simp [convertVkFormat, convertTrace, Dev.bind_run, Dev.pure_run, emit_run, getCreateInfo_run,
    hinfo, createImage2DAndAllocate, hcreate, blitLoop_run, VK_NULL_HANDLE]

/-- The run of `convertVkFormat` when the device refuses the output image. -/
theorem convertVkFormat_refused {env : Env} (cmd k : Handle) (fmt : VkFormat)
    (layout : VkImageLayout) (info : VkImageCreateInfo) (w : World)
    (hinfo : w.images[k]? = some info)
    (hcreate : env.vk (w.trace ++ [Event.createImage2DAndAllocate (w.images.length + 1)
      ⟨fmt, info.width, info.width, info.mipLevels, info.arrayLayers, false⟩]) ≠ VK_SUCCESS) :
    convertVkFormat env cmd (k + 1) VK_NULL_HANDLE fmt layout w =
      ((Result.VulkanError, VK_NULL_HANDLE),
        ⟨w.trace ++ [Event.createImage2DAndAllocate (w.images.length + 1)
          ⟨fmt, info.width, info.width, info.mipLevels, info.arrayLayers, false⟩], w.nextHandle,
          w.images⟩) := by
  simp [convertVkFormat, Dev.bind_run, Dev.pure_run, getCreateInfo_run,
    hinfo, createImage2DAndAllocate, hcreate, VK_NULL_HANDLE]

theorem uploadImage_ok {env : Env} (h : env.DeviceOk) (hin : env.InputsOk)
    (path : String) (w : World) :
    uploadImage env path w =
      ((Result.Success, w.images.length + 1),
        ⟨w.trace ++ uploadImageTrace env path w.nextHandle (w.images.length + 1),
          w.nextHandle + 2, w.images ++ [panoramaInfo env]⟩) := by
  simp [uploadImage, Dev.bind_run, Dev.pure_run, emit_run, vkCall_ok h, vkCreate_ok h,
    createImage_ok h, loadHdr, hin.1 _, uploadImageTrace, panoramaInfo]

theorem createDescriptorSet_ok {env : Env} (h : env.DeviceOk) (sampler view : Handle)
    (binding : Nat) (w : World) :
    createDescriptorSet env sampler view binding w =
      ((VK_SUCCESS, w.nextHandle, w.nextHandle + 1),
        ⟨w.trace ++ [Event.createDescriptorSet w.nextHandle (w.nextHandle + 1) sampler view binding],
          w.nextHandle + 2, w.images⟩) := by
  simp [createDescriptorSet, h _]

theorem sample_start {env : Env} (h : env.DeviceOk) (hin : env.InputsOk) (pin ps pd : String)
    (ver q S M sc fmt : Nat) (hacc : ¬ S >>> M < 1) :
    sample env pin ps pd ver q S M sc fmt World.fresh =
      sample.resources env ps pd ver q S M sc fmt (sample.maxMipLevels S) 1 3 4 5 6
        ⟨Event.vulkanInitialize ::
          (uploadImageTrace env pin 1 1 ++
           (compileShaderTrace (env.IBLSAMPLER_SHADERS_DIR ++ "/primitive.vert") "main" Stage.Vertex 3 ++
            (compileShaderTrace (env.IBLSAMPLER_SHADERS_DIR ++ "/filter.frag") "panoramaToCubeMap"
               Stage.Fragment 4 ++
             (compileShaderTrace (env.IBLSAMPLER_SHADERS_DIR ++ "/filter.frag") "filterCubeMapSpecular"
                Stage.Fragment 5 ++
              compileShaderTrace (env.IBLSAMPLER_SHADERS_DIR ++ "/filter.frag") "filterCubeMapDiffuse"
                 Stage.Fragment 6)))), 7, [panoramaInfo env]⟩ := by
  simp [sample, hacc, World.fresh, Dev.bind_run, Dev.pure_run, vkCall_ok h,
    uploadImage_ok h hin, compileShader_ok h hin, Nat.add_assoc]

theorem sample_resources_ok {env : Env} (h : env.DeviceOk) (ps pd : String)
    (ver q S M sc fmt maxMip pano vs f1 f2 f3 : Nat) (w : World) :
    sample.resources env ps pd ver q S M sc fmt maxMip pano vs f1 f2 f3 w =
      sample.pipelines env ps pd ver q S M sc fmt maxMip vs f1 f2 f3 w.nextHandle (w.nextHandle + 2)
        (w.images.length + 1) (w.nextHandle + 3) (w.images.length + 2) (handleRows M (w.nextHandle + 4))
        (w.images.length + 3) (List.range' (6 * M + (w.nextHandle + 5)) 6) (6 * M + (w.nextHandle + 11))
        ⟨w.trace ++ resourcesTrace S M maxMip pano w.nextHandle w.images.length,
          6 * M + (w.nextHandle + 12),
          w.images ++ [cubeInfo S maxMip, cubeInfo S M, cubeInfo S 1]⟩ := by
  simp [sample.resources, resourcesTrace, cubeInfo, Dev.bind_run, Dev.pure_run, vkCall_ok h,
    vkCreate_ok h, createImage_ok h, createFaceViews_ok h, createSpecularViews_ok h, Nat.add_assoc]

theorem sample_pipelines_ok {env : Env} (h : env.DeviceOk) (ps pd : String)
    (ver q S M sc fmt maxMip vs f1 f2 f3 sampler pview inCube inView spec : Nat)
    (sviews : List (List Handle)) (diff : Nat) (dviews : List Handle) (rp : Nat) (w : World) :
    sample.pipelines env ps pd ver q S M sc fmt maxMip vs f1 f2 f3 sampler pview inCube inView
      spec sviews diff dviews rp w =
      sample.project env ps pd ver q S M sc fmt maxMip inCube spec sviews diff dviews rp
        (w.nextHandle + 2) (w.nextHandle + 1) (w.nextHandle + 3) (w.nextHandle + 5)
        (w.nextHandle + 6) (w.nextHandle + 7) (w.nextHandle + 11) (w.nextHandle + 10)
        (w.nextHandle + 9)
        ⟨w.trace ++ pipelinesTrace S vs f1 f2 f3 sampler pview inView rp w.nextHandle,
          w.nextHandle + 12, w.images⟩ := by
  simp [sample.pipelines, pipelinesTrace, Dev.bind_run, Dev.pure_run, emit_run, vkCall_ok h,
    vkCreate_ok h, createDescriptorSet_ok h, Nat.add_assoc]

theorem sample_project_ok {env : Env} (h : env.DeviceOk) (ps pd : String)
    (ver q S M sc fmt maxMip inCube spec : Nat)
    (sviews : List (List Handle)) (diff : Nat) (dviews : List Handle)
    (rp ppl pset ppipe sset spl spipe dpipe dpl dset : Nat) (w : World) :
    sample.project env ps pd ver q S M sc fmt maxMip inCube spec sviews diff dviews rp
      ppl pset ppipe sset spl spipe dpipe dpl dset w =
      sample.filter env ps pd ver q S M sc fmt maxMip inCube spec sviews diff dviews rp sset spl
        spipe dpipe dpl dset w.nextHandle
        ⟨w.trace ++ projectTrace S maxMip inCube rp ppl pset ppipe w.nextHandle,
          w.nextHandle + 8, w.images⟩ := by
  simp [sample.project, projectTrace, Dev.bind_run, Dev.pure_run, emit_run, vkCall_ok h,
    vkCreate_ok h, createFaceViews_ok h, Nat.add_assoc]

theorem sample_filter_ok {env : Env} (h : env.DeviceOk) (ps pd : String)
    (ver q S M sc fmt maxMip inCube spec : Nat)
    (sviews : List (List Handle)) (diff : Nat) (dviews : List Handle)
    (rp sset spl spipe dpipe dpl dset cmd : Nat) (w : World) :
    sample.filter env ps pd ver q S M sc fmt maxMip inCube spec sviews diff dviews rp
      sset spl spipe dpipe dpl dset cmd w =
      sample.output env ps pd ver q fmt cmd spec diff
        ⟨w.trace ++ filterTrace S M sc maxMip inCube spec sviews diff dviews rp sset spl spipe
            dpipe dpl dset cmd w.nextHandle,
          M + (w.nextHandle + 1), w.images⟩ := by
  simp [sample.filter, filterTrace, Dev.bind_run, Dev.pure_run, emit_run, vkCall_ok h,
    vkCreate_ok h, generateMipmapLevels_run, specularLoop_ok h, Nat.add_assoc]

/-- When the inputs load and the device succeeds, an accepted `sample` reaches
`sample.output` after the calls `recordTrace`, with the four working images. -/
theorem sample_recorded {env : Env} (h : env.DeviceOk) (hin : env.InputsOk) (pin ps pd : String)
    (ver q S M sc fmt : Nat) (hacc : ¬ S >>> M < 1) :
    sample env pin ps pd ver q S M sc fmt World.fresh =
      sample.output env ps pd ver q fmt (6 * M + 31) 3 4
        ⟨recordTrace env pin S M sc, M + (6 * M + 40),
          [panoramaInfo env, cubeInfo S (sample.maxMipLevels S), cubeInfo S M, cubeInfo S 1]⟩ := by
  rw [sample_start h hin pin ps pd ver q S M sc fmt hacc, sample_resources_ok h,
    sample_pipelines_ok h, sample_project_ok h, sample_filter_ok h]
  simp [recordTrace, Nat.add_assoc]

theorem sample_output_ok {env : Env} (h : env.DeviceOk) (ps pd : String) (ver q fmt cmd : Nat)
    (S M : Nat) (t : List Event) (n : Nat) (maxMip : Nat) :
    sample.output env ps pd ver q fmt cmd 3 4
        ⟨t, n, [panoramaInfo env, cubeInfo S maxMip, cubeInfo S M, cubeInfo S 1]⟩ =
      sample.serialise env ps pd ver q (downloadedSpecular fmt) (downloadedDiffuse fmt)
        (downloadedLayout fmt) (downloadedLayout fmt)
        ⟨t ++ outputTrace cmd S M fmt, n,
          [panoramaInfo env, cubeInfo S maxMip, cubeInfo S M, cubeInfo S 1] ++
          (if fmt != VK_FORMAT_R32G32B32A32_SFLOAT then
            [downloadedInfo S M fmt, downloadedInfo S 1 fmt] else [])⟩ := by
  by_cases hf : fmt = VK_FORMAT_R32G32B32A32_SFLOAT
  · simp [sample.output, outputTrace, downloadedSpecular, downloadedDiffuse, downloadedLayout, hf,
      Dev.bind_run, Dev.pure_run, vkCall_ok h]
  · have hb : (fmt != VK_FORMAT_R32G32B32A32_SFLOAT) = true := by simpa using hf
    have h3 := convertVkFormat_ok h cmd 2 fmt VkImageLayout.COLOR_ATTACHMENT_OPTIMAL (cubeInfo S M)
    have h4 := convertVkFormat_ok h cmd 3 fmt VkImageLayout.COLOR_ATTACHMENT_OPTIMAL (cubeInfo S 1)
    simp only [Nat.reduceAdd] at h3 h4
    simp [sample.output, outputTrace, downloadedSpecular, downloadedDiffuse, downloadedLayout,
      downloadedInfo, hb, Dev.bind_run, Dev.pure_run, vkCall_ok h, h3, h4]
    simp [cubeInfo]

/-- When the inputs load and the device succeeds, an accepted `sample` reaches
`sample.serialise` after the calls `submittedTrace`. -/
theorem sample_submitted {env : Env} (h : env.DeviceOk) (hin : env.InputsOk) (pin ps pd : String)
    (ver q S M sc fmt : Nat) (hacc : ¬ S >>> M < 1) :
    sample env pin ps pd ver q S M sc fmt World.fresh =
      sample.serialise env ps pd ver q (downloadedSpecular fmt) (downloadedDiffuse fmt)
        (downloadedLayout fmt) (downloadedLayout fmt)
        ⟨submittedTrace env pin S M sc fmt, M + (6 * M + 40), sampleImages env S M fmt⟩ := by
  rw [sample_recorded h hin pin ps pd ver q S M sc fmt hacc, sample_output_ok h]
  rfl

theorem sample_serialise_ok {env : Env} (h : env.DeviceOk) (hk : env.KtxOk) (ps pd : String)
    (ver q S M fmt : Nat) (t : List Event) (n : Nat) :
    sample.serialise env ps pd ver q (downloadedSpecular fmt) (downloadedDiffuse fmt)
        (downloadedLayout fmt) (downloadedLayout fmt) ⟨t, n, sampleImages env S M fmt⟩ =
      (Result.Success,
        ⟨t ++ (downloadTrace env (downloadedSpecular fmt) (downloadedInfo S M fmt) ps
              (sample.ktxImageVersion ver) q (downloadedLayout fmt) n ++
            downloadTrace env (downloadedDiffuse fmt) (downloadedInfo S 1 fmt) pd
              (sample.ktxImageVersion ver) q (downloadedLayout fmt) (6 * M + (n + 1))),
          6 + (6 * M + (n + 2)), sampleImages env S M fmt⟩) := by
  by_cases hf : fmt = VK_FORMAT_R32G32B32A32_SFLOAT
  · have h3 := fun w hw => downloadCubemap_ok h hk 2 ps (sample.ktxImageVersion ver) q
      VkImageLayout.COLOR_ATTACHMENT_OPTIMAL (cubeInfo S M) w hw
    have h4 := fun w hw => downloadCubemap_ok h hk 3 pd (sample.ktxImageVersion ver) q
      VkImageLayout.COLOR_ATTACHMENT_OPTIMAL (cubeInfo S 1) w hw
    simp only [Nat.reduceAdd] at h3 h4
    simp [sample.serialise, downloadedSpecular, downloadedDiffuse, downloadedLayout, sampleImages,
      downloadedInfo, hf, Dev.bind_run, Dev.pure_run, h3, h4, Result.toInt, VK_SUCCESS,
      Nat.add_assoc]
    simp [cubeInfo]
  · have hb : (fmt != VK_FORMAT_R32G32B32A32_SFLOAT) = true := by simpa using hf
    have h5 := fun w hw => downloadCubemap_ok h hk 4 ps (sample.ktxImageVersion ver) q
      VkImageLayout.TRANSFER_DST_OPTIMAL (downloadedInfo S M fmt) w hw
    have h6 := fun w hw => downloadCubemap_ok h hk 5 pd (sample.ktxImageVersion ver) q
      VkImageLayout.TRANSFER_DST_OPTIMAL (downloadedInfo S 1 fmt) w hw
    simp only [Nat.reduceAdd] at h5 h6
    simp [sample.serialise, downloadedSpecular, downloadedDiffuse, downloadedLayout, sampleImages,
      hb, Dev.bind_run, Dev.pure_run, h5, h6, Result.toInt, VK_SUCCESS, Nat.add_assoc]
    simp [downloadedInfo]

/-- An accepted run of `sample` in which nothing fails returns `Success` after the
calls `sampleTrace`. -/
theorem sample_ok {env : Env} (h : env.DeviceOk) (hin : env.InputsOk) (hk : env.KtxOk)
    (pin ps pd : String) (ver q S M sc fmt : Nat) (hacc : ¬ S >>> M < 1) :
    sample env pin ps pd ver q S M sc fmt World.fresh =
      (Result.Success,
        ⟨sampleTrace env pin ps pd ver q S M sc fmt, 6 + (6 * M + (M + (6 * M + 42))),
          sampleImages env S M fmt⟩) := by
  rw [sample_submitted h hin pin ps pd ver q S M sc fmt hacc, sample_serialise_ok h hk]
  simp [sampleTrace, Nat.add_assoc]

/-! ## Lemmas: the validation and the mip count -/

theorem shiftRight_lt_one_iff (S M : Nat) : S >>> M < 1 ↔ S < 2 ^ M := by
  rw [Nat.shiftRight_eq_div_pow, Nat.lt_one_iff, Nat.div_eq_zero_iff (Nat.two_pow_pos M)]

theorem accepted_iff_le_log (S M : Nat) (hS : 1 ≤ S) : ¬ S >>> M < 1 ↔ M ≤ Nat.log 2 S := by
  rw [shiftRight_lt_one_iff, Nat.not_lt]
  exact Nat.pow_le_iff_le_log (by decide) (by omega)

/-- The number of halvings that take `m` to zero is one more than for `m >> 1`. -/
theorem halvings_step (m : Nat) (hm : 0 < m) :
    (if m = 0 then 0 else Nat.log 2 m + 1) =
      (if m >>> 1 = 0 then 0 else Nat.log 2 (m >>> 1) + 1) + 1 := by
  rw [Nat.shiftRight_eq_div_pow, pow_one, if_neg (by omega)]
  by_cases h2 : 2 ≤ m
  · have : m / 2 ≠ 0 := by omega
    rw [if_neg this, Nat.log_of_one_lt_of_le (by decide) h2]
  · have : m = 1 := by omega
    subst this
    simp

/-- With fuel of at least `m` the halving loop adds to the counter the number of
halvings that take `m` to zero, as long as the counter stays a `uint32_t`. -/
theorem sample.maxMipLevelsLoop_fuel (fuel : Nat) :
    ∀ m acc, m ≤ fuel → acc + (if m = 0 then 0 else Nat.log 2 m + 1) < 4294967296 →
      sample.maxMipLevelsLoop fuel m acc = acc + (if m = 0 then 0 else Nat.log 2 m + 1) := by
  induction fuel with
  | zero =>
    intro m acc hf _
    have : m = 0 := by omega
    subst this
    simp [sample.maxMipLevelsLoop]
  | succ fuel ih =>
    intro m acc hf hb
    by_cases hm : m = 0
    · subst hm
      simp [sample.maxMipLevelsLoop]
    · have hpos : 0 < m := by omega
      have hstep := halvings_step m hpos
      have hlt : m >>> 1 ≤ fuel := by
        rw [Nat.shiftRight_eq_div_pow, pow_one]; omega
      rw [hstep] at hb ⊢
      have hacc : uint32_t (acc + 1) = acc + 1 := by
        unfold uint32_t; apply Nat.mod_eq_of_lt; omega
      rw [sample.maxMipLevelsLoop, if_pos hpos, hacc, ih (m >>> 1) (acc + 1) hlt (by omega)]
      omega

theorem maxMipLevels_eq (S : Nat) (hS1 : 1 ≤ S) (hS : S < 4294967296) :
    sample.maxMipLevels S = Nat.log 2 S + 1 := by
  have hlog : Nat.log 2 S < 32 := Nat.log_lt_of_lt_pow (by omega) (by simpa using hS)
  have := sample.maxMipLevelsLoop_fuel S S 0 (Nat.le_refl _)
    (by rw [if_neg (by omega)]; omega)
  rw [sample.maxMipLevels, this, if_neg (by omega)]; simp

/-- A pair that fails the check of line 434 is rejected before any call. -/
theorem sample_rejected (env : Env) (pin ps pd : String) (ver q S M sc fmt : Nat)
    (h : S >>> M < 1) :
    sample env pin ps pd ver q S M sc fmt World.fresh = (Result.InvalidArgument, World.fresh) := by
  simp [sample, h, Dev.pure_run]

/-! ## Lemmas: the observations of a run in which nothing fails -/

theorem filterMap_allocFacesTrace {β : Type} (p : Event → Option β)
    (hp : ∀ b s, p (Event.createBufferAndAllocate b s) = none) (size n h : Nat) :
    (allocFacesTrace size n h).filterMap p = [] := by
  induction n generalizing h with
  | zero => rfl
  | succ n ih => simp [allocFacesTrace, hp, ih]

theorem filterMap_allocLevelsTrace {β : Type} (p : Event → Option β)
    (hp : ∀ b s, p (Event.createBufferAndAllocate b s) = none) (b n side h : Nat) :
    (allocLevelsTrace b n side h).filterMap p = [] := by
  induction n generalizing side h with
  | zero => rfl
  | succ n ih => simp [allocLevelsTrace, filterMap_allocFacesTrace p hp, ih]

theorem filterMap_copyFacesTrace {β : Type} (p : Event → Option β)
    (hp : ∀ c i b r, p (Event.copyImage2DToBuffer c i b r) = none) (cmd img : Handle)
    (faces : List Handle) (level side n face : Nat) :
    (copyFacesTrace cmd img faces level side n face).filterMap p = [] := by
  induction n generalizing face with
  | zero => rfl
  | succ n ih => simp [copyFacesTrace, hp, ih]

theorem filterMap_copyLevelsTrace {β : Type} (p : Event → Option β)
    (hp : ∀ c i b r, p (Event.copyImage2DToBuffer c i b r) = none) (cmd img : Handle)
    (sb : List (List Handle)) (n level side : Nat) :
    (copyLevelsTrace cmd img sb n level side).filterMap p = [] := by
  induction n generalizing level side with
  | zero => rfl
  | succ n ih => simp [copyLevelsTrace, filterMap_copyFacesTrace p hp, ih]

theorem filterMap_writeFacesTrace {β : Type} (p : Event → Option β)
    (hr : ∀ b s, p (Event.readBufferData b s) = none)
    (hw : ∀ d f l, p (Event.writeFace d f l) = none)
    (hd : ∀ b, p (Event.destroyBuffer b) = none)
    (faces : List Handle) (size level n face : Nat) :
    (writeFacesTrace faces size level n face).filterMap p = [] := by
  induction n generalizing face with
  | zero => rfl
  | succ n ih => simp [writeFacesTrace, hr, hw, hd, ih]

theorem filterMap_writeLevelsTrace {β : Type} (p : Event → Option β)
    (hr : ∀ b s, p (Event.readBufferData b s) = none)
    (hw : ∀ d f l, p (Event.writeFace d f l) = none)
    (hd : ∀ b, p (Event.destroyBuffer b) = none)
    (sb : List (List Handle)) (b n level side : Nat) :
    (writeLevelsTrace sb b n level side).filterMap p = [] := by
  induction n generalizing level side with
  | zero => rfl
  | succ n ih => simp [writeLevelsTrace, filterMap_writeFacesTrace p hr hw hd, ih]

theorem filterMap_faceViewsTrace {β : Type} (p : Event → Option β)
    (hp : ∀ v i r c, p (Event.createImageView v i r c) = none) (image mip n j h : Nat) :
    (faceViewsTrace image mip n j h).filterMap p = [] := by
  induction n generalizing j h with
  | zero => rfl
  | succ n ih => simp [faceViewsTrace, hp, ih]

theorem filterMap_specularViewsTrace {β : Type} (p : Event → Option β)
    (hp : ∀ v i r c, p (Event.createImageView v i r c) = none) (image n i h : Nat) :
    (specularViewsTrace image n i h).filterMap p = [] := by
  induction n generalizing i h with
  | zero => rfl
  | succ n ih => simp [specularViewsTrace, filterMap_faceViewsTrace p hp, ih]

theorem filterMap_mipmapLoopTrace {β : Type} (p : Event → Option β)
    (hb : ∀ c i o n r, p (Event.imageBarrier c i o n r) = none)
    (hl2 : ∀ c s sl dl b, p (Event.cmdBlitImage c s sl s dl b) = none)
    (cmd img side n i : Nat) :
    (mipmapLoopTrace cmd img side n i).filterMap p = [] := by
  induction n generalizing i with
  | zero => rfl
  | succ n ih => simp [mipmapLoopTrace, hb, hl2, ih]

theorem filterMap_specularLoopTrace {β : Type} (p : Event → Option β)
    (h1 : ∀ f r w h v l, p (Event.createFramebuffer f r w h v l) = none)
    (h2 : ∀ c i o n r, p (Event.imageBarrier c i o n r) = none)
    (h3 : ∀ c l v, p (Event.cmdPushConstants c l v) = none)
    (h4 : ∀ c r f w h v, p (Event.beginRenderPass c r f w h v) = none)
    (h5 : ∀ c v i, p (Event.cmdDraw c v i) = none)
    (h6 : ∀ c, p (Event.endRenderPass c) = none)
    (cmd rp img layout : Handle) (views : List (List Handle)) (M sc n m side h : Nat) :
    (specularLoopTrace cmd rp img layout views M sc n m side h).filterMap p = [] := by
  induction n generalizing m side h with
  | zero => rfl
  | succ n ih => simp [specularLoopTrace, h1, h2, h3, h4, h5, h6, ih]

theorem filterMap_blitLoopTrace {β : Type} (p : Event → Option β)
    (hl : ∀ c s sl d dl b, p (Event.cmdBlitImage c s sl d dl b) = none)
    (cmd src out layers n level side : Nat) :
    (blitLoopTrace cmd src out layers n level side).filterMap p = [] := by
  induction n generalizing level side with
  | zero => rfl
  | succ n ih => simp [blitLoopTrace, hl, ih]

/-! ### the container calls of a download -/

theorem ktxCalls_writeFacesTrace (faces : List Handle) (size level n face : Nat) :
    ktxCalls (writeFacesTrace faces size level n face) =
      (List.range n).map (fun j => Event.writeFace size (face + j) level) := by
  induction n generalizing face with
  | zero => rfl
  | succ n ih =>
    rw [List.range_succ_eq_map]
    simp only [ktxCalls] at ih
    simp [writeFacesTrace, ktxCalls, ktxCall, ih, Nat.add_assoc, Nat.add_comm 1]

theorem ktxCalls_writeLevelsTrace (sb : List (List Handle)) (b n level side : Nat) :
    ktxCalls (writeLevelsTrace sb b n level side) =
      (List.range n).flatMap (fun k => (List.range 6).map (fun f =>
        Event.writeFace (size_t ((side >>> k) * (side >>> k) * b)) f (level + k))) := by
  induction n generalizing level side with
  | zero => rfl
  | succ n ih =>
    rw [List.range_succ_eq_map]
    have hf := ktxCalls_writeFacesTrace (sb.getD level []) (size_t (side * side * b)) level 6 0
    simp only [ktxCalls] at ih hf
    simp only [writeLevelsTrace, ktxCalls, List.filterMap_append, hf, ih, List.flatMap_cons,
      List.flatMap_map, Nat.shiftRight_zero, Nat.add_zero, Nat.zero_add]
    congr 1
    apply List.flatMap_congr  
    intro k _
    simp [Nat.add_assoc, Nat.add_comm 1 k, Nat.shiftRight_add, ← Nat.shiftRight_add side 1 k]


theorem ktxCalls_downloadWrittenTrace (env : Env) (img : Handle) (info : VkImageCreateInfo)
    (ver : Version) (layout : VkImageLayout) (h : Nat) :
    ktxCalls (downloadWrittenTrace env img info ver layout h) =
      Event.ktxCreate ver info.width info.width info.format info.mipLevels true ::
        faceWrites info.width (uint32_t (env.FormatElementSize info.format)) info.mipLevels := by
  have h1 := filterMap_allocLevelsTrace ktxCall (fun _ _ => rfl)
  have h2 := filterMap_copyLevelsTrace ktxCall (fun _ _ _ _ => rfl)
  have h3 := ktxCalls_writeLevelsTrace
  simp only [ktxCalls] at h3
  simp [downloadWrittenTrace, downloadCopyTrace, ktxCalls, ktxCall, h1, h2, h3, faceWrites]

theorem ktxCalls_append (a b : List Event) : ktxCalls (a ++ b) = ktxCalls a ++ ktxCalls b := by
  simp [ktxCalls]

theorem ktxCalls_downloadTrace (env : Env) (img : Handle) (info : VkImageCreateInfo)
    (path : String) (ver : Version) (q : Nat) (layout : VkImageLayout) (h : Nat) :
    ktxCalls (downloadTrace env img info path ver q layout h) =
      containerCalls ver info.width info.format (uint32_t (env.FormatElementSize info.format))
        info.mipLevels q path := by
  rw [downloadTrace, ktxCalls_append, ktxCalls_downloadWrittenTrace]
  by_cases hq : q > 0 <;> simp [containerCalls, ktxCalls, ktxCall, hq]

theorem ktxCalls_submittedTrace (env : Env) (pin : String) (S M sc fmt : Nat) :
    ktxCalls (submittedTrace env pin S M sc fmt) = [] := by
  have h1 := filterMap_faceViewsTrace ktxCall (fun _ _ _ _ => rfl)
  have h2 := filterMap_specularViewsTrace ktxCall (fun _ _ _ _ => rfl)
  have h3 := filterMap_mipmapLoopTrace ktxCall (fun _ _ _ _ _ => rfl) (fun _ _ _ _ _ => rfl)
  have h4 := filterMap_specularLoopTrace ktxCall (fun _ _ _ _ _ _ => rfl) (fun _ _ _ _ _ => rfl)
    (fun _ _ _ => rfl) (fun _ _ _ _ _ _ => rfl) (fun _ _ _ => rfl) (fun _ => rfl)
  have h5 := filterMap_blitLoopTrace ktxCall (fun _ _ _ _ _ _ => rfl)
  by_cases hf : fmt = VK_FORMAT_R32G32B32A32_SFLOAT <;>
  simp [submittedTrace, recordTrace, outputTrace, uploadImageTrace, compileShaderTrace,
    resourcesTrace, pipelinesTrace, projectTrace, filterTrace, generateMipmapLevelsTrace,
    convertTrace, ktxCalls, ktxCall, h1, h2, h3, h4, h5, hf]

theorem ktxCalls_sampleTrace (env : Env) (pin ps pd : String) (ver q S M sc fmt : Nat) :
    ktxCalls (sampleTrace env pin ps pd ver q S M sc fmt) =
      containerCalls (sample.ktxImageVersion ver) S fmt (uint32_t (env.FormatElementSize fmt)) M q ps ++
      containerCalls (sample.ktxImageVersion ver) S fmt (uint32_t (env.FormatElementSize fmt)) 1 q pd := by
  rw [sampleTrace, ktxCalls_append, ktxCalls_append, ktxCalls_submittedTrace,
    ktxCalls_downloadTrace, ktxCalls_downloadTrace]
  simp [downloadedInfo]


/-! ### the image-to-buffer copies -/

theorem imageCopies_copyFacesTrace (cmd img : Handle) (faces : List Handle)
    (level side n face : Nat) :
    imageCopies (copyFacesTrace cmd img faces level side n face) =
      (List.range n).map (fun j => (img, ⟨level, face + j, 1, side, side, 1⟩)) := by
  induction n generalizing face with
  | zero => rfl
  | succ n ih =>
    rw [List.range_succ_eq_map]
    simp only [imageCopies] at ih
    simp [copyFacesTrace, imageCopies, imageCopy, ih, Nat.add_assoc, Nat.add_comm 1]

theorem imageCopies_copyLevelsTrace (cmd img : Handle) (sb : List (List Handle))
    (n level side : Nat) :
    imageCopies (copyLevelsTrace cmd img sb n level side) =
      (List.range n).flatMap (fun k => (List.range 6).map (fun f =>
        (img, ⟨level + k, f, 1, side >>> k, side >>> k, 1⟩))) := by
  induction n generalizing level side with
  | zero => rfl
  | succ n ih =>
    rw [List.range_succ_eq_map]
    have hf := imageCopies_copyFacesTrace cmd img (sb.getD level []) level side 6 0
    simp only [imageCopies] at ih hf
    simp only [copyLevelsTrace, imageCopies, List.filterMap_append, hf, ih, List.flatMap_cons,
      List.flatMap_map, Nat.shiftRight_zero, Nat.add_zero, Nat.zero_add]
    congr 1
    apply List.flatMap_congr
    intro k _
    simp [Nat.add_assoc, Nat.add_comm 1 k, Nat.shiftRight_add, ← Nat.shiftRight_add side 1 k]

theorem imageCopies_append (a b : List Event) :
    imageCopies (a ++ b) = imageCopies a ++ imageCopies b := by
  simp [imageCopies]

theorem imageCopies_downloadTrace (env : Env) (img : Handle) (info : VkImageCreateInfo)
    (path : String) (ver : Version) (q : Nat) (layout : VkImageLayout) (h : Nat) :
    imageCopies (downloadTrace env img info path ver q layout h) =
      cubeCopies img info.width info.mipLevels := by
  have h1 := filterMap_allocLevelsTrace imageCopy (fun _ _ => rfl)
  have h2 := filterMap_writeLevelsTrace imageCopy (fun _ _ => rfl) (fun _ _ _ => rfl)
    (fun _ => rfl)
  have h3 := imageCopies_copyLevelsTrace
  simp only [imageCopies] at h3
  by_cases hq : q > 0 <;>
  simp [downloadTrace, downloadWrittenTrace, downloadCopyTrace, imageCopies, imageCopy, h1, h2,
    h3, cubeCopies, hq]

theorem imageCopies_submittedTrace (env : Env) (pin : String) (S M sc fmt : Nat) :
    imageCopies (submittedTrace env pin S M sc fmt) = [] := by
  have h1 := filterMap_faceViewsTrace imageCopy (fun _ _ _ _ => rfl)
  have h2 := filterMap_specularViewsTrace imageCopy (fun _ _ _ _ => rfl)
  have h3 := filterMap_mipmapLoopTrace imageCopy (fun _ _ _ _ _ => rfl) (fun _ _ _ _ _ => rfl)
  have h4 := filterMap_specularLoopTrace imageCopy (fun _ _ _ _ _ _ => rfl)
    (fun _ _ _ _ _ => rfl) (fun _ _ _ => rfl) (fun _ _ _ _ _ _ => rfl) (fun _ _ _ => rfl)
    (fun _ => rfl)
  have h5 := filterMap_blitLoopTrace imageCopy (fun _ _ _ _ _ _ => rfl)
  by_cases hf : fmt = VK_FORMAT_R32G32B32A32_SFLOAT <;>
  simp [submittedTrace, recordTrace, outputTrace, uploadImageTrace, compileShaderTrace,
    resourcesTrace, pipelinesTrace, projectTrace, filterTrace, generateMipmapLevelsTrace,
    convertTrace, imageCopies, imageCopy, h1, h2, h3, h4, h5, hf]

theorem imageCopies_sampleTrace (env : Env) (pin ps pd : String) (ver q S M sc fmt : Nat) :
    imageCopies (sampleTrace env pin ps pd ver q S M sc fmt) =
      cubeCopies (downloadedSpecular fmt) S M ++ cubeCopies (downloadedDiffuse fmt) S 1 := by
  rw [sampleTrace, imageCopies_append, imageCopies_append, imageCopies_submittedTrace,
    imageCopies_downloadTrace, imageCopies_downloadTrace]
  simp [downloadedInfo]

/-! ### the push constants -/

theorem pushConstants_specularLoopTrace (cmd rp img layout : Handle)
    (views : List (List Handle)) (M sc n m side h : Nat) :
    pushConstants (specularLoopTrace cmd rp img layout views M sc n m side h) =
      (List.range n).map (fun k =>
        (⟨float (float ((m + k : Nat) : ℚ) / float (M : ℚ)), sc, m + k, side >>> k⟩ :
          PushConstant)) := by
  induction n generalizing m side h with
  | zero => rfl
  | succ n ih =>
    rw [List.range_succ_eq_map]
    simp only [pushConstants] at ih
    simp only [specularLoopTrace, pushConstants, List.filterMap_cons, pushConstant, ih,
      List.map_cons, List.map_map, Nat.shiftRight_zero, Nat.add_zero]
    congr 1
    apply List.map_congr_left
    intro k _
    simp [Nat.add_assoc, Nat.add_comm 1 k, ← Nat.shiftRight_add side 1 k]

theorem pushConstants_append (a b : List Event) :
    pushConstants (a ++ b) = pushConstants a ++ pushConstants b := by
  simp [pushConstants]

theorem pushConstants_downloadTrace (env : Env) (img : Handle) (info : VkImageCreateInfo)
    (path : String) (ver : Version) (q : Nat) (layout : VkImageLayout) (h : Nat) :
    pushConstants (downloadTrace env img info path ver q layout h) = [] := by
  have h1 := filterMap_allocLevelsTrace pushConstant (fun _ _ => rfl)
  have h2 := filterMap_writeLevelsTrace pushConstant (fun _ _ => rfl) (fun _ _ _ => rfl)
    (fun _ => rfl)
  have h3 := filterMap_copyLevelsTrace pushConstant (fun _ _ _ _ => rfl)
  by_cases hq : q > 0 <;>
  simp [downloadTrace, downloadWrittenTrace, downloadCopyTrace, pushConstants, pushConstant, h1,
    h2, h3, hq]

theorem pushConstants_submittedTrace (env : Env) (pin : String) (S M sc fmt : Nat) :
    pushConstants (submittedTrace env pin S M sc fmt) =
      (List.range M).map (fun (m : Nat) =>
        (⟨float (float (m : ℚ) / float (M : ℚ)), sc, m, S >>> m⟩ : PushConstant)) ++
        [⟨0, sc, 0, S⟩] := by
  have h1 := filterMap_faceViewsTrace pushConstant (fun _ _ _ _ => rfl)
  have h2 := filterMap_specularViewsTrace pushConstant (fun _ _ _ _ => rfl)
  have h3 := filterMap_mipmapLoopTrace pushConstant (fun _ _ _ _ _ => rfl)
    (fun _ _ _ _ _ => rfl)
  have h4 := pushConstants_specularLoopTrace
  have h5 := filterMap_blitLoopTrace pushConstant (fun _ _ _ _ _ _ => rfl)
  simp only [pushConstants] at h4
  by_cases hf : fmt = VK_FORMAT_R32G32B32A32_SFLOAT <;>
  simp [submittedTrace, recordTrace, outputTrace, uploadImageTrace, compileShaderTrace,
    resourcesTrace, pipelinesTrace, projectTrace, filterTrace, generateMipmapLevelsTrace,
    convertTrace, pushConstants, pushConstant, h1, h2, h3, h4, h5, hf]

theorem pushConstants_sampleTrace (env : Env) (pin ps pd : String) (ver q S M sc fmt : Nat) :
    pushConstants (sampleTrace env pin ps pd ver q S M sc fmt) =
      (List.range M).map (fun (m : Nat) =>
        (⟨float (float (m : ℚ) / float (M : ℚ)), sc, m, S >>> m⟩ : PushConstant)) ++
        [⟨0, sc, 0, S⟩] := by
  rw [sampleTrace, pushConstants_append, pushConstants_append, pushConstants_submittedTrace,
    pushConstants_downloadTrace, pushConstants_downloadTrace]
  simp

/-! ### the images created and the conversion blits -/

theorem imagesCreated_submittedTrace (env : Env) (pin : String) (S M sc fmt : Nat) :
    imagesCreated (submittedTrace env pin S M sc fmt) =
      [(1, panoramaInfo env), (2, cubeInfo S (sample.maxMipLevels S)), (3, cubeInfo S M),
       (4, cubeInfo S 1)] ++
      (if fmt != VK_FORMAT_R32G32B32A32_SFLOAT then
        [(5, downloadedInfo S M fmt), (6, downloadedInfo S 1 fmt)] else []) := by
  have h1 := filterMap_faceViewsTrace imageCreated (fun _ _ _ _ => rfl)
  have h2 := filterMap_specularViewsTrace imageCreated (fun _ _ _ _ => rfl)
  have h3 := filterMap_mipmapLoopTrace imageCreated (fun _ _ _ _ _ => rfl)
    (fun _ _ _ _ _ => rfl)
  have h4 := filterMap_specularLoopTrace imageCreated (fun _ _ _ _ _ _ => rfl)
    (fun _ _ _ _ _ => rfl) (fun _ _ _ => rfl) (fun _ _ _ _ _ _ => rfl) (fun _ _ _ => rfl)
    (fun _ => rfl)
  have h5 := filterMap_blitLoopTrace imageCreated (fun _ _ _ _ _ _ => rfl)
  by_cases hf : fmt = VK_FORMAT_R32G32B32A32_SFLOAT <;>
  simp [submittedTrace, recordTrace, outputTrace, uploadImageTrace, compileShaderTrace,
    resourcesTrace, pipelinesTrace, projectTrace, filterTrace, generateMipmapLevelsTrace,
    convertTrace, imagesCreated, imageCreated, h1, h2, h3, h4, h5, hf, panoramaInfo, cubeInfo,
    downloadedInfo]

theorem conversionBlits_blitLoopTrace (cmd src dst layers : Nat) (hne : src ≠ dst)
    (n level side : Nat) :
    conversionBlits (blitLoopTrace cmd src dst layers n level side) =
      (List.range n).map (fun k =>
        (src, dst, (⟨level + k, layers, int32_t (side >>> k), int32_t (side >>> k), 1,
          level + k, layers, int32_t (side >>> k), int32_t (side >>> k), 1⟩ : VkImageBlit))) := by
  induction n generalizing level side with
  | zero => rfl
  | succ n ih =>
    rw [List.range_succ_eq_map]
    simp only [conversionBlits] at ih
    simp only [blitLoopTrace, conversionBlits, List.filterMap_cons, conversionBlit, if_neg hne,
      ih, List.map_cons, List.map_map, Nat.shiftRight_zero, Nat.add_zero]
    congr 1
    apply List.map_congr_left
    intro k _
    simp [Nat.add_assoc, Nat.add_comm 1 k, ← Nat.shiftRight_add side 1 k]

theorem conversionBlits_submittedTrace (env : Env) (pin : String) (S M sc fmt : Nat) :
    conversionBlits (submittedTrace env pin S M sc fmt) =
      if fmt != VK_FORMAT_R32G32B32A32_SFLOAT then cubeBlits 3 5 S M ++ cubeBlits 4 6 S 1
      else [] := by
  have h1 := filterMap_faceViewsTrace conversionBlit (fun _ _ _ _ => rfl)
  have h2 := filterMap_specularViewsTrace conversionBlit (fun _ _ _ _ => rfl)
  have h3 := filterMap_mipmapLoopTrace conversionBlit (fun _ _ _ _ _ => rfl)
    (fun _ _ _ _ _ => by simp [conversionBlit])
  have h4 := filterMap_specularLoopTrace conversionBlit (fun _ _ _ _ _ _ => rfl)
    (fun _ _ _ _ _ => rfl) (fun _ _ _ => rfl) (fun _ _ _ _ _ _ => rfl) (fun _ _ _ => rfl)
    (fun _ => rfl)
  have h5 := conversionBlits_blitLoopTrace (6 * M + 31) 3 5 6 (by decide)
  have h6 := conversionBlits_blitLoopTrace (6 * M + 31) 4 6 6 (by decide)
  simp only [conversionBlits] at h5 h6
  by_cases hf : fmt = VK_FORMAT_R32G32B32A32_SFLOAT <;>
  simp [submittedTrace, recordTrace, outputTrace, uploadImageTrace, compileShaderTrace,
    resourcesTrace, pipelinesTrace, projectTrace, filterTrace, generateMipmapLevelsTrace,
    convertTrace, conversionBlits, conversionBlit, h1, h2, h3, h4, h5, h6, hf, cubeInfo, cubeBlits]

/-! ## Lemmas: the environment `okEnv`, the images created, the mip chain -/

theorem okEnv_deviceOk : okEnv.DeviceOk := fun _ => rfl

theorem okEnv_inputsOk : okEnv.InputsOk := ⟨fun _ => rfl, fun _ => rfl, fun _ => rfl⟩

theorem okEnv_ktxOk : okEnv.KtxOk := ⟨fun _ => rfl, fun _ => rfl, fun _ => rfl⟩

theorem imagesCreated_append (a b : List Event) :
    imagesCreated (a ++ b) = imagesCreated a ++ imagesCreated b := by
  simp [imagesCreated]

theorem imagesCreated_downloadTrace (env : Env) (img : Handle) (info : VkImageCreateInfo)
    (path : String) (ver : Version) (q : Nat) (layout : VkImageLayout) (h : Nat) :
    imagesCreated (downloadTrace env img info path ver q layout h) = [] := by
  have h1 := filterMap_allocLevelsTrace imageCreated (fun _ _ => rfl)
  have h2 := filterMap_writeLevelsTrace imageCreated (fun _ _ => rfl) (fun _ _ _ => rfl)
    (fun _ => rfl)
  have h3 := filterMap_copyLevelsTrace imageCreated (fun _ _ _ _ => rfl)
  by_cases hq : q > 0 <;>
  simp [downloadTrace, downloadWrittenTrace, downloadCopyTrace, imagesCreated, imageCreated, h1,
    h2, h3, hq]

theorem imagesCreated_sampleTrace (env : Env) (pin ps pd : String) (ver q S M sc fmt : Nat) :
    imagesCreated (sampleTrace env pin ps pd ver q S M sc fmt) =
      [(1, panoramaInfo env), (2, cubeInfo S (sample.maxMipLevels S)), (3, cubeInfo S M),
       (4, cubeInfo S 1)] ++
      (if fmt != VK_FORMAT_R32G32B32A32_SFLOAT then
        [(5, downloadedInfo S M fmt), (6, downloadedInfo S 1 fmt)] else []) := by
  rw [sampleTrace, imagesCreated_append, imagesCreated_append, imagesCreated_submittedTrace,
    imagesCreated_downloadTrace, imagesCreated_downloadTrace]
  simp

theorem infix_append_left {α : Type} {l b : List α} (a : List α) (h : l <:+: b) :
    l <:+: a ++ b := by
  obtain ⟨s, t, rfl⟩ := h
  exact ⟨a ++ s, t, by simp⟩

theorem infix_append_right {α : Type} {l a : List α} (b : List α) (h : l <:+: a) :
    l <:+: a ++ b := by
  obtain ⟨s, t, rfl⟩ := h
  exact ⟨s, t ++ b, by simp⟩

theorem generateMipmapLevelsTrace_infix (env : Env) (pin ps pd : String)
    (ver q S M sc fmt : Nat) :
    generateMipmapLevelsTrace (6 * M + 31) 2 (sample.maxMipLevels S) S <:+:
      sampleTrace env pin ps pd ver q S M sc fmt := by
  unfold sampleTrace submittedTrace recordTrace filterTrace
  apply infix_append_right
  apply infix_append_right
  apply List.infix_cons
  iterate 8 apply infix_append_left
  exact (List.prefix_append _ _).isInfix

/-! ## Lemmas: failing runs -/

theorem uploadImage_not_found (env : Env) (path : String) (w : World)
    (h : env.loadHdr (w.trace ++ [Event.loadHdr path]) ≠ Result.Success) :
    uploadImage env path w =
      ((Result.InputPanoramaFileNotFound, VK_NULL_HANDLE),
        ⟨w.trace ++ [Event.loadHdr path], w.nextHandle, w.images⟩) := by
  simp [uploadImage, Dev.bind_run, Dev.pure_run, loadHdr, h]

theorem toInt_ne_success (r : Result) (hr : r ≠ Result.Success) :
    (r.toInt != VK_SUCCESS) = true := by
  cases r <;> first | exact absurd rfl hr | rfl

theorem writeFaces_failed {env : Env} (h : env.DeviceOk) (r : Result) (hr : r ≠ Result.Success)
    (hw : ∀ t, env.writeFace t = r) (faces : List Handle) (size level n face : Nat)
    (w : World) :
    downloadCubemap.writeFaces env faces size level (n + 1) face w =
      (some r,
        ⟨w.trace ++ [Event.readBufferData (faces.getD face VK_NULL_HANDLE) size,
            Event.writeFace size face level], w.nextHandle, w.images⟩) := by
  simp [downloadCubemap.writeFaces, Dev.bind_run, Dev.pure_run, vkCall_ok h, writeFace, hw _, hr]

theorem writeLevels_failed {env : Env} (h : env.DeviceOk) (r : Result) (hr : r ≠ Result.Success)
    (hw : ∀ t, env.writeFace t = r) (sb : List (List Handle)) (b n level side : Nat)
    (w : World) :
    downloadCubemap.writeLevels env sb b (n + 1) level side w =
      (some r,
        ⟨w.trace ++ [Event.readBufferData ((sb.getD level []).getD 0 VK_NULL_HANDLE)
              (size_t (side * side * b)),
            Event.writeFace (size_t (side * side * b)) 0 level], w.nextHandle, w.images⟩) := by
  simp [downloadCubemap.writeLevels, Dev.bind_run, Dev.pure_run, writeFaces_failed h r hr hw]

theorem downloadCubemap_write_failed {env : Env} (h : env.DeviceOk) (r : Result)
    (hr : r ≠ Result.Success) (hw : ∀ t, env.writeFace t = r)
    (k : Handle) (path : String) (ver : Version) (q : Nat) (layout : VkImageLayout)
    (info : VkImageCreateInfo) (w : World) (hinfo : w.images[k]? = some info)
    (hL : 0 < info.mipLevels) :
    (downloadCubemap env (k + 1) path ver q layout w).1 = r := by
  obtain ⟨L, hL⟩ : ∃ L, info.mipLevels = L + 1 := ⟨info.mipLevels - 1, by omega⟩
  simp [downloadCubemap, Dev.bind_run, Dev.pure_run, emit_run, getCreateInfo_run,
    VK_NULL_HANDLE, hinfo, allocLevels_ok h, vkCreate_ok h, vkCall_ok h, copyLevels_run, hL,
    writeLevels_failed h r hr hw]

/-- When the device succeeds and the container writer rejects every face with `r`,
the specular `downloadCubemap` returns `r` and `sample` returns `VulkanError`. -/
theorem sample_write_failed {env : Env} (h : env.DeviceOk) (hin : env.InputsOk) (r : Result)
    (hr : r ≠ Result.Success) (hw : ∀ t, env.writeFace t = r) (pin ps pd : String)
    (ver q S M sc fmt : Nat) (hacc : ¬ S >>> M < 1) (hM : 0 < M) :
    (downloadCubemap env (downloadedSpecular fmt) ps (sample.ktxImageVersion ver) q
        (downloadedLayout fmt)
        ⟨submittedTrace env pin S M sc fmt, M + (6 * M + 40), sampleImages env S M fmt⟩).1 = r ∧
      (sample env pin ps pd ver q S M sc fmt World.fresh).1 = Result.VulkanError := by
  have hd : (downloadCubemap env (downloadedSpecular fmt) ps (sample.ktxImageVersion ver) q
      (downloadedLayout fmt)
      ⟨submittedTrace env pin S M sc fmt, M + (6 * M + 40), sampleImages env S M fmt⟩).1 = r := by
    by_cases hf : fmt = VK_FORMAT_R32G32B32A32_SFLOAT
    · have := downloadCubemap_write_failed h r hr hw 2 ps (sample.ktxImageVersion ver) q
        (downloadedLayout fmt) (cubeInfo S M)
        ⟨submittedTrace env pin S M sc fmt, M + (6 * M + 40), sampleImages env S M fmt⟩
        (by simp [sampleImages]) hM
      simpa [downloadedSpecular, hf] using this
    · have hb : (fmt != VK_FORMAT_R32G32B32A32_SFLOAT) = true := by simpa using hf
      have := downloadCubemap_write_failed h r hr hw 4 ps (sample.ktxImageVersion ver) q
        (downloadedLayout fmt) (downloadedInfo S M fmt)
        ⟨submittedTrace env pin S M sc fmt, M + (6 * M + 40), sampleImages env S M fmt⟩
        (by simp [sampleImages, hb]) hM
      simpa [downloadedSpecular, hb] using this
  refine ⟨hd, ?_⟩
  rw [sample_submitted h hin pin ps pd ver q S M sc fmt hacc]
  simp only [sample.serialise, Dev.bind_run, Dev.pure_run, hd, toInt_ne_success r hr]
  rfl

/-! ## Lemmas: the calls of `downloadCubemap`, `generateMipmapLevels` and `convertVkFormat` -/

theorem callsFrom_eq {α : Type} {x : Dev α} {w : World} {T : List Event}
    (h : (x w).2.trace = w.trace ++ T) : callsFrom x w = T := by
  simp [callsFrom, h]

theorem length_flatMap_range6 {β : Type} (g : Nat → Nat → β) (L : Nat) :
    ((List.range L).flatMap (fun l => (List.range 6).map (g l))).length = 6 * L := by
  induction L with
  | zero => rfl
  | succ L ih => rw [List.range_succ, List.flatMap_append]; simp [ih]; omega

theorem getElem?_flatMap_range6 {β : Type} (g : Nat → Nat → β) (L l f : Nat) (hl : l < L)
    (hf : f < 6) :
    ((List.range L).flatMap (fun l => (List.range 6).map (g l)))[6 * l + f]? = some (g l f) := by
  induction L with
  | zero => omega
  | succ L ih =>
    rw [List.range_succ, List.flatMap_append]
    by_cases h : l < L
    · rw [List.getElem?_append_left (by rw [length_flatMap_range6]; omega)]
      exact ih h
    · have : l = L := by omega
      subst this
      rw [List.getElem?_append_right (by rw [length_flatMap_range6]; omega), length_flatMap_range6]
      simp [List.getElem?_map, List.getElem?_range hf]

theorem facesWritten_eq (t : List Event) : facesWritten t = (ktxCalls t).filterMap faceWritten := by
  simp only [facesWritten, ktxCalls, List.filterMap_filterMap]
  congr 1
  funext e
  cases e <;> rfl

theorem containerVersions_eq (t : List Event) :
    containerVersions t = (ktxCalls t).filterMap containerVersion := by
  simp only [containerVersions, ktxCalls, List.filterMap_filterMap]
  congr 1
  funext e
  cases e <;> rfl

theorem facesWritten_faceWrites (S b L : Nat) :
    (faceWrites S b L).filterMap faceWritten =
      (List.range L).flatMap (fun l => (List.range 6).map (fun f =>
        (size_t ((S >>> l) * (S >>> l) * b), f, l))) := by
  simp only [faceWrites, List.filterMap_flatMap, List.filterMap_map, faceWritten,
    Function.comp_def]
  congr 1

theorem containerVersions_faceWrites (S b L : Nat) :
    (faceWrites S b L).filterMap containerVersion = [] := by
  simp [faceWrites, List.filterMap_flatMap, List.filterMap_map, containerVersion, Function.comp_def]

/-- The calls of `downloadCubemap.finish`: `save` alone, `compress` alone (when it
fails) or `compress` and `save`. -/
theorem finish_calls (env : Env) (path : String) (q : Nat) (w : World) :
    ∃ rest, (downloadCubemap.finish env path q w).2 = ⟨w.trace ++ rest, w.nextHandle, w.images⟩ ∧
      ∀ e ∈ rest, e = Event.compress q ∨ e = Event.save path := by
  by_cases hq : q > 0
  · by_cases hc : env.compress (w.trace ++ [Event.compress q]) = Result.Success
    · exact ⟨[Event.compress q, Event.save path], by rw [finish_compressed env path q hq w hc],
        by simp⟩
    · exact ⟨[Event.compress q], by rw [finish_compress_failed env path q hq w hc], by simp⟩
  · have h0 : q = 0 := by omega
    subst h0
    exact ⟨[Event.save path], by rw [finish_uncompressed], by simp⟩

/-- The calls of a `downloadCubemap` of a known image, when the device succeeds and
every face is written: those up to the last `writeFace`, then those of
`downloadCubemap.finish`. -/
theorem downloadCubemap_calls {env : Env} (h : env.DeviceOk)
    (hw : ∀ t, env.writeFace t = Result.Success)
    (k : Handle) (path : String) (ver : Version) (q : Nat) (layout : VkImageLayout)
    (info : VkImageCreateInfo) (w : World) (hinfo : w.images[k]? = some info) :
    ∃ rest, callsFrom (downloadCubemap env (k + 1) path ver q layout) w =
        downloadWrittenTrace env (k + 1) info ver layout w.nextHandle ++ rest ∧
      ∀ e ∈ rest, e = Event.compress q ∨ e = Event.save path := by
  obtain ⟨rest, h1, h2⟩ := finish_calls env path q
    ⟨w.trace ++ downloadWrittenTrace env (k + 1) info ver layout w.nextHandle,
      6 * info.mipLevels + w.nextHandle + 1, w.images⟩
  refine ⟨rest, ?_, h2⟩
  apply callsFrom_eq
  rw [downloadCubemap_written h hw k path ver q layout info w hinfo, h1]
  simp

theorem iterate_halve (S level : Nat) : (fun s => s >>> 1)^[level] S = S >>> level := by
  induction level generalizing S with
  | zero => rfl
  | succ n ih => rw [Function.iterate_succ_apply, ih, ← Nat.shiftRight_add, Nat.add_comm]

theorem facesWritten_downloadCubemap {env : Env} (h : env.DeviceOk)
    (hw : ∀ t, env.writeFace t = Result.Success)
    (k : Handle) (path : String) (ver : Version) (q : Nat) (layout : VkImageLayout)
    (info : VkImageCreateInfo) (w : World) (hinfo : w.images[k]? = some info) :
    facesWritten (callsFrom (downloadCubemap env (k + 1) path ver q layout) w) =
      (List.range info.mipLevels).flatMap (fun l => (List.range 6).map (fun f =>
        (size_t ((info.width >>> l) * (info.width >>> l) *
          uint32_t (env.FormatElementSize info.format)), f, l))) := by
  obtain ⟨rest, h1, h2⟩ := downloadCubemap_calls h hw k path ver q layout info w hinfo
  have hrest : (ktxCalls rest).filterMap faceWritten = [] := by
    rw [← facesWritten_eq]
    simp only [facesWritten, List.filterMap_eq_nil_iff]
    intro e he
    rcases h2 e he with rfl | rfl <;> rfl
  rw [h1, facesWritten_eq, ktxCalls_append, ktxCalls_downloadWrittenTrace, List.filterMap_append,
    hrest, List.filterMap_cons, List.append_nil]
  exact facesWritten_faceWrites _ _ _

theorem containerVersions_containerCalls (v : Version) (S : Nat) (f : VkFormat) (b L q : Nat)
    (path : String) :
    (containerCalls v S f b L q path).filterMap containerVersion = [v] := by
  by_cases hq : q > 0 <;>
  simp [containerCalls, containerVersions_faceWrites, containerVersion, hq]

theorem int32_t_of_lt (n : Nat) (h : n < 2147483648) : int32_t n = (n : Int) := by
  unfold int32_t
  rw [Nat.mod_eq_of_lt (by omega), if_pos h]

theorem shiftRight_lt_of_lt (S k b : Nat) (h : S < b) : S >>> k < b := by
  rw [Nat.shiftRight_eq_div_pow]
  exact Nat.lt_of_le_of_lt (Nat.div_le_self _ _) h

theorem blitsRecorded_blitLoopTrace (cmd src dst layers n level side : Nat) :
    blitsRecorded (blitLoopTrace cmd src dst layers n level side) =
      (List.range n).map (fun k =>
        (src, dst, (⟨level + k, layers, int32_t (side >>> k), int32_t (side >>> k), 1,
          level + k, layers, int32_t (side >>> k), int32_t (side >>> k), 1⟩ : VkImageBlit))) := by
  induction n generalizing level side with
  | zero => rfl
  | succ n ih =>
    rw [List.range_succ_eq_map]
    simp only [blitsRecorded] at ih
    simp only [blitLoopTrace, blitsRecorded, List.filterMap_cons, blitRecorded, ih,
      List.map_cons, List.map_map, Nat.shiftRight_zero, Nat.add_zero]
    congr 1
    apply List.map_congr_left
    intro k _
    simp [Nat.add_assoc, Nat.add_comm 1 k, ← Nat.shiftRight_add side 1 k]

theorem convertVkFormat_calls {env : Env} (h : env.DeviceOk) (cmd k : Handle) (fmt : VkFormat)
    (layout : VkImageLayout) (info : VkImageCreateInfo) (w : World)
    (hinfo : w.images[k]? = some info) :
    callsFrom (convertVkFormat env cmd (k + 1) VK_NULL_HANDLE fmt layout) w =
      convertTrace cmd (k + 1) (w.images.length + 1) info fmt layout := by
  apply callsFrom_eq
  rw [convertVkFormat_ok h cmd k fmt layout info w hinfo]

theorem blitsRecorded_convertTrace (cmd src dst : Handle) (info : VkImageCreateInfo)
    (fmt : VkFormat) (layout : VkImageLayout) :
    blitsRecorded (convertTrace cmd src dst info fmt layout) =
      (List.range info.mipLevels).map (fun l =>
        (src, dst, (⟨l, info.arrayLayers, int32_t (info.width >>> l), int32_t (info.width >>> l),
          1, l, info.arrayLayers, int32_t (info.width >>> l), int32_t (info.width >>> l), 1⟩ :
            VkImageBlit))) := by
  have h := blitsRecorded_blitLoopTrace cmd src dst info.arrayLayers info.mipLevels 0 info.width
  simp only [blitsRecorded] at h
  simp [convertTrace, blitsRecorded, blitRecorded, h]

theorem imagesCreated_convertTrace (cmd src dst : Handle) (info : VkImageCreateInfo)
    (fmt : VkFormat) (layout : VkImageLayout) :
    imagesCreated (convertTrace cmd src dst info fmt layout) =
      [(dst, ⟨fmt, info.width, info.width, info.mipLevels, info.arrayLayers, false⟩)] := by
  have h := filterMap_blitLoopTrace imageCreated (fun _ _ _ _ _ _ => rfl) cmd src dst
    info.arrayLayers info.mipLevels 0 info.width
  simp [convertTrace, imagesCreated, imageCreated, h]

/-! ## Lemmas: the stages of a run in which nothing fails -/

theorem specularLoopTrace_eq (cmd rp img layout : Handle) (views : List (List Handle))
    (M sc n m side h : Nat) :
    specularLoopTrace cmd rp img layout views M sc n m side h =
      (List.range n).flatMap (fun k =>
        specularLevelCalls cmd rp img layout (h + k) (views.getD (m + k) []) M sc (m + k)
          (side >>> k)) := by
  induction n generalizing m side h with
  | zero => rfl
  | succ n ih =>
    rw [List.range_succ_eq_map]
    simp only [specularLoopTrace, ih, List.flatMap_cons, List.flatMap_map, specularLevelCalls,
      Nat.shiftRight_zero, Nat.add_zero, List.cons_append, List.nil_append]
    congr 6
    apply List.flatMap_congr
    intro k _
    simp [Nat.add_assoc, Nat.add_comm 1 k, ← Nat.shiftRight_add side 1 k]

theorem handleRows_getD (n h m : Nat) (hm : m < n) :
    (handleRows n h).getD m [] = List.range' (h + 6 * m) 6 := by
  induction n generalizing h m with
  | zero => omega
  | succ n ih =>
    cases m with
    | zero => simp [handleRows]
    | succ m =>
      simp only [handleRows, List.getD_cons_succ]
      rw [ih (h + 6) m (by omega)]
      congr 1
      omega

/-- The calls of a run in which nothing fails, cut at the specular filter
loop and after the diffuse pass. -/
theorem sampleTrace_stages (env : Env) (pin ps pd : String) (ver q S M sc fmt : Nat) :
    sampleTrace env pin ps pd ver q S M sc fmt =
      beforeSpecularTrace env pin S M ++
      specularLoopTrace (6 * M + 31) (6 * M + 18) 3 (6 * M + 25) (handleRows M 11) M sc M 0 S
        (6 * M + 39) ++
      (diffuseTrace S M sc ++ afterDiffuseTrace env ps pd ver q S M fmt) := by
  simp [sampleTrace, submittedTrace, recordTrace, filterTrace, beforeSpecularTrace, diffuseTrace,
    afterDiffuseTrace, List.append_assoc]

theorem drawsRecorded_beforeSpecularTrace (env : Env) (pin : String) (S M : Nat) :
    drawsRecorded (beforeSpecularTrace env pin S M) = [(6 * M + 31, 3, 1)] := by
  have h1 := filterMap_faceViewsTrace drawRecorded (fun _ _ _ _ => rfl)
  have h2 := filterMap_specularViewsTrace drawRecorded (fun _ _ _ _ => rfl)
  have h3 := filterMap_mipmapLoopTrace drawRecorded (fun _ _ _ _ _ => rfl)
    (fun _ _ _ _ _ => rfl)
  simp [beforeSpecularTrace, uploadImageTrace, compileShaderTrace, resourcesTrace,
    pipelinesTrace, projectTrace, generateMipmapLevelsTrace, drawsRecorded, drawRecorded, h1, h2,
    h3]

theorem drawsRecorded_downloadTrace (env : Env) (img : Handle) (info : VkImageCreateInfo)
    (path : String) (ver : Version) (q : Nat) (layout : VkImageLayout) (h : Nat) :
    drawsRecorded (downloadTrace env img info path ver q layout h) = [] := by
  have h1 := filterMap_allocLevelsTrace drawRecorded (fun _ _ => rfl)
  have h2 := filterMap_writeLevelsTrace drawRecorded (fun _ _ => rfl) (fun _ _ _ => rfl)
    (fun _ => rfl)
  have h3 := filterMap_copyLevelsTrace drawRecorded (fun _ _ _ _ => rfl)
  by_cases hq : q > 0 <;>
  simp [downloadTrace, downloadWrittenTrace, downloadCopyTrace, drawsRecorded, drawRecorded, h1,
    h2, h3, hq]

theorem drawsRecorded_afterDiffuseTrace (env : Env) (ps pd : String) (ver q S M fmt : Nat) :
    drawsRecorded (afterDiffuseTrace env ps pd ver q S M fmt) = [] := by
  have h5 := filterMap_blitLoopTrace drawRecorded (fun _ _ _ _ _ _ => rfl)
  have h6 := drawsRecorded_downloadTrace
  simp only [drawsRecorded] at h6
  by_cases hf : fmt = VK_FORMAT_R32G32B32A32_SFLOAT <;>
  simp [afterDiffuseTrace, outputTrace, convertTrace, drawsRecorded, drawRecorded, h5, h6, hf]

theorem mem_faceViewsTrace (image mip n j h k : Nat) (hk : k < n) :
    Event.createImageView (h + k) image (some ⟨mip, 1, j + k, 1⟩) false ∈
      faceViewsTrace image mip n j h := by
  induction n generalizing j h k with
  | zero => omega
  | succ n ih =>
    cases k with
    | zero => simp [faceViewsTrace]
    | succ k =>
      have := ih (j + 1) (h + 1) k (by omega)
      simp only [faceViewsTrace, List.mem_cons]
      right
      have e1 : h + (k + 1) = h + 1 + k := by omega
      have e2 : j + (k + 1) = j + 1 + k := by omega
      rw [e1, e2]
      exact this

theorem mem_specularViewsTrace (image n i h m j : Nat) (hm : m < n) (hj : j < 6) :
    Event.createImageView (h + 6 * m + j) image (some ⟨i + m, 1, j, 1⟩) false ∈
      specularViewsTrace image n i h := by
  induction n generalizing i h m with
  | zero => omega
  | succ n ih =>
    simp only [specularViewsTrace, List.mem_append]
    cases m with
    | zero =>
      left
      have := mem_faceViewsTrace image i 6 0 h j hj
      simpa using this
    | succ m =>
      right
      have := ih (i + 1) (h + 6) m (by omega)
      have e1 : h + 6 * (m + 1) + j = h + 6 + 6 * m + j := by omega
      have e2 : i + (m + 1) = i + 1 + m := by omega
      rw [e1, e2]
      exact this

theorem one_le_shiftRight_of_accepted (S M m : Nat) (hacc : ¬ S >>> M < 1) (hm : m ≤ M) :
    1 ≤ S >>> m := by
  rw [shiftRight_lt_one_iff] at hacc
  have h2 : 2 ^ m ≤ 2 ^ M := Nat.pow_le_pow_right (by decide) hm
  have : ¬ S >>> m < 1 := by
    rw [shiftRight_lt_one_iff]
    omega
  omega

theorem drawsRecorded_specularLoopTrace (cmd rp img layout : Handle)
    (views : List (List Handle)) (M sc n m side h : Nat) :
    drawsRecorded (specularLoopTrace cmd rp img layout views M sc n m side h) =
      List.replicate n (cmd, 3, 1) := by
  induction n generalizing m side h with
  | zero => rfl
  | succ n ih =>
    simp only [drawsRecorded] at ih
    simp [specularLoopTrace, drawsRecorded, drawRecorded, ih, List.replicate_succ]

theorem drawsRecorded_sampleTrace (env : Env) (pin ps pd : String) (ver q S M sc fmt : Nat) :
    drawsRecorded (sampleTrace env pin ps pd ver q S M sc fmt) =
      (6 * M + 31, 3, 1) :: (List.replicate M (6 * M + 31, 3, 1) ++ [(6 * M + 31, 3, 1)]) := by
  have h1 := drawsRecorded_beforeSpecularTrace env pin S M
  have h2 := drawsRecorded_specularLoopTrace (6 * M + 31) (6 * M + 18) 3 (6 * M + 25)
    (handleRows M 11) M sc M 0 S (6 * M + 39)
  have h3 := drawsRecorded_afterDiffuseTrace env ps pd ver q S M fmt
  simp only [drawsRecorded] at h1 h2 h3
  rw [sampleTrace_stages]
  simp [drawsRecorded, h1, h2, h3, diffuseTrace, drawRecorded]

theorem infix_of_last_head {α : Type} {pre post : List α} {a b : α}
    (h1 : pre.getLast? = some a) (h2 : post.head? = some b) : [a, b] <:+: pre ++ post := by
  obtain ⟨s, rfl⟩ := List.getLast?_eq_some_iff.1 h1
  obtain ⟨t, rfl⟩ := List.head?_eq_some_iff.1 h2
  exact ⟨s, t, by simp⟩

theorem beforeSpecularTrace_getLast? (env : Env) (pin : String) (S M : Nat) :
    (beforeSpecularTrace env pin S M).getLast? =
      some (Event.cmdBindPipeline (6 * M + 31) (6 * M + 26)) := by
  rw [beforeSpecularTrace, ← List.singleton_append]
  simp only [List.getLast?_append]
  rfl

/-! ## Lemmas: the replay of the recorded commands -/

theorem replay_nil (s L : Nat) (r : Replay) : replay s L r [] = r := rfl

theorem replay_cons (s L : Nat) (r : Replay) (e : Event) (t : List Event) :
    replay s L r (e :: t) = replay s L (Replay.step s L r e) t := rfl

theorem replay_append (s L : Nat) (r : Replay) (a b : List Event) :
    replay s L r (a ++ b) = replay s L (replay s L r a) b := by
  simp [replay, List.foldl_append]

theorem rangeIs_iff (t : LayoutTable) (image : Handle) (range : VkImageSubresourceRange)
    (layout : VkImageLayout) :
    t.rangeIs image range layout = true ↔
      ∀ l, range.baseMipLevel ≤ l → l < range.baseMipLevel + range.levelCount →
        t image l = layout := by
  simp only [LayoutTable.rangeIs, List.all_eq_true, List.mem_range, beq_iff_eq]
  constructor
  · intro h l h1 h2
    have := h (l - range.baseMipLevel) (by omega)
    rwa [Nat.add_sub_cancel' h1] at this
  · intro h k hk
    exact h _ (by omega) (by omega)

theorem replay_faceViewsTrace (s L : Nat) (r : Replay) (image mip n j h : Nat) :
    replay s L r (faceViewsTrace image mip n j h) = r := by
  induction n generalizing j h with
  | zero => rfl
  | succ n ih => simp [faceViewsTrace, replay_cons, Replay.step, ih]

theorem replay_specularViewsTrace (s L : Nat) (r : Replay) (image n i h : Nat) :
    replay s L r (specularViewsTrace image n i h) = r := by
  induction n generalizing i h with
  | zero => rfl
  | succ n ih => simp [specularViewsTrace, replay_append, replay_faceViewsTrace, ih]

theorem replay_allocFacesTrace (s L : Nat) (r : Replay) (size n h : Nat) :
    replay s L r (allocFacesTrace size n h) = r := by
  induction n generalizing h with
  | zero => rfl
  | succ n ih => simp [allocFacesTrace, replay_cons, Replay.step, ih]

theorem replay_allocLevelsTrace (s L : Nat) (r : Replay) (b n side h : Nat) :
    replay s L r (allocLevelsTrace b n side h) = r := by
  induction n generalizing side h with
  | zero => rfl
  | succ n ih => simp [allocLevelsTrace, replay_append, replay_allocFacesTrace, ih]

theorem replay_copyFacesTrace (s L : Nat) (r : Replay) (cmd img : Handle) (faces : List Handle)
    (level side n face : Nat) :
    replay s L r (copyFacesTrace cmd img faces level side n face) = r := by
  induction n generalizing face with
  | zero => rfl
  | succ n ih => simp [copyFacesTrace, replay_cons, Replay.step, ih]

theorem replay_copyLevelsTrace (s L : Nat) (r : Replay) (cmd img : Handle)
    (sb : List (List Handle)) (n level side : Nat) :
    replay s L r (copyLevelsTrace cmd img sb n level side) = r := by
  induction n generalizing level side with
  | zero => rfl
  | succ n ih => simp [copyLevelsTrace, replay_append, replay_copyFacesTrace, ih]

theorem replay_writeFacesTrace (s L : Nat) (r : Replay) (faces : List Handle)
    (size level n face : Nat) :
    replay s L r (writeFacesTrace faces size level n face) = r := by
  induction n generalizing face with
  | zero => rfl
  | succ n ih => simp [writeFacesTrace, replay_cons, Replay.step, ih]

theorem replay_writeLevelsTrace (s L : Nat) (r : Replay) (sb : List (List Handle))
    (b n level side : Nat) :
    replay s L r (writeLevelsTrace sb b n level side) = r := by
  induction n generalizing level side with
  | zero => rfl
  | succ n ih => simp [writeLevelsTrace, replay_append, replay_writeFacesTrace, ih]

theorem transition_apply (t : LayoutTable) (image : Handle) (range : VkImageSubresourceRange)
    (newLayout : VkImageLayout) (i l : Nat) :
    t.transition image range newLayout i l =
      if i = image ∧ range.baseMipLevel ≤ l ∧ l < range.baseMipLevel + range.levelCount then
        newLayout
      else t i l := rfl

theorem transition_empty (t : LayoutTable) (image : Handle) (b x y : Nat)
    (new : VkImageLayout) : t.transition image ⟨b, 0, x, y⟩ new = t := by
  funext a l
  simp only [transition_apply]
  split_ifs with h
  · omega
  · rfl

theorem transition_same (t : LayoutTable) (image : Handle) (range : VkImageSubresourceRange)
    (mid new : VkImageLayout) :
    (t.transition image range mid).transition image range new =
      t.transition image range new := by
  funext a l
  simp only [transition_apply]
  split_ifs <;> rfl

theorem transition_succ (t : LayoutTable) (image : Handle) (b n x y : Nat)
    (new : VkImageLayout) :
    (t.transition image ⟨b, 1, x, y⟩ new).transition image ⟨b + 1, n, x, y⟩ new =
      t.transition image ⟨b, n + 1, x, y⟩ new := by
  funext a l
  simp only [transition_apply]
  split_ifs <;> first | rfl | omega

theorem rangeIs_one (t : LayoutTable) (image : Handle) (b x y : Nat) (layout : VkImageLayout) :
    t.rangeIs image ⟨b, 1, x, y⟩ layout = (t image b == layout) := by
  simp [LayoutTable.rangeIs, List.range_succ]

theorem transition_self (t : LayoutTable) (image : Handle) (range : VkImageSubresourceRange)
    (new : VkImageLayout) (l : Nat) (h1 : range.baseMipLevel ≤ l)
    (h2 : l < range.baseMipLevel + range.levelCount) :
    t.transition image range new image l = new := by
  simp [transition_apply, h1, h2]

theorem transition_other_level (t : LayoutTable) (image : Handle)
    (range : VkImageSubresourceRange) (new : VkImageLayout) (a l : Nat)
    (h : ¬ (range.baseMipLevel ≤ l ∧ l < range.baseMipLevel + range.levelCount)) :
    t.transition image range new a l = t a l := by
  simp only [transition_apply]
  rw [if_neg]
  tauto

theorem transition_other_image (t : LayoutTable) (image : Handle)
    (range : VkImageSubresourceRange) (new : VkImageLayout) (a l : Nat) (h : a ≠ image) :
    t.transition image range new a l = t a l := by
  simp [transition_apply, h]

/-- The mip loop of `generateMipmapLevels` replays in order when the level
before the first one is a transfer source and the levels it visits are colour
attachments; it leaves the levels it visits as transfer sources. -/
theorem replay_mipmapLoopTrace (s L : Nat) (cmd img side n : Nat) :
    ∀ (i : Nat) (r : Replay),
      r.layouts img i = VkImageLayout.TRANSFER_SRC_OPTIMAL →
      (∀ l, i + 1 ≤ l → l < i + 1 + n →
        r.layouts img l = VkImageLayout.COLOR_ATTACHMENT_OPTIMAL) →
      replay s L r (mipmapLoopTrace cmd img side n (i + 1)) =
        { r with layouts := (r.layouts.transition img ⟨i + 1, n, 0, 6⟩
            VkImageLayout.TRANSFER_SRC_OPTIMAL) } := by
  induction n with
  | zero =>
    intro i r _ _
    rw [transition_empty]
    rfl
  | succ n ih =>
    intro i r hsrc hcol
    have hi : r.layouts img (i + 1) = VkImageLayout.COLOR_ATTACHMENT_OPTIMAL :=
      hcol (i + 1) (by omega) (by omega)
    have hprev : (r.layouts.transition img ⟨i + 1, 1, 0, 6⟩
        VkImageLayout.TRANSFER_DST_OPTIMAL) img i = VkImageLayout.TRANSFER_SRC_OPTIMAL := by
      rw [transition_other_level _ _ _ _ _ _ (by simp), hsrc]
    have hcur : (r.layouts.transition img ⟨i + 1, 1, 0, 6⟩
        VkImageLayout.TRANSFER_DST_OPTIMAL) img (i + 1) = VkImageLayout.TRANSFER_DST_OPTIMAL :=
      transition_self _ _ _ _ _ (by simp) (by simp)
    simp only [mipmapLoopTrace, replay_cons, Replay.step, rangeIs_one, hi, Nat.add_sub_cancel,
      hprev, hcur, transition_same, beq_self_eq_true, Bool.or_true, Bool.and_true,
      Bool.true_and]
    rw [ih (i + 1)]
    · simp only [transition_succ]
    · exact transition_self _ _ _ _ _ (by simp) (by simp)
    · intro l h1 h2
      show (r.layouts.transition img ⟨i + 1, 1, 0, 6⟩ VkImageLayout.TRANSFER_SRC_OPTIMAL) img l
        = _
      rw [transition_other_level r.layouts img ⟨i + 1, 1, 0, 6⟩ _ img l (by simp; omega)]
      exact hcol l (by omega) (by omega)

/-- The specular filter loop replays in order (its barriers start from
`UNDEFINED`); it leaves the levels it visits as colour attachments and logs
one draw per level. -/
theorem replay_specularLoopTrace (s L : Nat) (cmd rp img layout : Handle)
    (views : List (List Handle)) (M sc n : Nat) (hne : s ≠ img) :
    ∀ (m side h : Nat) (r : Replay),
      replay s L r (specularLoopTrace cmd rp img layout views M sc n m side h) =
        { r with
          layouts := (r.layouts.transition img ⟨m, n, 0, 6⟩
            VkImageLayout.COLOR_ATTACHMENT_OPTIMAL)
          draws := (r.draws ++ List.replicate n (r.bound,
            r.layouts.rangeIs s ⟨0, L, 0, 6⟩ VkImageLayout.SHADER_READ_ONLY_OPTIMAL)) } := by
  induction n with
  | zero =>
    intro m side h r
    rw [transition_empty]
    simp [specularLoopTrace, replay_nil]
  | succ n ih =>
    intro m side h r
    have hr : (r.layouts.transition img ⟨m, 1, 0, 6⟩
        VkImageLayout.COLOR_ATTACHMENT_OPTIMAL).rangeIs s ⟨0, L, 0, 6⟩
          VkImageLayout.SHADER_READ_ONLY_OPTIMAL =
        r.layouts.rangeIs s ⟨0, L, 0, 6⟩ VkImageLayout.SHADER_READ_ONLY_OPTIMAL := by
      simp only [LayoutTable.rangeIs]
      congr 1
      funext k
      rw [transition_other_image _ _ _ _ _ _ hne]
    simp only [specularLoopTrace, replay_cons, Replay.step, beq_self_eq_true, Bool.true_or,
      Bool.and_true, ih, transition_succ, hr, List.append_assoc, List.singleton_append,
      List.replicate_succ]

/-- The blit loop of `convertVkFormat` replays in order when the source levels
are transfer sources and the destination levels transfer destinations; it
changes nothing. -/
theorem replay_blitLoopTrace (s L : Nat) (cmd src dst layers n : Nat) :
    ∀ (level side : Nat) (r : Replay),
      (∀ l, level ≤ l → l < level + n →
        r.layouts src l = VkImageLayout.TRANSFER_SRC_OPTIMAL ∧
          r.layouts dst l = VkImageLayout.TRANSFER_DST_OPTIMAL) →
      replay s L r (blitLoopTrace cmd src dst layers n level side) = r := by
  induction n with
  | zero => intro level side r _; rfl
  | succ n ih =>
    intro level side r h
    have h0 := h level (by omega) (by omega)
    simp only [blitLoopTrace, replay_cons, Replay.step, h0.1, h0.2, beq_self_eq_true,
      Bool.and_true]
    exact ih (level + 1) (side >>> 1) r (fun l h1 h2 => h l (by omega) (by omega))

theorem rangeIs_transition_other (t : LayoutTable) (image s : Handle)
    (range r : VkImageSubresourceRange) (new layout : VkImageLayout) (h : s ≠ image) :
    (t.transition image range new).rangeIs s r layout = t.rangeIs s r layout := by
  simp only [LayoutTable.rangeIs]
  congr 1
  funext k
  rw [transition_other_image _ _ _ _ _ _ h]

theorem rangeIs_transition_self (t : LayoutTable) (image : Handle)
    (range : VkImageSubresourceRange) (new : VkImageLayout) :
    (t.transition image range new).rangeIs image range new = true := by
  rw [rangeIs_iff]
  intro l h1 h2
  exact transition_self _ _ _ _ _ h1 h2

/-- `generateMipmapLevels` replays in order on an image whose `N >= 1` levels
are colour attachments, and leaves them shader-readable. -/
theorem replay_generateMipmapLevelsTrace (s L : Nat) (cmd img N side : Nat) (r : Replay)
    (hN : 1 ≤ N)
    (hcol : ∀ l, l < N → r.layouts img l = VkImageLayout.COLOR_ATTACHMENT_OPTIMAL) :
    replay s L r (generateMipmapLevelsTrace cmd img N side) =
      { r with layouts := (r.layouts.transition img ⟨0, N, 0, 6⟩
          VkImageLayout.SHADER_READ_ONLY_OPTIMAL) } := by
  obtain ⟨n, rfl⟩ : ∃ n, N = n + 1 := ⟨N - 1, by omega⟩
  simp only [generateMipmapLevelsTrace, replay_cons, replay_append, Replay.step, rangeIs_one,
    hcol 0 (by omega), beq_self_eq_true, Bool.or_true, Bool.and_true, Nat.add_sub_cancel]
  rw [replay_mipmapLoopTrace s L cmd img side n 0]
  · simp only [Nat.zero_add, transition_succ, replay_cons, replay_nil, Replay.step,
      rangeIs_transition_self, Bool.or_true, Bool.and_true, transition_same]
  · exact transition_self _ _ _ _ _ (by simp) (by simp)
  · intro l h1 h2
    show (r.layouts.transition img ⟨0, 1, 0, 6⟩ VkImageLayout.TRANSFER_SRC_OPTIMAL) img l = _
    rw [transition_other_level r.layouts img ⟨0, 1, 0, 6⟩ _ img l (by simp; omega)]
    exact hcol l (by omega)

/-- A `convertVkFormat` replays in order when the source levels are in the
layout it is told; it leaves the new image as a transfer destination and the
source as a transfer source. -/
theorem replay_convertTrace (s L : Nat) (cmd src dst : Handle) (info : VkImageCreateInfo)
    (fmt : VkFormat) (layout : VkImageLayout) (r : Replay) (hne : src ≠ dst)
    (hsrc : ∀ l, l < info.mipLevels → r.layouts src l = layout) :
    replay s L r (convertTrace cmd src dst info fmt layout) =
      { r with layouts := ((r.layouts.transition dst ⟨0, info.mipLevels, 0, info.arrayLayers⟩
          VkImageLayout.TRANSFER_DST_OPTIMAL).transition src
            ⟨0, info.mipLevels, 0, info.arrayLayers⟩ VkImageLayout.TRANSFER_SRC_OPTIMAL) } := by
  have hr : r.layouts.rangeIs src ⟨0, info.mipLevels, 0, info.arrayLayers⟩ layout = true := by
    rw [rangeIs_iff]
    intro l _ h2
    exact hsrc l (by simpa using h2)
  simp only [convertTrace, replay_cons, Replay.step, beq_self_eq_true, Bool.true_or,
    Bool.and_true, rangeIs_transition_other _ _ _ _ _ _ _ hne, hr, Bool.or_true]
  apply replay_blitLoopTrace
  intro l _ h2
  constructor
  · exact transition_self _ _ _ _ _ (by simp) (by simpa using h2)
  · show ((r.layouts.transition dst ⟨0, info.mipLevels, 0, info.arrayLayers⟩
        VkImageLayout.TRANSFER_DST_OPTIMAL).transition src
          ⟨0, info.mipLevels, 0, info.arrayLayers⟩ VkImageLayout.TRANSFER_SRC_OPTIMAL) dst l = _
    rw [transition_other_image _ _ _ _ _ _ (Ne.symm hne)]
    exact transition_self _ _ _ _ _ (by simp) (by simpa using h2)

/-- A `downloadCubemap` in which nothing fails replays in order when the
levels of the image are in the layout it is told; it leaves them as transfer
sources. -/
theorem replay_downloadTrace (s L : Nat) (env : Env) (img : Handle) (info : VkImageCreateInfo)
    (path : String) (ver : Version) (q : Nat) (layout : VkImageLayout) (h : Nat) (r : Replay)
    (himg : ∀ l, l < info.mipLevels → r.layouts img l = layout) :
    replay s L r (downloadTrace env img info path ver q layout h) =
      { r with layouts := (r.layouts.transition img ⟨0, info.mipLevels, 0, 6⟩
          VkImageLayout.TRANSFER_SRC_OPTIMAL) } := by
  have hr : r.layouts.rangeIs img ⟨0, info.mipLevels, 0, 6⟩ layout = true := by
    rw [rangeIs_iff]
    intro l _ h2
    exact himg l (by simpa using h2)
  by_cases hq : q > 0 <;>
  simp [downloadTrace, downloadWrittenTrace, downloadCopyTrace, replay_append, replay_cons,
    replay_nil, Replay.step, replay_allocLevelsTrace, replay_copyLevelsTrace,
    replay_writeLevelsTrace, hr, hq]

theorem rangeIs_transition_ne_layout (t : LayoutTable) (image : Handle) (n x y : Nat)
    (new layout : VkImageLayout) (hn : 1 ≤ n) (hne : new ≠ layout) :
    (t.transition image ⟨0, n, x, y⟩ new).rangeIs image ⟨0, n, x, y⟩ layout = false := by
  rw [Bool.eq_false_iff]
  intro h
  rw [rangeIs_iff] at h
  have h0 := h 0 (by simp) (by simpa using hn)
  rw [transition_self _ _ _ _ _ (by simp) (by simpa using hn)] at h0
  exact hne h0

theorem replay_beforeSpecularTrace (env : Env) (pin : String) (S M : Nat)
    (hL : 1 ≤ sample.maxMipLevels S) :
    replay 2 (sample.maxMipLevels S) Replay.start (beforeSpecularTrace env pin S M) =
      ⟨LayoutTable.transition (fun _ _ => VkImageLayout.UNDEFINED) 2
          ⟨0, sample.maxMipLevels S, 0, 6⟩ VkImageLayout.SHADER_READ_ONLY_OPTIMAL,
        some (6 * M + 24), true, [(some (6 * M + 20), false)]⟩ := by
  simp only [beforeSpecularTrace, uploadImageTrace, compileShaderTrace, resourcesTrace,
    pipelinesTrace, projectTrace, replay_append, replay_cons, replay_nil, Replay.step,
    Replay.start, replay_faceViewsTrace, replay_specularViewsTrace, List.cons_append,
    List.nil_append, beq_self_eq_true, Bool.true_or, Bool.and_true,
    rangeIs_transition_ne_layout _ _ _ _ _ _ _ hL
      (by decide :
        VkImageLayout.COLOR_ATTACHMENT_OPTIMAL ≠ VkImageLayout.SHADER_READ_ONLY_OPTIMAL)]
  rw [replay_generateMipmapLevelsTrace _ _ _ _ _ _ _ hL]
  · simp only [replay_cons, replay_nil, Replay.step, transition_same]
  · intro l hl
    simp [transition_apply, hl]

theorem submittedTrace_stages (env : Env) (pin : String) (S M sc fmt : Nat) :
    submittedTrace env pin S M sc fmt =
      beforeSpecularTrace env pin S M ++
      specularLoopTrace (6 * M + 31) (6 * M + 18) 3 (6 * M + 25) (handleRows M 11) M sc M 0 S
        (6 * M + 39) ++
      (diffuseTrace S M sc ++ outputTrace (6 * M + 31) S M fmt) := by
  simp [submittedTrace, recordTrace, filterTrace, beforeSpecularTrace, diffuseTrace,
    List.append_assoc]

/-- The replay of the calls of `sample` up to the end of the diffuse pass. -/
theorem replay_filtered (env : Env) (pin : String) (S M sc : Nat)
    (hL : 1 ≤ sample.maxMipLevels S) :
    replay 2 (sample.maxMipLevels S) Replay.start
        (beforeSpecularTrace env pin S M ++
          specularLoopTrace (6 * M + 31) (6 * M + 18) 3 (6 * M + 25) (handleRows M 11) M sc M 0
            S (6 * M + 39) ++ diffuseTrace S M sc) =
      ⟨((LayoutTable.transition (fun _ _ => VkImageLayout.UNDEFINED) 2
            ⟨0, sample.maxMipLevels S, 0, 6⟩ VkImageLayout.SHADER_READ_ONLY_OPTIMAL).transition 3
            ⟨0, M, 0, 6⟩ VkImageLayout.COLOR_ATTACHMENT_OPTIMAL).transition 4 ⟨0, 1, 0, 6⟩
            VkImageLayout.COLOR_ATTACHMENT_OPTIMAL,
        some (6 * M + 28), true,
        (some (6 * M + 20), false) ::
          (List.replicate M (some (6 * M + 24), true) ++ [(some (6 * M + 28), true)])⟩ := by
  rw [replay_append, replay_append, replay_beforeSpecularTrace env pin S M hL,
    replay_specularLoopTrace 2 _ _ _ 3 _ _ _ _ _ (by decide)]
  simp only [diffuseTrace, replay_cons, replay_nil, Replay.step, beq_self_eq_true, Bool.true_or,
    Bool.and_true, rangeIs_transition_self,
    rangeIs_transition_other _ _ _ _ _ _ _ (by decide : (2 : Nat) ≠ 3),
    rangeIs_transition_other _ _ _ _ _ _ _ (by decide : (2 : Nat) ≠ 4), List.cons_append,
    List.nil_append, List.append_assoc]

/-- The replay of the calls of `sample` up to the submission: it is in order,
and it ends with the two images handed to `downloadCubemap` in the layout
handed over with them. -/
theorem replay_submittedTrace (env : Env) (pin : String) (S M sc fmt : Nat)
    (hL : 1 ≤ sample.maxMipLevels S) :
    ∃ T : LayoutTable,
      replay 2 (sample.maxMipLevels S) Replay.start (submittedTrace env pin S M sc fmt) =
        ⟨T, some (6 * M + 28), true,
          (some (6 * M + 20), false) ::
            (List.replicate M (some (6 * M + 24), true) ++ [(some (6 * M + 28), true)])⟩ ∧
      (∀ l, l < M → T (downloadedSpecular fmt) l = downloadedLayout fmt) ∧
      T (downloadedDiffuse fmt) 0 = downloadedLayout fmt := by
  rw [submittedTrace_stages, ← List.append_assoc, replay_append, replay_filtered env pin S M sc hL]
  by_cases hf : fmt = VK_FORMAT_R32G32B32A32_SFLOAT
  · refine ⟨((LayoutTable.transition (fun _ _ => VkImageLayout.UNDEFINED) 2
        ⟨0, sample.maxMipLevels S, 0, 6⟩ VkImageLayout.SHADER_READ_ONLY_OPTIMAL).transition 3
        ⟨0, M, 0, 6⟩ VkImageLayout.COLOR_ATTACHMENT_OPTIMAL).transition 4 ⟨0, 1, 0, 6⟩
        VkImageLayout.COLOR_ATTACHMENT_OPTIMAL, ?_, ?_, ?_⟩
    · simp only [outputTrace, hf, bne_self_eq_false, Bool.false_eq_true, if_false,
        List.nil_append, replay_cons, replay_nil, Replay.step]
    · intro l hl
      simp [downloadedSpecular, downloadedLayout, hf, transition_apply, hl]
    · simp [downloadedDiffuse, downloadedLayout, hf, transition_apply]
  · have hb : (fmt != VK_FORMAT_R32G32B32A32_SFLOAT) = true := by simpa using hf
    refine ⟨(((((((LayoutTable.transition (fun _ _ => VkImageLayout.UNDEFINED) 2
        ⟨0, sample.maxMipLevels S, 0, 6⟩ VkImageLayout.SHADER_READ_ONLY_OPTIMAL).transition 3
        ⟨0, M, 0, 6⟩ VkImageLayout.COLOR_ATTACHMENT_OPTIMAL).transition 4 ⟨0, 1, 0, 6⟩
        VkImageLayout.COLOR_ATTACHMENT_OPTIMAL).transition 5
        ⟨0, M, 0, 6⟩ VkImageLayout.TRANSFER_DST_OPTIMAL).transition 3 ⟨0, M, 0, 6⟩
        VkImageLayout.TRANSFER_SRC_OPTIMAL).transition 6 ⟨0, 1, 0, 6⟩
        VkImageLayout.TRANSFER_DST_OPTIMAL).transition 4 ⟨0, 1, 0, 6⟩
        VkImageLayout.TRANSFER_SRC_OPTIMAL), ?_, ?_, ?_⟩
    · simp only [outputTrace, hb, if_true, replay_append]
      rw [replay_convertTrace 2 _ _ 3 5 (cubeInfo S M) fmt _ _ (by decide)
        (by intro l hl; simp [transition_apply, cubeInfo] at hl ⊢; exact hl)]
      rw [replay_convertTrace 2 _ _ 4 6 (cubeInfo S 1) fmt _ _ (by decide)
        (by intro l hl; simp [transition_apply, cubeInfo] at hl ⊢; exact hl)]
      simp only [replay_cons, replay_nil, Replay.step]
      rfl
    · intro l hl
      simp [downloadedSpecular, downloadedLayout, hb, transition_apply, hl, cubeInfo]
    · simp [downloadedDiffuse, downloadedLayout, hb, transition_apply, cubeInfo]

theorem downloaded_ne (fmt : VkFormat) : downloadedDiffuse fmt ≠ downloadedSpecular fmt := by
  unfold downloadedDiffuse downloadedSpecular
  split <;> decide

/-- The replay of a whole run in which nothing fails is in order and logs the
projection draw followed by the `M + 1` filter draws. -/
theorem replay_sampleTrace (env : Env) (pin ps pd : String) (ver q S M sc fmt : Nat)
    (hL : 1 ≤ sample.maxMipLevels S) :
    ∃ T : LayoutTable,
      replay 2 (sample.maxMipLevels S) Replay.start
          (sampleTrace env pin ps pd ver q S M sc fmt) =
        ⟨T, some (6 * M + 28), true,
          (some (6 * M + 20), false) ::
            (List.replicate M (some (6 * M + 24), true) ++ [(some (6 * M + 28), true)])⟩ := by
  obtain ⟨T, hT, h1, h2⟩ := replay_submittedTrace env pin S M sc fmt hL
  rw [sampleTrace, replay_append, replay_append, hT,
    replay_downloadTrace 2 _ env (downloadedSpecular fmt) (downloadedInfo S M fmt) ps _ q
      (downloadedLayout fmt) _ _ (by intro l hl; exact h1 l hl),
    replay_downloadTrace 2 _ env (downloadedDiffuse fmt) (downloadedInfo S 1 fmt) pd _ q
      (downloadedLayout fmt) _ _
      (by
        intro l hl
        have hl0 : l = 0 := by simpa [downloadedInfo] using hl
        subst hl0
        show (T.transition (downloadedSpecular fmt) _ _) (downloadedDiffuse fmt) 0 = _
        rw [transition_other_image _ _ _ _ _ _ (downloaded_ne fmt)]
        exact h2)]
  exact ⟨_, rfl⟩

theorem one_le_maxMipLevels (S M : Nat) (hS : S < 4294967296) (hacc : ¬ S >>> M < 1) :
    1 ≤ sample.maxMipLevels S := by
  have hS1 : 1 ≤ S := by
    by_contra h0
    have : S = 0 := by omega
    subst this
    simp at hacc
  rw [maxMipLevels_eq S hS1 hS]
  omega

/-! ## The claims -/

/-- C1: when `resolution >> mipCount < 1` (mip count below 32), `sample`
returns `InvalidArgument` and leaves the fresh state untouched: no call to an
external component has been made, so the device is not initialised and
nothing is uploaded, compiled, created or submitted. -/
theorem sample_invalid_argument_before_device_work (env : Env) (pin ps pd : String)
    (ver q S M sc : Nat) (fmt : VkFormat) (_hS : S < 4294967296) (_hM : M < 32)
    (h : S >>> M < 1) :
    sample env pin ps pd ver q S M sc fmt World.fresh = (Result.InvalidArgument, World.fresh) ∧
      (sample env pin ps pd ver q S M sc fmt World.fresh).2.trace = [] := by
  rw [sample_rejected env pin ps pd ver q S M sc fmt h]
  exact ⟨rfl, rfl⟩

/-- Witness of C1 at resolution 1 and mip count 1. -/
theorem sample_invalid_argument_before_device_work_witness :
    (1 : Nat) >>> 1 < 1 ∧
      sample okEnv "panorama.hdr" "specular.ktx2" "diffuse.ktx2" 2 0 1 1 16 109 World.fresh =
        (Result.InvalidArgument, World.fresh) :=
  ⟨by decide,
    (sample_invalid_argument_before_device_work okEnv "panorama.hdr" "specular.ktx2"
      "diffuse.ktx2" 2 0 1 1 16 109 (by decide) (by decide) (by decide)).1⟩

/-- C3: for every accepted pair, in a run in which no external call fails the
fourth image created is the diffuse cube image, with 1 mip level and 6 layers
at side `S`; the run ends with the container calls of a 1-level container
(six faces) and with the read-back of six faces of `S` by `S` texels,
whatever the specular mip count `M` is. -/
theorem sample_diffuse_container (env : Env) (hdev : env.DeviceOk) (hin : env.InputsOk)
    (hk : env.KtxOk) (pin ps pd : String) (ver q S M sc : Nat) (fmt : VkFormat)
    (_hS : S < 4294967296) (_hM : M < 32) (hacc : ¬ S >>> M < 1) :
    (sample env pin ps pd ver q S M sc fmt World.fresh).1 = Result.Success ∧
      (imagesCreated (sample env pin ps pd ver q S M sc fmt World.fresh).2.trace)[3]? =
        some (4, ⟨VK_FORMAT_R32G32B32A32_SFLOAT, S, S, 1, 6, true⟩) ∧
      containerCalls (sample.ktxImageVersion ver) S fmt (uint32_t (env.FormatElementSize fmt))
          1 q pd <:+
        ktxCalls (sample env pin ps pd ver q S M sc fmt World.fresh).2.trace ∧
      cubeCopies (downloadedDiffuse fmt) S 1 <:+
        imageCopies (sample env pin ps pd ver q S M sc fmt World.fresh).2.trace := by
  rw [sample_ok hdev hin hk pin ps pd ver q S M sc fmt hacc]
  refine ⟨rfl, ?_, ?_, ?_⟩
  · show (imagesCreated (sampleTrace env pin ps pd ver q S M sc fmt))[3]? = _
    rw [imagesCreated_sampleTrace]
    simp [cubeInfo]
  · show _ <:+ ktxCalls (sampleTrace env pin ps pd ver q S M sc fmt)
    rw [ktxCalls_sampleTrace]
    exact List.suffix_append _ _
  · show _ <:+ imageCopies (sampleTrace env pin ps pd ver q S M sc fmt)
    rw [imageCopies_sampleTrace]
    exact List.suffix_append _ _

/-- Witness of C3 at side 256 with 5 specular levels. -/
theorem sample_diffuse_container_witness :
    (imagesCreated (sample okEnv "panorama.hdr" "specular.ktx2" "diffuse.ktx2" 2 128 256 5 16
        109 World.fresh).2.trace)[3]? =
      some (4, ⟨VK_FORMAT_R32G32B32A32_SFLOAT, 256, 256, 1, 6, true⟩) :=
  (sample_diffuse_container okEnv okEnv_deviceOk okEnv_inputsOk okEnv_ktxOk "panorama.hdr"
    "specular.ktx2" "diffuse.ktx2" 2 128 256 5 16 109 (by decide) (by decide)
    (by decide)).2.1

/-- C4: for a 32-bit side `S`, the halving loop of `sample` ends, with any
fuel of at least `S`, at `floor(log2 S) + 1` for `S >= 1` and at `0` for
`S = 0`; in a run in which nothing fails the second image created, the
source cube map, has that many mip levels, and the calls of
`generateMipmapLevels` for that level count (on the command buffer
`6 * M + 31` and the source cube map 2) are part of the run. -/
theorem sample_maxMipLevels_log (S : Nat) (hS : S < 4294967296) :
    (∀ fuel, S ≤ fuel →
      sample.maxMipLevelsLoop fuel S 0 = if S = 0 then 0 else Nat.log 2 S + 1) ∧
    (sample.maxMipLevels S = if S = 0 then 0 else Nat.log 2 S + 1) ∧
    ∀ (env : Env) (pin ps pd : String) (ver q M sc : Nat) (fmt : VkFormat),
      env.DeviceOk → env.InputsOk → env.KtxOk → ¬ S >>> M < 1 →
      (imagesCreated (sample env pin ps pd ver q S M sc fmt World.fresh).2.trace)[1]? =
        some (2, ⟨VK_FORMAT_R32G32B32A32_SFLOAT, S, S, Nat.log 2 S + 1, 6, true⟩) ∧
      generateMipmapLevelsTrace (6 * M + 31) 2 (Nat.log 2 S + 1) S <:+:
        (sample env pin ps pd ver q S M sc fmt World.fresh).2.trace := by
  have hloop : ∀ fuel, S ≤ fuel →
      sample.maxMipLevelsLoop fuel S 0 = if S = 0 then 0 else Nat.log 2 S + 1 := by
    intro fuel hf
    have hlog : Nat.log 2 S < 32 := by
      by_cases h0 : S = 0
      · subst h0; simp
      · exact Nat.log_lt_of_lt_pow h0 (by simpa using hS)
    have := sample.maxMipLevelsLoop_fuel fuel S 0 hf (by split <;> omega)
    simpa using this
  refine ⟨hloop, hloop S (Nat.le_refl _), ?_⟩
  intro env pin ps pd ver q M sc fmt hdev hin hk hacc
  have hS1 : 1 ≤ S := by
    by_contra h0
    have : S = 0 := by omega
    subst this
    simp at hacc
  have hmax : sample.maxMipLevels S = Nat.log 2 S + 1 := maxMipLevels_eq S hS1 hS
  rw [sample_ok hdev hin hk pin ps pd ver q S M sc fmt hacc]
  refine ⟨?_, ?_⟩
  · show (imagesCreated (sampleTrace env pin ps pd ver q S M sc fmt))[1]? = _
    rw [imagesCreated_sampleTrace, hmax]
    simp [cubeInfo]
  · rw [← hmax]
    exact generateMipmapLevelsTrace_infix env pin ps pd ver q S M sc fmt

/-- Witness of C4 at side 256: the source cube map of a run with 5 specular
levels has `floor(log2 256) + 1` mip levels. -/
theorem sample_maxMipLevels_log_witness :
    (imagesCreated (sample okEnv "panorama.hdr" "specular.ktx2" "diffuse.ktx2" 2 128 256 5 16
        109 World.fresh).2.trace)[1]? =
      some (2, ⟨VK_FORMAT_R32G32B32A32_SFLOAT, 256, 256, Nat.log 2 256 + 1, 6, true⟩) :=
  ((sample_maxMipLevels_log 256 (by decide)).2.2 okEnv "panorama.hdr" "specular.ktx2"
    "diffuse.ktx2" 2 128 5 16 109 okEnv_deviceOk okEnv_inputsOk okEnv_ktxOk (by decide)).1

/-- C5: for a side `S >= 1` and a mip count `M` above `floor(log2 S) + 1`
(and below 32) `sample` returns `InvalidArgument` without any call; and
whenever the validation passes, `M` does not exceed the mip count
`maxMipLevels` of the source cube map. -/
theorem sample_rejects_excess_mips (env : Env) (pin ps pd : String) (ver q S M sc : Nat)
    (fmt : VkFormat) (hS1 : 1 ≤ S) (hS : S < 4294967296) (_hM : M < 32) :
    (Nat.log 2 S + 1 < M →
      sample env pin ps pd ver q S M sc fmt World.fresh =
        (Result.InvalidArgument, World.fresh)) ∧
    (¬ S >>> M < 1 → M ≤ sample.maxMipLevels S) := by
  constructor
  · intro h
    apply sample_rejected
    by_contra hacc
    have := (accepted_iff_le_log S M hS1).1 hacc
    omega
  · intro hacc
    have := (accepted_iff_le_log S M hS1).1 hacc
    rw [maxMipLevels_eq S hS1 hS]
    omega

/-- Witness of C5 at side 4: three source levels, a request for five is
rejected. -/
theorem sample_rejects_excess_mips_witness :
    sample okEnv "panorama.hdr" "specular.ktx2" "diffuse.ktx2" 2 0 4 5 16 109 World.fresh =
      (Result.InvalidArgument, World.fresh) :=
  (sample_rejects_excess_mips okEnv "panorama.hdr" "specular.ktx2" "diffuse.ktx2" 2 0 4 5 16 109
    (by decide) (by decide) (by decide)).1
    (by
      have : Nat.log 2 4 < 3 := Nat.log_lt_of_lt_pow (by decide) (by decide)
      omega)

/-- C6 as stated fails at `M = 3`, level 1: in a run in which nothing fails
(side 256) the roughness recorded for level 1 is the `float` nearest to one
third, `11184811 / 2 ^ 25`, and not the rational `1 / 3`. -/
theorem sample_specular_roughness_counterexample :
    okEnv.DeviceOk ∧ okEnv.InputsOk ∧ okEnv.KtxOk ∧ ¬ (256 : Nat) >>> 3 < 1 ∧
      ∃ p, (pushConstants (sample okEnv "panorama.hdr" "specular.ktx2" "diffuse.ktx2" 2 128 256
          3 16 109 World.fresh).2.trace)[1]? = some p ∧
        p.mipLevel = 1 ∧ p.roughness = 11184811 / 33554432 ∧
        p.roughness ≠ ((1 : Nat) : ℚ) / ((3 : Nat) : ℚ) := by
  refine ⟨okEnv_deviceOk, okEnv_inputsOk, okEnv_ktxOk, by decide, ?_⟩
  rw [sample_ok okEnv_deviceOk okEnv_inputsOk okEnv_ktxOk _ _ _ 2 128 256 3 16 109 (by decide),
    pushConstants_sampleTrace]
  have h1 : float ((1 : Nat) : ℚ) = 1 := by
    rw [float_natCast 1 (by norm_num)]; norm_num
  have h3 : float ((3 : Nat) : ℚ) = 3 := by
    rw [float_natCast 3 (by norm_num)]; norm_num
  refine ⟨⟨float (float ((1 : Nat) : ℚ) / float ((3 : Nat) : ℚ)), 16, 1, 256 >>> 1⟩, ?_, rfl,
    ?_, ?_⟩
  · rfl
  · show float (float ((1 : Nat) : ℚ) / float ((3 : Nat) : ℚ)) = 11184811 / 33554432
    rw [h1, h3, float_one_third]
  · show float (float ((1 : Nat) : ℚ) / float ((3 : Nat) : ℚ)) ≠ ((1 : Nat) : ℚ) / ((3 : Nat) : ℚ)
    rw [h1, h3, float_one_third]
    norm_num

/-- C6 (amended): for an accepted pair of a 32-bit side and a count `M >= 1`,
in a run in which nothing fails the push-constant blocks recorded are those
of the specular levels `m = 0 .. M - 1` in order, followed by the block of
the diffuse pass.  The roughness of level `m` is the `float` quotient of line
879, which is the rational `m / M` rounded to `float`: it differs from
`m / M` by at most `(m / M) / 2 ^ 24`, it is `m / M` itself when `M` is a
power of two, it is `0` at level 0 and it is below `1` at every level. -/
theorem sample_specular_roughness (env : Env) (hdev : env.DeviceOk) (hin : env.InputsOk)
    (hk : env.KtxOk) (pin ps pd : String) (ver q S M sc : Nat) (fmt : VkFormat)
    (hM1 : 1 ≤ M) (hS : S < 4294967296) (hacc : ¬ S >>> M < 1) :
    pushConstants (sample env pin ps pd ver q S M sc fmt World.fresh).2.trace =
        (List.range M).map (fun (m : Nat) =>
          (⟨float (float (m : ℚ) / float (M : ℚ)), sc, m, S >>> m⟩ : PushConstant)) ++
          [⟨0, sc, 0, S⟩] ∧
      (∀ m, m < M → ∃ p,
        (pushConstants (sample env pin ps pd ver q S M sc fmt World.fresh).2.trace)[m]? = some p ∧
          p.mipLevel = m ∧ p.roughness = float ((m : ℚ) / (M : ℚ)) ∧
          |p.roughness - (m : ℚ) / (M : ℚ)| ≤ (m : ℚ) / (M : ℚ) / 2 ^ 24 ∧
          ((∃ k, M = 2 ^ k) → p.roughness = (m : ℚ) / (M : ℚ)) ∧ p.roughness < 1) ∧
      ∃ p, (pushConstants (sample env pin ps pd ver q S M sc fmt World.fresh).2.trace)[0]? =
        some p ∧ p.roughness = 0 := by
  rw [sample_ok hdev hin hk pin ps pd ver q S M sc fmt hacc]
  have hM : M < 32 := by
    rw [shiftRight_lt_one_iff, Nat.not_lt] at hacc
    by_contra hge
    have h1 : 2 ^ 32 ≤ 2 ^ M := Nat.pow_le_pow_right (by decide) (by omega)
    have h2 : (2 : Nat) ^ 32 = 4294967296 := by norm_num
    omega
  have hpc := pushConstants_sampleTrace env pin ps pd ver q S M sc fmt
  have hMq : (0 : ℚ) < (M : ℚ) := by exact_mod_cast hM1
  have hget : ∀ m, m < M →
      (pushConstants (sampleTrace env pin ps pd ver q S M sc fmt))[m]? =
        some ⟨float (float (m : ℚ) / float (M : ℚ)), sc, m, S >>> m⟩ := by
    intro m hm
    rw [hpc, List.getElem?_append_left (by simpa using hm)]
    simp [List.getElem?_map, List.getElem?_range hm]
  have hfl : ∀ m, m < M →
      float (float (m : ℚ) / float (M : ℚ)) = float ((m : ℚ) / (M : ℚ)) := by
    intro m hm
    rw [float_natCast m (by omega), float_natCast M (by omega)]
  have hnn : ∀ m : Nat, (0 : ℚ) ≤ (m : ℚ) / (M : ℚ) := fun m => by positivity
  refine ⟨hpc, ?_, ?_⟩
  · intro m hm
    refine ⟨_, hget m hm, rfl, hfl m hm, ?_, ?_, ?_⟩
    · show |float (float (m : ℚ) / float (M : ℚ)) - (m : ℚ) / (M : ℚ)| ≤ _
      rw [hfl m hm]
      exact float_abs_sub_le _ (hnn m)
    · rintro ⟨k, rfl⟩
      show float (float (m : ℚ) / float ((2 ^ k : Nat) : ℚ)) = _
      rw [hfl m hm]
      have hk : k ≤ 24 := by
        by_contra hgt
        have : 2 ^ 5 ≤ 2 ^ k := Nat.pow_le_pow_right (by decide) (by omega)
        omega
      push_cast
      exact float_div_two_pow m k hm hk
    · show float (float (m : ℚ) / float (M : ℚ)) < 1
      rw [hfl m hm]
      apply float_lt_one _ (hnn m)
      rw [div_le_iff₀ hMq]
      have h1 : (m : ℚ) + 1 ≤ (M : ℚ) := by exact_mod_cast hm
      have h2 : (M : ℚ) ≤ 31 := by exact_mod_cast Nat.lt_succ_iff.1 hM
      linarith
  · refine ⟨_, hget 0 (by omega), ?_⟩
    show float (float ((0 : Nat) : ℚ) / float (M : ℚ)) = 0
    simp [float_zero]

/-- Witness of C6 at side 256 with 5 levels. -/
theorem sample_specular_roughness_witness :
    ∃ p, (pushConstants (sample okEnv "panorama.hdr" "specular.ktx2" "diffuse.ktx2" 2 128 256 5
        16 109 World.fresh).2.trace)[0]? = some p ∧ p.roughness = 0 :=
  (sample_specular_roughness okEnv okEnv_deviceOk okEnv_inputsOk okEnv_ktxOk "panorama.hdr"
    "specular.ktx2" "diffuse.ktx2" 2 128 256 5 16 109 (by decide) (by decide) (by decide)).2.2

/-- C7: for an accepted pair, when the inputs load and the device succeeds:
with the working format as target, `sample` reaches its serialisation with
the working specular image 3 and diffuse image 4 handed to `downloadCubemap`,
having created only the four working images and recorded no blit between two
images (no `convertVkFormat`); with another target format it hands over the
images 5 and 6, created in the target format with the sides, levels and
layers of images 3 and 4 and filled by the blits of one `convertVkFormat`
each.  In a run in which nothing fails the containers are written with the
texel size of the target format, which in the first case is the working
format. -/
theorem sample_format_conversion (env : Env) (hdev : env.DeviceOk) (hin : env.InputsOk)
    (pin ps pd : String) (ver q S M sc : Nat) (fmt : VkFormat)
    (_hS : S < 4294967296) (_hM : M < 32) (hacc : ¬ S >>> M < 1) :
    (fmt = VK_FORMAT_R32G32B32A32_SFLOAT →
      ∃ w, sample env pin ps pd ver q S M sc fmt World.fresh =
          sample.serialise env ps pd ver q 3 4 VkImageLayout.COLOR_ATTACHMENT_OPTIMAL
            VkImageLayout.COLOR_ATTACHMENT_OPTIMAL w ∧
        imagesCreated w.trace =
          [(1, panoramaInfo env),
           (2, ⟨VK_FORMAT_R32G32B32A32_SFLOAT, S, S, sample.maxMipLevels S, 6, true⟩),
           (3, ⟨VK_FORMAT_R32G32B32A32_SFLOAT, S, S, M, 6, true⟩),
           (4, ⟨VK_FORMAT_R32G32B32A32_SFLOAT, S, S, 1, 6, true⟩)] ∧
        conversionBlits w.trace = [] ∧
        w.images[2]? = some ⟨VK_FORMAT_R32G32B32A32_SFLOAT, S, S, M, 6, true⟩ ∧
        w.images[3]? = some ⟨VK_FORMAT_R32G32B32A32_SFLOAT, S, S, 1, 6, true⟩) ∧
    (fmt ≠ VK_FORMAT_R32G32B32A32_SFLOAT →
      ∃ w, sample env pin ps pd ver q S M sc fmt World.fresh =
          sample.serialise env ps pd ver q 5 6 VkImageLayout.TRANSFER_DST_OPTIMAL
            VkImageLayout.TRANSFER_DST_OPTIMAL w ∧
        imagesCreated w.trace =
          [(1, panoramaInfo env),
           (2, ⟨VK_FORMAT_R32G32B32A32_SFLOAT, S, S, sample.maxMipLevels S, 6, true⟩),
           (3, ⟨VK_FORMAT_R32G32B32A32_SFLOAT, S, S, M, 6, true⟩),
           (4, ⟨VK_FORMAT_R32G32B32A32_SFLOAT, S, S, 1, 6, true⟩),
           (5, ⟨fmt, S, S, M, 6, false⟩), (6, ⟨fmt, S, S, 1, 6, false⟩)] ∧
        conversionBlits w.trace = cubeBlits 3 5 S M ++ cubeBlits 4 6 S 1 ∧
        w.images[4]? = some ⟨fmt, S, S, M, 6, false⟩ ∧
        w.images[5]? = some ⟨fmt, S, S, 1, 6, false⟩) ∧
    (env.KtxOk →
      ktxCalls (sample env pin ps pd ver q S M sc fmt World.fresh).2.trace =
        containerCalls (sample.ktxImageVersion ver) S fmt (uint32_t (env.FormatElementSize fmt))
          M q ps ++
        containerCalls (sample.ktxImageVersion ver) S fmt (uint32_t (env.FormatElementSize fmt))
          1 q pd) := by
  have hsub := sample_submitted hdev hin pin ps pd ver q S M sc fmt hacc
  refine ⟨?_, ?_, ?_⟩
  · intro hf
    have hb : (fmt != VK_FORMAT_R32G32B32A32_SFLOAT) = false := by simp [hf]
    refine ⟨⟨submittedTrace env pin S M sc fmt, M + (6 * M + 40), sampleImages env S M fmt⟩,
      ?_, ?_, ?_, ?_, ?_⟩
    · rw [hsub]; simp [downloadedSpecular, downloadedDiffuse, downloadedLayout, hb]
    · show imagesCreated (submittedTrace env pin S M sc fmt) = _
      rw [imagesCreated_submittedTrace]; simp [hb, cubeInfo]
    · show conversionBlits (submittedTrace env pin S M sc fmt) = _
      rw [conversionBlits_submittedTrace]; simp [hb]
    · simp [sampleImages, cubeInfo]
    · simp [sampleImages, cubeInfo]
  · intro hf
    have hb : (fmt != VK_FORMAT_R32G32B32A32_SFLOAT) = true := by simpa using hf
    refine ⟨⟨submittedTrace env pin S M sc fmt, M + (6 * M + 40), sampleImages env S M fmt⟩,
      ?_, ?_, ?_, ?_, ?_⟩
    · rw [hsub]; simp [downloadedSpecular, downloadedDiffuse, downloadedLayout, hb]
    · show imagesCreated (submittedTrace env pin S M sc fmt) = _
      rw [imagesCreated_submittedTrace]; simp [hb, cubeInfo, downloadedInfo]
    · show conversionBlits (submittedTrace env pin S M sc fmt) = _
      rw [conversionBlits_submittedTrace]; simp [hb]
    · simp [sampleImages, hb, downloadedInfo]
    · simp [sampleImages, hb, downloadedInfo]
  · intro hk
    rw [sample_ok hdev hin hk pin ps pd ver q S M sc fmt hacc]
    exact ktxCalls_sampleTrace _ _ _ _ _ _ _ _ _ _

/-- Witness of C7 at side 256 with 5 levels and the working format as target:
no blit between two images is recorded. -/
theorem sample_format_conversion_witness :
    ∃ w, sample okEnv "panorama.hdr" "specular.ktx2" "diffuse.ktx2" 2 128 256 5 16
          VK_FORMAT_R32G32B32A32_SFLOAT World.fresh =
        sample.serialise okEnv "specular.ktx2" "diffuse.ktx2" 2 128 3 4
          VkImageLayout.COLOR_ATTACHMENT_OPTIMAL VkImageLayout.COLOR_ATTACHMENT_OPTIMAL w ∧
      conversionBlits w.trace = [] := by
  obtain ⟨w, h1, _, h3, _⟩ := (sample_format_conversion okEnv okEnv_deviceOk okEnv_inputsOk
    "panorama.hdr" "specular.ktx2" "diffuse.ktx2" 2 128 256 5 16 VK_FORMAT_R32G32B32A32_SFLOAT
    (by decide) (by decide) (by decide)).1 rfl
  exact ⟨w, h1, h3⟩

/-- C8: in `downloadCubemap` of a known image, when the device succeeds and
every face is written, the calls up to the last `writeFace` are followed, for
quality `0`, by `save` alone (no `compress`), whose result is returned; for a
quality `q > 0` by one `compress q` and then, if it succeeds, by `save`,
whose result is returned; and if `compress` fails its result is returned and
`save` is not called. -/
theorem downloadCubemap_compression (env : Env) (hdev : env.DeviceOk)
    (hw : ∀ t, env.writeFace t = Result.Success) (k : Handle) (path : String) (ver : Version)
    (q : Nat) (layout : VkImageLayout) (info : VkImageCreateInfo) (w : World)
    (hinfo : w.images[k]? = some info) :
    ∃ written : List Event,
      ktxCalls written =
        Event.ktxCreate ver info.width info.width info.format info.mipLevels true ::
          faceWrites info.width (uint32_t (env.FormatElementSize info.format)) info.mipLevels ∧
      (q = 0 →
        (downloadCubemap env (k + 1) path ver q layout w).2.trace =
            w.trace ++ written ++ [Event.save path] ∧
          (downloadCubemap env (k + 1) path ver q layout w).1 =
            env.save (w.trace ++ written ++ [Event.save path])) ∧
      (q > 0 → env.compress (w.trace ++ written ++ [Event.compress q]) = Result.Success →
        (downloadCubemap env (k + 1) path ver q layout w).2.trace =
            w.trace ++ written ++ [Event.compress q, Event.save path] ∧
          (downloadCubemap env (k + 1) path ver q layout w).1 =
            env.save (w.trace ++ written ++ [Event.compress q, Event.save path])) ∧
      (q > 0 → env.compress (w.trace ++ written ++ [Event.compress q]) ≠ Result.Success →
        (downloadCubemap env (k + 1) path ver q layout w).2.trace =
            w.trace ++ written ++ [Event.compress q] ∧
          (downloadCubemap env (k + 1) path ver q layout w).1 =
            env.compress (w.trace ++ written ++ [Event.compress q])) := by
  refine ⟨downloadWrittenTrace env (k + 1) info ver layout w.nextHandle,
    ktxCalls_downloadWrittenTrace env (k + 1) info ver layout w.nextHandle, ?_, ?_, ?_⟩
  · intro hq
    subst hq
    rw [downloadCubemap_written hdev hw k path ver 0 layout info w hinfo, finish_uncompressed]
    simp
  · intro hq hc
    rw [downloadCubemap_written hdev hw k path ver q layout info w hinfo,
      finish_compressed env path q hq _ (by simpa using hc)]
    simp
  · intro hq hc
    rw [downloadCubemap_written hdev hw k path ver q layout info w hinfo,
      finish_compress_failed env path q hq _ (by simpa using hc)]
    simp

/-- Witness of C8: a cube of side 4 with one level, quality 128. -/
theorem downloadCubemap_compression_witness :
    ∃ written : List Event,
      ktxCalls written =
        Event.ktxCreate Version.KTX2 4 4 VK_FORMAT_R32G32B32A32_SFLOAT 1 true ::
          faceWrites 4 (uint32_t (okEnv.FormatElementSize VK_FORMAT_R32G32B32A32_SFLOAT)) 1 ∧
      (downloadCubemap okEnv (0 + 1) "specular.ktx2" Version.KTX2 128
          VkImageLayout.COLOR_ATTACHMENT_OPTIMAL ⟨[], 1, [cubeInfo 4 1]⟩).2.trace =
        [] ++ written ++ [Event.compress 128, Event.save "specular.ktx2"] := by
  obtain ⟨written, h1, _, h3, _⟩ := downloadCubemap_compression okEnv okEnv_deviceOk
    (fun _ => rfl) 0 "specular.ktx2" Version.KTX2 128 VkImageLayout.COLOR_ATTACHMENT_OPTIMAL
    (cubeInfo 4 1) ⟨[], 1, [cubeInfo 4 1]⟩ rfl
  exact ⟨written, h1, (h3 (by decide) rfl).1⟩

/-- C9 does not hold of the code: with a device that succeeds and a container
writer that rejects the first face with `ContainerWriteFailed`, the call of
`downloadCubemap` for the specular image returns `ContainerWriteFailed`, and
`sample` returns `VulkanError` instead (side 64, one level, working format,
no compression). -/
theorem sample_replaces_download_failure :
    ∃ w, sample writeFailEnv "panorama.hdr" "specular.ktx" "diffuse.ktx" 1 0 64 1 16
          VK_FORMAT_R32G32B32A32_SFLOAT World.fresh =
        sample.serialise writeFailEnv "specular.ktx" "diffuse.ktx" 1 0 3 4
          VkImageLayout.COLOR_ATTACHMENT_OPTIMAL VkImageLayout.COLOR_ATTACHMENT_OPTIMAL w ∧
      (downloadCubemap writeFailEnv 3 "specular.ktx" Version.KTX1 0
        VkImageLayout.COLOR_ATTACHMENT_OPTIMAL w).1 = Result.ContainerWriteFailed ∧
      (sample writeFailEnv "panorama.hdr" "specular.ktx" "diffuse.ktx" 1 0 64 1 16
        VK_FORMAT_R32G32B32A32_SFLOAT World.fresh).1 = Result.VulkanError := by
  have hdev : writeFailEnv.DeviceOk := fun _ => rfl
  have hin : writeFailEnv.InputsOk := ⟨fun _ => rfl, fun _ => rfl, fun _ => rfl⟩
  have hf := sample_write_failed hdev hin Result.ContainerWriteFailed (by decide)
    (fun _ => rfl) "panorama.hdr" "specular.ktx" "diffuse.ktx" 1 0 64 1 16
    VK_FORMAT_R32G32B32A32_SFLOAT (by decide) (by decide)
  exact ⟨_, sample_submitted hdev hin "panorama.hdr" "specular.ktx" "diffuse.ktx" 1 0 64 1 16
    VK_FORMAT_R32G32B32A32_SFLOAT (by decide), hf.1, hf.2⟩

/-- C10: for an accepted pair with a device that initialises, if the loader
cannot read the panorama then `uploadImage` returns
`InputPanoramaFileNotFound` with a null image handle, `sample` returns
`InputPanoramaFileNotFound` after the calls `vulkan.initialize()` and
`loadHdr` only, and no container call is made. -/
theorem sample_panorama_not_found (env : Env) (pin ps pd : String) (ver q S M sc : Nat)
    (fmt : VkFormat) (_hS : S < 4294967296) (_hM : M < 32) (hacc : ¬ S >>> M < 1)
    (hinit : env.vk [Event.vulkanInitialize] = VK_SUCCESS)
    (hload : env.loadHdr [Event.vulkanInitialize, Event.loadHdr pin] ≠ Result.Success) :
    uploadImage env pin ⟨[Event.vulkanInitialize], 1, []⟩ =
        ((Result.InputPanoramaFileNotFound, VK_NULL_HANDLE),
          ⟨[Event.vulkanInitialize, Event.loadHdr pin], 1, []⟩) ∧
      sample env pin ps pd ver q S M sc fmt World.fresh =
        (Result.InputPanoramaFileNotFound,
          ⟨[Event.vulkanInitialize, Event.loadHdr pin], 1, []⟩) ∧
      ktxCalls (sample env pin ps pd ver q S M sc fmt World.fresh).2.trace = [] := by
  have hup := uploadImage_not_found env pin ⟨[Event.vulkanInitialize], 1, []⟩
    (by simpa using hload)
  have hs : sample env pin ps pd ver q S M sc fmt World.fresh =
      (Result.InputPanoramaFileNotFound,
        ⟨[Event.vulkanInitialize, Event.loadHdr pin], 1, []⟩) := by
    simp [sample, hacc, Dev.bind_run, Dev.pure_run, vkCall, World.fresh, hinit, hup]
  refine ⟨by simpa using hup, hs, ?_⟩
  rw [hs]
  rfl

/-- Witness of C10 at side 64 with one level. -/
theorem sample_panorama_not_found_witness :
    sample missingPanoramaEnv "missing.hdr" "specular.ktx2" "diffuse.ktx2" 2 0 64 1 16 109
        World.fresh =
      (Result.InputPanoramaFileNotFound,
        ⟨[Event.vulkanInitialize, Event.loadHdr "missing.hdr"], 1, []⟩) :=
  (sample_panorama_not_found missingPanoramaEnv "missing.hdr" "specular.ktx2" "diffuse.ktx2"
    2 0 64 1 16 109 (by decide) (by decide) (by decide) rfl (by decide)).2.1

/-- C11: in `downloadCubemap` of a known image of side `S` with `L` levels and
`b` bytes per texel, when the device succeeds and every face is written, for
a level below `L` and a face below 6: the `writeFace` call number
`6 * level + face` is the one for that face and level, and it and every other
`writeFace` call for that face and level carries exactly
`(S >> level) ^ 2 * b` bytes; `level` halvings of `S` give `S >> level`.  The
face is one that memory can hold: its byte count is below `2 ^ 64`, the range
of the `size_t` in which line 273 computes it. -/
theorem downloadCubemap_payload_size (env : Env) (hdev : env.DeviceOk)
    (hw : ∀ t, env.writeFace t = Result.Success) (k : Handle) (path : String) (ver : Version)
    (q : Nat) (layout : VkImageLayout) (info : VkImageCreateInfo) (w : World)
    (hinfo : w.images[k]? = some info) (level face : Nat) (hl : level < info.mipLevels)
    (hf : face < 6)
    (hfit : (info.width >>> level) ^ 2 * uint32_t (env.FormatElementSize info.format) <
      18446744073709551616) :
    (fun s => s >>> 1)^[level] info.width = info.width >>> level ∧
      (facesWritten (callsFrom (downloadCubemap env (k + 1) path ver q layout)
          w))[6 * level + face]? =
        some ((info.width >>> level) ^ 2 * uint32_t (env.FormatElementSize info.format),
          face, level) ∧
      ∀ d, (d, face, level) ∈
          facesWritten (callsFrom (downloadCubemap env (k + 1) path ver q layout) w) →
        d = (info.width >>> level) ^ 2 * uint32_t (env.FormatElementSize info.format) := by
  have hsize : size_t ((info.width >>> level) * (info.width >>> level) *
      uint32_t (env.FormatElementSize info.format)) =
      (info.width >>> level) ^ 2 * uint32_t (env.FormatElementSize info.format) := by
    rw [← Nat.pow_two]
    exact Nat.mod_eq_of_lt hfit
  rw [facesWritten_downloadCubemap hdev hw k path ver q layout info w hinfo]
  refine ⟨iterate_halve _ _, ?_, ?_⟩
  · rw [getElem?_flatMap_range6 _ _ _ _ hl hf, hsize]
  · intro d hd
    simp only [List.mem_flatMap, List.mem_map, List.mem_range, Prod.mk.injEq] at hd
    obtain ⟨l, _, f, _, h1, _, h3⟩ := hd
    subst h3
    rw [← h1, hsize]

/-- Witness of C11: face 3 of level 1 of a cube of side 256 with 5
levels and 16 bytes per texel has `128 * 128 * 16` bytes. -/
theorem downloadCubemap_payload_size_witness :
    (facesWritten (callsFrom (downloadCubemap okEnv (2 + 1) "specular.ktx2" Version.KTX2 0
        VkImageLayout.COLOR_ATTACHMENT_OPTIMAL)
        ⟨[], 1, [panoramaInfo okEnv, cubeInfo 256 9, cubeInfo 256 5]⟩))[6 * 1 + 3]? =
      some ((256 >>> 1) ^ 2 * uint32_t (okEnv.FormatElementSize VK_FORMAT_R32G32B32A32_SFLOAT),
        3, 1) :=
  (downloadCubemap_payload_size okEnv okEnv_deviceOk (fun _ => rfl) 2 "specular.ktx2"
    Version.KTX2 0 VkImageLayout.COLOR_ATTACHMENT_OPTIMAL (cubeInfo 256 5)
    ⟨[], 1, [panoramaInfo okEnv, cubeInfo 256 9, cubeInfo 256 5]⟩ rfl 1 3 (by decide)
    (by decide) (by decide)).2.1

/-- C12: in `downloadCubemap` of a known image with `L` levels, when the
device succeeds and every face is written, the container calls of the run are
the construction, then the `6 * L` calls of `writeFace` ordered level by
level from 0 to `L - 1` with faces 0 to 5 within each level, and only then
calls of `compress` or `save`. -/
theorem downloadCubemap_write_order (env : Env) (hdev : env.DeviceOk)
    (hw : ∀ t, env.writeFace t = Result.Success) (k : Handle) (path : String) (ver : Version)
    (q : Nat) (layout : VkImageLayout) (info : VkImageCreateInfo) (w : World)
    (hinfo : w.images[k]? = some info) :
    (∃ rest, ktxCalls (callsFrom (downloadCubemap env (k + 1) path ver q layout) w) =
        Event.ktxCreate ver info.width info.width info.format info.mipLevels true ::
          faceWrites info.width (uint32_t (env.FormatElementSize info.format)) info.mipLevels ++
          rest ∧
        ∀ e ∈ rest, e = Event.compress q ∨ e = Event.save path) ∧
      (facesWritten (callsFrom (downloadCubemap env (k + 1) path ver q layout) w)).length =
        6 * info.mipLevels ∧
      (facesWritten (callsFrom (downloadCubemap env (k + 1) path ver q layout) w)).map
          (fun x => (x.2.1, x.2.2)) =
        (List.range info.mipLevels).flatMap (fun l => (List.range 6).map (fun f => (f, l))) := by
  obtain ⟨rest, h1, h2⟩ := downloadCubemap_calls hdev hw k path ver q layout info w hinfo
  refine ⟨⟨ktxCalls rest, ?_, ?_⟩, ?_, ?_⟩
  · rw [h1, ktxCalls_append, ktxCalls_downloadWrittenTrace]
  · intro e he
    simp only [ktxCalls, List.mem_filterMap] at he
    obtain ⟨a, ha, hae⟩ := he
    rcases h2 a ha with rfl | rfl <;> simp [ktxCall] at hae <;> simp [← hae]
  · rw [facesWritten_downloadCubemap hdev hw k path ver q layout info w hinfo,
      length_flatMap_range6]
  · rw [facesWritten_downloadCubemap hdev hw k path ver q layout info w hinfo]
    simp [List.map_flatMap, Function.comp_def]

/-- Witness of C12: a cube of side 4 with two levels, quality 0. -/
theorem downloadCubemap_write_order_witness :
    (facesWritten (callsFrom (downloadCubemap okEnv (0 + 1) "specular.ktx2" Version.KTX2 0
        VkImageLayout.COLOR_ATTACHMENT_OPTIMAL) ⟨[], 1, [cubeInfo 4 2]⟩)).map
        (fun x => (x.2.1, x.2.2)) =
      (List.range (cubeInfo 4 2).mipLevels).flatMap
        (fun l => (List.range 6).map (fun f => (f, l))) :=
  (downloadCubemap_write_order okEnv okEnv_deviceOk (fun _ => rfl) 0 "specular.ktx2"
    Version.KTX2 0 VkImageLayout.COLOR_ATTACHMENT_OPTIMAL (cubeInfo 4 2)
    ⟨[], 1, [cubeInfo 4 2]⟩ rfl).2.2

/-- C13: the switch of `sample` maps the selector 1 to `KTX1`, 2 to `KTX2`
and every other value to `KTX1`; for an accepted pair and any selector, a run
in which nothing fails returns `Success` and constructs exactly two
containers, the specular and the diffuse one, both of the version the switch
gives. -/
theorem sample_container_version (env : Env) (hdev : env.DeviceOk) (hin : env.InputsOk)
    (hk : env.KtxOk) (pin ps pd : String) (ver q S M sc : Nat) (fmt : VkFormat)
    (_hS : S < 4294967296) (_hM : M < 32) (hacc : ¬ S >>> M < 1) :
    sample.ktxImageVersion 1 = Version.KTX1 ∧ sample.ktxImageVersion 2 = Version.KTX2 ∧
      (ver ≠ 1 → ver ≠ 2 → sample.ktxImageVersion ver = Version.KTX1) ∧
      (sample env pin ps pd ver q S M sc fmt World.fresh).1 = Result.Success ∧
      containerVersions (sample env pin ps pd ver q S M sc fmt World.fresh).2.trace =
        [sample.ktxImageVersion ver, sample.ktxImageVersion ver] := by
  refine ⟨rfl, rfl, ?_, ?_, ?_⟩
  · intro h1 h2
    unfold sample.ktxImageVersion
    split
    · exact absurd rfl h1
    · exact absurd rfl h2
    · rfl
  · rw [sample_ok hdev hin hk pin ps pd ver q S M sc fmt hacc]
  · rw [sample_ok hdev hin hk pin ps pd ver q S M sc fmt hacc]
    show containerVersions (sampleTrace env pin ps pd ver q S M sc fmt) = _
    rw [containerVersions_eq, ktxCalls_sampleTrace, List.filterMap_append,
      containerVersions_containerCalls, containerVersions_containerCalls]
    rfl

/-- Witness of C13 with the selector 3, side 256 and 5 levels: both
containers are `KTX1`. -/
theorem sample_container_version_witness :
    containerVersions (sample okEnv "panorama.hdr" "specular.ktx" "diffuse.ktx" 3 0 256 5 16 109
        World.fresh).2.trace = [Version.KTX1, Version.KTX1] :=
  (sample_container_version okEnv okEnv_deviceOk okEnv_inputsOk okEnv_ktxOk "panorama.hdr"
    "specular.ktx" "diffuse.ktx" 3 0 256 5 16 109 (by decide) (by decide) (by decide)).2.2.2.2

/-- C15: for an accepted pair, with the working format as target or another
one, replay the calls of a run of `sample` in which nothing fails over a
table of layouts per image and mip level that starts in `UNDEFINED`.  Every
barrier declares `UNDEFINED` or the tracked layout of every level of its
range as its old layout, and every blit finds its source level in
`TRANSFER_SRC_OPTIMAL` and its destination level in `TRANSFER_DST_OPTIMAL`.
The draws are the projection, recorded with the panorama's descriptor set
while the source cube map (image 2) is a colour attachment, then the `M`
specular draws and the diffuse draw, recorded with the two descriptor sets
made over the view 10 of all levels of image 2 while every level of image 2
is in `SHADER_READ_ONLY_OPTIMAL`.  When `sample` calls `downloadCubemap` for
the specular image, and after that call for the diffuse image, the layout it
passes is the tracked layout of every level of that image. -/
theorem sample_layouts_replay (env : Env) (hdev : env.DeviceOk) (hin : env.InputsOk)
    (hk : env.KtxOk) (pin ps pd : String) (ver q S M sc : Nat) (fmt : VkFormat)
    (hS : S < 4294967296) (_hM : M < 32) (hacc : ¬ S >>> M < 1) :
    (replay 2 (sample.maxMipLevels S) Replay.start
        (sample env pin ps pd ver q S M sc fmt World.fresh).2.trace).ok = true ∧
    (replay 2 (sample.maxMipLevels S) Replay.start
        (sample env pin ps pd ver q S M sc fmt World.fresh).2.trace).draws =
      (some (6 * M + 20), false) ::
        (List.replicate M (some (6 * M + 24), true) ++ [(some (6 * M + 28), true)]) ∧
    Event.createImageView 10 2 (some ⟨0, sample.maxMipLevels S, 0, 6⟩) true ∈
      (sample env pin ps pd ver q S M sc fmt World.fresh).2.trace ∧
    Event.createDescriptorSet (6 * M + 23) (6 * M + 24) 7 10 1 ∈
      (sample env pin ps pd ver q S M sc fmt World.fresh).2.trace ∧
    Event.createDescriptorSet (6 * M + 27) (6 * M + 28) 7 10 1 ∈
      (sample env pin ps pd ver q S M sc fmt World.fresh).2.trace ∧
    ∃ w, sample env pin ps pd ver q S M sc fmt World.fresh =
        sample.serialise env ps pd ver q (downloadedSpecular fmt) (downloadedDiffuse fmt)
          (downloadedLayout fmt) (downloadedLayout fmt) w ∧
      (∀ l, l < M →
        (replay 2 (sample.maxMipLevels S) Replay.start w.trace).layouts
          (downloadedSpecular fmt) l = downloadedLayout fmt) ∧
      (replay 2 (sample.maxMipLevels S) Replay.start
        (downloadCubemap env (downloadedSpecular fmt) ps (sample.ktxImageVersion ver) q
          (downloadedLayout fmt) w).2.trace).layouts (downloadedDiffuse fmt) 0 =
        downloadedLayout fmt := by
  have hL := one_le_maxMipLevels S M hS hacc
  obtain ⟨T, hT⟩ := replay_sampleTrace env pin ps pd ver q S M sc fmt hL
  obtain ⟨U, hU, hU1, hU2⟩ := replay_submittedTrace env pin S M sc fmt hL
  have hst := sampleTrace_stages env pin ps pd ver q S M sc fmt
  refine ⟨?_, ?_, ?_, ?_, ?_, ?_⟩
  · rw [sample_ok hdev hin hk pin ps pd ver q S M sc fmt hacc]
    show (replay 2 _ Replay.start (sampleTrace env pin ps pd ver q S M sc fmt)).ok = true
    rw [hT]
  · rw [sample_ok hdev hin hk pin ps pd ver q S M sc fmt hacc]
    show (replay 2 _ Replay.start (sampleTrace env pin ps pd ver q S M sc fmt)).draws = _
    rw [hT]
  · rw [sample_ok hdev hin hk pin ps pd ver q S M sc fmt hacc]
    show _ ∈ sampleTrace env pin ps pd ver q S M sc fmt
    rw [hst]
    simp [beforeSpecularTrace, resourcesTrace]
  · rw [sample_ok hdev hin hk pin ps pd ver q S M sc fmt hacc]
    show _ ∈ sampleTrace env pin ps pd ver q S M sc fmt
    rw [hst]
    simp [beforeSpecularTrace, pipelinesTrace]
  · rw [sample_ok hdev hin hk pin ps pd ver q S M sc fmt hacc]
    show _ ∈ sampleTrace env pin ps pd ver q S M sc fmt
    rw [hst]
    simp [beforeSpecularTrace, pipelinesTrace]
  · refine ⟨⟨submittedTrace env pin S M sc fmt, M + (6 * M + 40), sampleImages env S M fmt⟩,
      sample_submitted hdev hin pin ps pd ver q S M sc fmt hacc, ?_, ?_⟩
    · intro l hl
      show (replay 2 _ Replay.start (submittedTrace env pin S M sc fmt)).layouts _ l = _
      rw [hU]
      exact hU1 l hl
    · have hd : (downloadCubemap env (downloadedSpecular fmt) ps (sample.ktxImageVersion ver) q
          (downloadedLayout fmt)
          ⟨submittedTrace env pin S M sc fmt, M + (6 * M + 40),
            sampleImages env S M fmt⟩).2.trace =
          submittedTrace env pin S M sc fmt ++
            downloadTrace env (downloadedSpecular fmt) (downloadedInfo S M fmt) ps
              (sample.ktxImageVersion ver) q (downloadedLayout fmt) (M + (6 * M + 40)) := by
        by_cases hf : fmt = VK_FORMAT_R32G32B32A32_SFLOAT
        · have := downloadCubemap_ok hdev hk 2 ps (sample.ktxImageVersion ver) q
            (downloadedLayout fmt) (downloadedInfo S M fmt)
            ⟨submittedTrace env pin S M sc fmt, M + (6 * M + 40), sampleImages env S M fmt⟩
            (by simp [sampleImages, downloadedInfo, cubeInfo, hf])
          simp only [Nat.reduceAdd] at this
          simp [downloadedSpecular, hf] at this ⊢
          rw [this]
        · have hb : (fmt != VK_FORMAT_R32G32B32A32_SFLOAT) = true := by simpa using hf
          have := downloadCubemap_ok hdev hk 4 ps (sample.ktxImageVersion ver) q
            (downloadedLayout fmt) (downloadedInfo S M fmt)
            ⟨submittedTrace env pin S M sc fmt, M + (6 * M + 40), sampleImages env S M fmt⟩
            (by simp [sampleImages, hb])
          simp only [Nat.reduceAdd] at this
          simp [downloadedSpecular, hb] at this ⊢
          rw [this]
      rw [hd, replay_append, hU,
        replay_downloadTrace 2 _ env (downloadedSpecular fmt) (downloadedInfo S M fmt) ps _ q
          (downloadedLayout fmt) _ _ (by intro l hl; exact hU1 l hl)]
      show (U.transition (downloadedSpecular fmt) _ _) (downloadedDiffuse fmt) 0 = _
      rw [transition_other_image _ _ _ _ _ _ (downloaded_ne fmt)]
      exact hU2

/-- Witness of C15 at side 256 with 5 levels and the working format. -/
theorem sample_layouts_replay_witness :
    (replay 2 (sample.maxMipLevels 256) Replay.start
      (sample okEnv "panorama.hdr" "specular.ktx2" "diffuse.ktx2" 2 128 256 5 16 109
        World.fresh).2.trace).ok = true :=
  (sample_layouts_replay okEnv okEnv_deviceOk okEnv_inputsOk okEnv_ktxOk "panorama.hdr"
    "specular.ktx2" "diffuse.ktx2" 2 128 256 5 16 109 (by decide) (by decide) (by decide)).1

/-- C16: for an accepted pair, in a run in which nothing fails, the calls
between the binding of the specular filter pipeline and the creation of the
diffuse framebuffer are, for each level `m` from 0 to `M - 1` in increasing
order, one block of six calls with exactly one draw: a framebuffer of
`S >> m` by `S >> m` over the six face views of level `m` of the specular
image, the push-constant block with `mipLevel = m`, the caller's sample count
and `width = S >> m`, a render pass over the area `S >> m` by `S >> m`, the
draw, and the end of the pass.  One draw is recorded before these blocks and
one after them, and `S >> m` is at least 1 for every `m < M`. -/
theorem sample_specular_draws (env : Env) (hdev : env.DeviceOk) (hin : env.InputsOk)
    (hk : env.KtxOk) (pin ps pd : String) (ver q S M sc : Nat) (fmt : VkFormat)
    (_hS : S < 4294967296) (_hM : M < 32) (hacc : ¬ S >>> M < 1) :
    (∃ pre post, (sample env pin ps pd ver q S M sc fmt World.fresh).2.trace =
        pre ++
        (List.range M).flatMap (fun m =>
          specularLevelCalls (6 * M + 31) (6 * M + 18) 3 (6 * M + 25) (6 * M + 39 + m)
            (List.range' (11 + 6 * m) 6) M sc m (S >>> m)) ++
        post ∧
      pre.getLast? = some (Event.cmdBindPipeline (6 * M + 31) (6 * M + 26)) ∧
      post.head? = some (Event.createFramebuffer (M + (6 * M + 39)) (6 * M + 18) S S
        (List.range' (6 * M + 12) 6) 1) ∧
      drawsRecorded pre = [(6 * M + 31, 3, 1)] ∧ drawsRecorded post = [(6 * M + 31, 3, 1)]) ∧
    Event.createPipeline (6 * M + 26) (6 * M + 25) (6 * M + 18) 3 5 "filterCubeMapSpecular" 6 S S ∈
      (sample env pin ps pd ver q S M sc fmt World.fresh).2.trace ∧
    (∀ m j, m < M → j < 6 →
      Event.createImageView (11 + 6 * m + j) 3 (some ⟨m, 1, j, 1⟩) false ∈
        (sample env pin ps pd ver q S M sc fmt World.fresh).2.trace) ∧
    ∀ m, m < M → 1 ≤ S >>> m := by
  rw [sample_ok hdev hin hk pin ps pd ver q S M sc fmt hacc]
  have hst := sampleTrace_stages env pin ps pd ver q S M sc fmt
  refine ⟨⟨beforeSpecularTrace env pin S M,
    diffuseTrace S M sc ++ afterDiffuseTrace env ps pd ver q S M fmt, ?_, ?_, ?_, ?_, ?_⟩,
    ?_, ?_, ?_⟩
  · show sampleTrace env pin ps pd ver q S M sc fmt = _
    rw [hst, specularLoopTrace_eq]
    congr 2
    apply List.flatMap_congr
    intro m hm
    rw [handleRows_getD M 11 (0 + m) (by simpa using hm)]
    simp [Nat.add_comm]
  · exact beforeSpecularTrace_getLast? env pin S M
  · simp [diffuseTrace]
  · exact drawsRecorded_beforeSpecularTrace env pin S M
  · have := drawsRecorded_afterDiffuseTrace env ps pd ver q S M fmt
    simp only [drawsRecorded] at this
    simp [drawsRecorded, diffuseTrace, drawRecorded, this]
  · show _ ∈ sampleTrace env pin ps pd ver q S M sc fmt
    rw [hst]
    simp [beforeSpecularTrace, pipelinesTrace]
  · intro m j hm hj
    show _ ∈ sampleTrace env pin ps pd ver q S M sc fmt
    rw [hst]
    have := mem_specularViewsTrace 3 M 0 11 m j hm hj
    simp only [Nat.zero_add] at this
    simp [beforeSpecularTrace, resourcesTrace, this]
  · intro m hm
    exact one_le_shiftRight_of_accepted S M m hacc (by omega)

/-- Witness of C16 at side 256 with 5 levels: the view of face 5 of level 4 of
the specular image. -/
theorem sample_specular_draws_witness :
    Event.createImageView (11 + 6 * 4 + 5) 3 (some ⟨4, 1, 5, 1⟩) false ∈
      (sample okEnv "panorama.hdr" "specular.ktx2" "diffuse.ktx2" 2 128 256 5 16 109
        World.fresh).2.trace :=
  (sample_specular_draws okEnv okEnv_deviceOk okEnv_inputsOk okEnv_ktxOk "panorama.hdr"
    "specular.ktx2" "diffuse.ktx2" 2 128 256 5 16 109 (by decide) (by decide)
    (by decide)).2.2.1 4 5 (by decide) (by decide)

/-- C17: for a known source image of side `S` with `L` levels and `A` layers
and a null output handle, `convertVkFormat` asks the device for one image of
side `S`, `L` levels, `A` layers and the requested format.  When the device
creates it, `convertVkFormat` returns `Success` with the new image, has
created nothing else, and records exactly `L` blits, the one for level `l`
from the source level `l` to the new image's level `l` over `A` layers with
extent `S >> l` in both directions on both sides; when the device refuses,
it returns `VulkanError` and records no blit.  For an unknown source image or
a non-null output handle it returns `InvalidArgument`, hands the output
handle back and makes no call.  The side `S` is that of an image a blit can
address: it is below `2 ^ 31`, the range of the `int32_t` offsets of lines
127-136. -/
theorem convertVkFormat_blits (env : Env) (cmd k : Handle) (fmt : VkFormat)
    (layout : VkImageLayout) (info : VkImageCreateInfo) (w : World)
    (hinfo : w.images[k]? = some info) (hS : info.width < 2147483648) :
    (env.vk (w.trace ++ [Event.createImage2DAndAllocate (w.images.length + 1)
        ⟨fmt, info.width, info.width, info.mipLevels, info.arrayLayers, false⟩]) = VK_SUCCESS →
      (convertVkFormat env cmd (k + 1) VK_NULL_HANDLE fmt layout w).1 =
          (Result.Success, w.images.length + 1) ∧
        (convertVkFormat env cmd (k + 1) VK_NULL_HANDLE fmt layout w).2.images =
          w.images ++ [⟨fmt, info.width, info.width, info.mipLevels, info.arrayLayers, false⟩] ∧
        imagesCreated (callsFrom (convertVkFormat env cmd (k + 1) VK_NULL_HANDLE fmt layout) w) =
          [(w.images.length + 1,
            ⟨fmt, info.width, info.width, info.mipLevels, info.arrayLayers, false⟩)] ∧
        blitsRecorded (callsFrom (convertVkFormat env cmd (k + 1) VK_NULL_HANDLE fmt layout) w) =
          (List.range info.mipLevels).map (fun l =>
            (k + 1, w.images.length + 1,
              (⟨l, info.arrayLayers, ((info.width >>> l : Nat) : Int),
                ((info.width >>> l : Nat) : Int), 1, l, info.arrayLayers,
                ((info.width >>> l : Nat) : Int), ((info.width >>> l : Nat) : Int), 1⟩ :
                  VkImageBlit)))) ∧
      (env.vk (w.trace ++ [Event.createImage2DAndAllocate (w.images.length + 1)
        ⟨fmt, info.width, info.width, info.mipLevels, info.arrayLayers, false⟩]) ≠ VK_SUCCESS →
      (convertVkFormat env cmd (k + 1) VK_NULL_HANDLE fmt layout w).1 =
          (Result.VulkanError, VK_NULL_HANDLE) ∧
        (convertVkFormat env cmd (k + 1) VK_NULL_HANDLE fmt layout w).2.images = w.images ∧
        blitsRecorded (callsFrom (convertVkFormat env cmd (k + 1) VK_NULL_HANDLE fmt layout) w) =
          []) ∧
      (∀ src out, (src = VK_NULL_HANDLE ∨ w.images[src - 1]? = none) →
        convertVkFormat env cmd src out fmt layout w = ((Result.InvalidArgument, out), w)) ∧
      (∀ src out, out ≠ VK_NULL_HANDLE →
        convertVkFormat env cmd src out fmt layout w = ((Result.InvalidArgument, out), w)) := by
  refine ⟨?_, ?_, ?_, ?_⟩
  · intro hcreate
    have hrun := convertVkFormat_created cmd k fmt layout info w hinfo hcreate
    have hc : callsFrom (convertVkFormat env cmd (k + 1) VK_NULL_HANDLE fmt layout) w =
        convertTrace cmd (k + 1) (w.images.length + 1) info fmt layout := by
      apply callsFrom_eq
      rw [hrun]
    refine ⟨?_, ?_, ?_, ?_⟩
    · rw [hrun]
    · rw [hrun]
    · rw [hc, imagesCreated_convertTrace]
    · rw [hc, blitsRecorded_convertTrace]
      apply List.map_congr_left
      intro l _
      rw [int32_t_of_lt _ (shiftRight_lt_of_lt info.width l _ hS)]
  · intro hcreate
    have hrun := convertVkFormat_refused cmd k fmt layout info w hinfo hcreate
    have hc : callsFrom (convertVkFormat env cmd (k + 1) VK_NULL_HANDLE fmt layout) w =
        [Event.createImage2DAndAllocate (w.images.length + 1)
          ⟨fmt, info.width, info.width, info.mipLevels, info.arrayLayers, false⟩] := by
      apply callsFrom_eq
      rw [hrun]
    refine ⟨?_, ?_, ?_⟩
    · rw [hrun]
    · rw [hrun]
    · rw [hc]
      rfl
  · intro src out hsrc
    rcases hsrc with h0 | hnone
    · simp [convertVkFormat, Dev.bind_run, Dev.pure_run, getCreateInfo_run, h0]
    · by_cases h0 : src = VK_NULL_HANDLE
      · simp [convertVkFormat, Dev.bind_run, Dev.pure_run, getCreateInfo_run, h0]
      · simp [convertVkFormat, Dev.bind_run, Dev.pure_run, getCreateInfo_run, h0, hnone]
  · intro src out hout
    simp only [convertVkFormat, Dev.bind_run, getCreateInfo_run]
    split
    · rfl
    · simp only [hout, bne_iff_ne, ne_eq, not_false_eq_true, ite_true]
      cases w.images[src - 1]? <;> rfl

/-- Witness of C17: the specular cube of side 256 with 5 levels, image 3,
converted to the format 37. -/
theorem convertVkFormat_blits_witness :
    blitsRecorded (callsFrom (convertVkFormat okEnv 31 (2 + 1) VK_NULL_HANDLE 37
        VkImageLayout.COLOR_ATTACHMENT_OPTIMAL)
        ⟨[], 1, [panoramaInfo okEnv, cubeInfo 256 9, cubeInfo 256 5, cubeInfo 256 1]⟩) =
      (List.range (cubeInfo 256 5).mipLevels).map (fun l =>
        (2 + 1, 4 + 1,
          (⟨l, (cubeInfo 256 5).arrayLayers, (((cubeInfo 256 5).width >>> l : Nat) : Int),
            (((cubeInfo 256 5).width >>> l : Nat) : Int), 1, l, (cubeInfo 256 5).arrayLayers,
            (((cubeInfo 256 5).width >>> l : Nat) : Int),
            (((cubeInfo 256 5).width >>> l : Nat) : Int), 1⟩ : VkImageBlit))) :=
  ((convertVkFormat_blits okEnv 31 2 37 VkImageLayout.COLOR_ATTACHMENT_OPTIMAL
    (cubeInfo 256 5) ⟨[], 1, [panoramaInfo okEnv, cubeInfo 256 9, cubeInfo 256 5, cubeInfo 256 1]⟩
    rfl (by decide)).1 rfl).2.2.2

/-- C18: for a side `S >= 1` the mip count 0 passes the check of line 434.
With a device that fails to initialise the run ends with
`VulkanInitializationFailed` after that one call; in a run in which nothing
fails `sample` returns `Success`, the third image created, the specular cube
image, is requested with 0 mip levels, the binding of the specular filter
pipeline is followed directly by the creation of the diffuse framebuffer, the
run records two draws only (the projection and the diffuse pass) and the
push-constant block of the diffuse pass only, and the container calls are
the construction of a specular container with 0 levels followed directly by
its `compress` and `save` (no `writeFace`), then those of the diffuse
container. -/
theorem sample_zero_mips (env : Env) (pin ps pd : String) (ver q S sc : Nat) (fmt : VkFormat)
    (hS1 : 1 ≤ S) (_hS : S < 4294967296) :
    ¬ S >>> 0 < 1 ∧
    (env.vk [Event.vulkanInitialize] ≠ VK_SUCCESS →
      sample env pin ps pd ver q S 0 sc fmt World.fresh =
        (Result.VulkanInitializationFailed, ⟨[Event.vulkanInitialize], 1, []⟩)) ∧
    (env.DeviceOk → env.InputsOk → env.KtxOk →
      (sample env pin ps pd ver q S 0 sc fmt World.fresh).1 = Result.Success ∧
      (imagesCreated (sample env pin ps pd ver q S 0 sc fmt World.fresh).2.trace)[2]? =
        some (3, ⟨VK_FORMAT_R32G32B32A32_SFLOAT, S, S, 0, 6, true⟩) ∧
      [Event.cmdBindPipeline 31 26,
          Event.createFramebuffer 39 18 S S (List.range' 12 6) 1] <:+:
        (sample env pin ps pd ver q S 0 sc fmt World.fresh).2.trace ∧
      drawsRecorded (sample env pin ps pd ver q S 0 sc fmt World.fresh).2.trace =
        [(31, 3, 1), (31, 3, 1)] ∧
      pushConstants (sample env pin ps pd ver q S 0 sc fmt World.fresh).2.trace =
        [⟨0, sc, 0, S⟩] ∧
      ktxCalls (sample env pin ps pd ver q S 0 sc fmt World.fresh).2.trace =
        Event.ktxCreate (sample.ktxImageVersion ver) S S fmt 0 true ::
          ((if q > 0 then [Event.compress q] else []) ++ [Event.save ps]) ++
        containerCalls (sample.ktxImageVersion ver) S fmt (uint32_t (env.FormatElementSize fmt))
          1 q pd) := by
  have hacc : ¬ S >>> 0 < 1 := by simp; omega
  refine ⟨hacc, ?_, ?_⟩
  · intro hinit
    have hS0 : ¬ S = 0 := by omega
    simp [sample, hS0, Dev.bind_run, Dev.pure_run, vkCall, World.fresh, hinit]
  · intro hdev hin hk
    rw [sample_ok hdev hin hk pin ps pd ver q S 0 sc fmt hacc]
    refine ⟨rfl, ?_, ?_, ?_, ?_, ?_⟩
    · show (imagesCreated (sampleTrace env pin ps pd ver q S 0 sc fmt))[2]? = _
      rw [imagesCreated_sampleTrace]
      simp [cubeInfo]
    · show _ <:+: sampleTrace env pin ps pd ver q S 0 sc fmt
      rw [sampleTrace_stages]
      have := infix_of_last_head (beforeSpecularTrace_getLast? env pin S 0)
        (show (diffuseTrace S 0 sc ++ afterDiffuseTrace env ps pd ver q S 0 fmt).head? =
          some (Event.createFramebuffer 39 18 S S (List.range' 12 6) 1) from rfl)
      simpa [specularLoopTrace] using this
    · show drawsRecorded (sampleTrace env pin ps pd ver q S 0 sc fmt) = _
      rw [drawsRecorded_sampleTrace]
      rfl
    · show pushConstants (sampleTrace env pin ps pd ver q S 0 sc fmt) = _
      rw [pushConstants_sampleTrace]
      rfl
    · show ktxCalls (sampleTrace env pin ps pd ver q S 0 sc fmt) = _
      rw [ktxCalls_sampleTrace]
      simp [containerCalls, faceWrites]

/-- Witness of C18 at side 64: two draws. -/
theorem sample_zero_mips_witness :
    drawsRecorded (sample okEnv "panorama.hdr" "specular.ktx2" "diffuse.ktx2" 2 0 64 0 16 109
        World.fresh).2.trace = [(31, 3, 1), (31, 3, 1)] :=
  ((sample_zero_mips okEnv "panorama.hdr" "specular.ktx2" "diffuse.ktx2" 2 0 64 16 109
    (by decide) (by decide)).2.2 okEnv_deviceOk okEnv_inputsOk okEnv_ktxOk).2.2.2.1

/-- C19 does not hold of the code: for a cube of side 16384 in the working
format (16 bytes per texel) a face of level 0 has `2 ^ 32` bytes.  A run of
`sample` with that resolution in which nothing fails calls `downloadCubemap`
for the specular image 3; the six staging buffers of level 0 are allocated
with the size computed in `uint32_t`, which is 0, and `2 ^ 32` bytes are
read back from each of them. -/
theorem downloadCubemap_staging_size_mismatch :
    ∃ w, sample okEnv "panorama.hdr" "specular.ktx" "diffuse.ktx" 1 0 16384 1 16
          VK_FORMAT_R32G32B32A32_SFLOAT World.fresh =
        sample.serialise okEnv "specular.ktx" "diffuse.ktx" 1 0 3 4
          VkImageLayout.COLOR_ATTACHMENT_OPTIMAL VkImageLayout.COLOR_ATTACHMENT_OPTIMAL w ∧
      (callsFrom (downloadCubemap okEnv 3 "specular.ktx" Version.KTX1 0
          VkImageLayout.COLOR_ATTACHMENT_OPTIMAL) w).filterMap bufferAllocated =
        [(47, 0), (48, 0), (49, 0), (50, 0), (51, 0), (52, 0)] ∧
      (callsFrom (downloadCubemap okEnv 3 "specular.ktx" Version.KTX1 0
          VkImageLayout.COLOR_ATTACHMENT_OPTIMAL) w).filterMap bufferRead =
        [(47, 4294967296), (48, 4294967296), (49, 4294967296), (50, 4294967296),
         (51, 4294967296), (52, 4294967296)] := by
  have hd := downloadCubemap_ok okEnv_deviceOk okEnv_ktxOk 2 "specular.ktx" Version.KTX1 0
    VkImageLayout.COLOR_ATTACHMENT_OPTIMAL (cubeInfo 16384 1)
    ⟨submittedTrace okEnv "panorama.hdr" 16384 1 16 VK_FORMAT_R32G32B32A32_SFLOAT, 1 + (6 * 1 + 40),
      sampleImages okEnv 16384 1 VK_FORMAT_R32G32B32A32_SFLOAT⟩ rfl
  have hc := callsFrom_eq (congrArg (fun p => p.2.trace) hd)
  refine ⟨_, sample_submitted okEnv_deviceOk okEnv_inputsOk "panorama.hdr" "specular.ktx"
    "diffuse.ktx" 1 0 16384 1 16 VK_FORMAT_R32G32B32A32_SFLOAT (by decide), ?_, ?_⟩
  · rw [hc]
    simp [downloadTrace, downloadWrittenTrace, downloadCopyTrace, allocLevelsTrace,
      allocFacesTrace, copyLevelsTrace, copyFacesTrace, writeLevelsTrace, writeFacesTrace,
      bufferAllocated, cubeInfo, uint32_t, okEnv, VK_FORMAT_R32G32B32A32_SFLOAT]
  · rw [hc]
    simp [downloadTrace, downloadWrittenTrace, downloadCopyTrace, allocLevelsTrace,
      allocFacesTrace, copyLevelsTrace, copyFacesTrace, writeLevelsTrace, writeFacesTrace,
      bufferRead, handleRows, List.range', cubeInfo, uint32_t, size_t, okEnv,
      VK_FORMAT_R32G32B32A32_SFLOAT]

end IBLLib
